import Mathlib

/-!
qimgv image viewer: viewport geometry, zoom and the scaled-layer swap.

A shallow embedding of `ImageViewerV2` (`qimgv/gui/viewers/imageviewerv2.cpp`).

* The widget is a record `ImageViewerV2`; every member function is a pure function
  from the state before the call to the state after it.
* `float` / `qreal` quantities (scales, scene coordinates) are exact rationals, so every
  statement below is a statement in exact arithmetic.  `int` quantities are integers.
* Signals emitted by a call are appended to the `emitted` log of the state.
* The Qt classes used by the viewer (`QGraphicsView`, `QGraphicsPixmapItem`, `QRect`,
  `QSize`, `qBound`, `qRound`) are not part of the repository; the few operations the
  viewer calls are modelled after the Qt 5 implementation, each with a comment.
* Repaint requests (`update()`, `viewport()->update()`) have no effect on the state.
-/

namespace Qimgv

/-! Qt value types -/

/-- Qt `qMax`: `(a < b) ? b : a`. -/
def qMax {α : Type} [LinearOrder α] (a b : α) : α := if a < b then b else a

/-- Qt `qMin`: `(a < b) ? a : b`. -/
def qMin {α : Type} [LinearOrder α] (a b : α) : α := if a < b then a else b

/-- Qt `qBound(min, val, max)`: `qMax(min, qMin(max, val))`. -/
def qBound {α : Type} [LinearOrder α] (lo val hi : α) : α := qMax lo (qMin hi val)

/-- Qt 5 `qRound(double)`: the nearest integer, halves rounded up. -/
def qRound (x : ℚ) : ℤ := ⌊x + 1 / 2⌋

/-- C++ conversion `int(double)`: truncation toward zero. -/
def truncToInt (x : ℚ) : ℤ := if 0 ≤ x then ⌊x⌋ else ⌈x⌉

/-- Integer point `QPoint`. -/
structure QPoint where
  x : ℤ
  y : ℤ
  deriving DecidableEq, Repr

/-- Real point `QPointF`. -/
structure QPointF where
  x : ℚ
  y : ℚ
  deriving DecidableEq, Repr

/-- Integer size `QSize`. -/
structure QSize where
  width : ℤ
  height : ℤ
  deriving DecidableEq, Repr

/-- Integer rectangle `QRect`, stored by its corner coordinates as in Qt. -/
structure QRect where
  x1 : ℤ
  y1 : ℤ
  x2 : ℤ
  y2 : ℤ
  deriving DecidableEq, Repr

/-- Real rectangle `QRectF`: top-left corner and size. -/
structure QRectF where
  x : ℚ
  y : ℚ
  w : ℚ
  h : ℚ
  deriving DecidableEq, Repr

/-- Conversion from `QPoint` to `QPointF` conversion. -/
def QPoint.toPointF (p : QPoint) : QPointF := ⟨(p.x : ℚ), (p.y : ℚ)⟩

/-- Qt `QPointF::toPoint`: both coordinates through `qRound`. -/
def QPointF.toPoint (p : QPointF) : QPoint := ⟨qRound p.x, qRound p.y⟩

/-- Constructor `QRect(topLeft, bottomRight)`. -/
def QRect.ofCorners (tl br : QPoint) : QRect := ⟨tl.x, tl.y, br.x, br.y⟩

/-- Qt `QRect::left`. -/
def QRect.left (r : QRect) : ℤ := r.x1

/-- Qt `QRect::right`. -/
def QRect.right (r : QRect) : ℤ := r.x2

/-- Qt `QRect::top`. -/
def QRect.top (r : QRect) : ℤ := r.y1

/-- Qt `QRect::bottom`. -/
def QRect.bottom (r : QRect) : ℤ := r.y2

/-- Qt `QRect::width`: `x2 - x1 + 1`. -/
def QRect.width (r : QRect) : ℤ := r.x2 - r.x1 + 1

/-- Qt `QRect::height`: `y2 - y1 + 1`. -/
def QRect.height (r : QRect) : ℤ := r.y2 - r.y1 + 1

/-- Qt `QRect::center`: `((x1 + x2) / 2, (y1 + y2) / 2)` with C++ integer division. -/
def QRect.center (r : QRect) : QPoint := ⟨Int.tdiv (r.x1 + r.x2) 2, Int.tdiv (r.y1 + r.y2) 2⟩

/-- Qt `QRectF::center`. -/
def QRectF.center (r : QRectF) : QPointF := ⟨r.x + r.w / 2, r.y + r.h / 2⟩

/-- Qt `QRectF::topLeft`. -/
def QRectF.topLeft (r : QRectF) : QPointF := ⟨r.x, r.y⟩

/-- Qt `QRectF::bottomRight`. -/
def QRectF.bottomRight (r : QRectF) : QPointF := ⟨r.x + r.w, r.y + r.h⟩

/-- Qt `QSizeF::toSize` applied to the size of a `QRectF`. -/
def QRectF.toSize (r : QRectF) : QSize := ⟨qRound r.w, qRound r.h⟩

/-- Qt `operator*(QSize, qreal)`: both sides scaled and rounded. -/
def QSize.mul (s : QSize) (c : ℚ) : QSize := ⟨qRound ((s.width : ℚ) * c), qRound ((s.height : ℚ) * c)⟩

/-- A raster buffer `QPixmap`: its pixel dimensions, its device pixel ratio, and a number
standing for its pixel contents. -/
structure QPixmap where
  width : ℤ
  height : ℤ
  devicePixelRatio : ℚ
  contents : ℕ
  deriving DecidableEq, Repr

/-- Qt `QPixmap::size`. -/
def QPixmap.size (p : QPixmap) : QSize := ⟨p.width, p.height⟩

/-- Qt `QPixmap::isNull`: no pixels. -/
def QPixmap.isNull (p : QPixmap) : Bool := decide (p.width ≤ 0) || decide (p.height ≤ 0)

/-- Qt `QPixmap::setDevicePixelRatio`. -/
def QPixmap.setDevicePixelRatio (p : QPixmap) (r : ℚ) : QPixmap := { p with devicePixelRatio := r }

/-- Calls made on a `QMovie` decoder, in the order they are made. -/
inductive MovieCall where
  | jumpToFrame (frame : ℤ)
  | jumpToNextFrame
  deriving DecidableEq, Repr

/-- The part of a `QMovie` the viewer depends on: the frame count and current frame
number, the size of its frames, the delay of each frame, the frame numbers the decoder
fails to deliver (`broken`), and the trace of decoder calls made so far. -/
structure QMovie where
  frameCount : ℤ
  currentFrameNumber : ℤ
  valid : Bool := true
  frameWidth : ℤ := 0
  frameHeight : ℤ := 0
  delays : List ℤ := []
  broken : List ℤ := []
  calls : List MovieCall := []
  deriving DecidableEq, Repr

/-- Qt `QMovie::isValid`. -/
def QMovie.isValid (m : QMovie) : Bool := m.valid

/-- Qt `QMovie::jumpToNextFrame`: the decoder delivers frame `current + 1` unless that
frame is past the end (no loops of the file are left, so Qt reports a failure) or
cannot be decoded;
on failure the current frame stays.  The result carries the returned flag. -/
def QMovie.jumpToNextFrame (m : QMovie) : QMovie × Bool :=
  if 0 ≤ m.currentFrameNumber + 1 ∧ m.currentFrameNumber + 1 < m.frameCount ∧
      m.currentFrameNumber + 1 ∉ m.broken then
    ({ m with currentFrameNumber := m.currentFrameNumber + 1,
              calls := m.calls ++ [MovieCall.jumpToNextFrame] }, true)
  else ({ m with calls := m.calls ++ [MovieCall.jumpToNextFrame] }, false)

/-- Qt `QMovie::jumpToFrame(0)`, the only jump the viewer makes: nothing to do at frame 0;
otherwise the decoder is rewound and delivers frame 0 unless it cannot. -/
def QMovie.jumpToFrame0 (m : QMovie) : QMovie × Bool :=
  if m.currentFrameNumber = 0 then
    ({ m with calls := m.calls ++ [MovieCall.jumpToFrame 0] }, true)
  else if 0 < m.frameCount ∧ (0 : ℤ) ∉ m.broken then
    ({ m with currentFrameNumber := 0, calls := m.calls ++ [MovieCall.jumpToFrame 0] }, true)
  else ({ m with calls := m.calls ++ [MovieCall.jumpToFrame 0] }, false)

/-- Qt `QMovie::currentPixmap`: the current frame; its contents are identified by the
frame number.  Before the first frame there is no pixmap (a null one). -/
def QMovie.currentPixmap (m : QMovie) : QPixmap :=
  if m.currentFrameNumber < 0 then { width := 0, height := 0, devicePixelRatio := 1, contents := 0 }
  else { width := m.frameWidth, height := m.frameHeight, devicePixelRatio := 1,
         contents := m.currentFrameNumber.toNat + 1 }

/-- Qt `QMovie::nextFrameDelay`: the delay attached to the current frame. -/
def QMovie.nextFrameDelay (m : QMovie) : ℤ := m.delays.getD m.currentFrameNumber.toNat 0

/-- A single-shot `QTimer`. -/
structure QTimer where
  active : Bool
  interval : ℤ
  deriving DecidableEq, Repr

/-- Qt `QTimer::start(msec)`. -/
def QTimer.start (_t : QTimer) (msec : ℤ) : QTimer := { active := true, interval := msec }

/-- Qt `QTimer::start()` with the interval already set. -/
def QTimer.restart (t : QTimer) : QTimer := { t with active := true }

/-- Qt `QTimer::stop`. -/
def QTimer.stop (t : QTimer) : QTimer := { t with active := false }

/-- A `QTimeLine` driving one scroll axis: whether it is running, and its frame range. -/
structure QTimeLine where
  running : Bool
  startFrame : ℤ
  endFrame : ℤ
  deriving DecidableEq, Repr

/-- Qt `QTimeLine::stop`. -/
def QTimeLine.stop (t : QTimeLine) : QTimeLine := { t with running := false }

/-- Qt `QTimeLine::setFrameRange`. -/
def QTimeLine.setFrameRange (t : QTimeLine) (a b : ℤ) : QTimeLine :=
  { t with startFrame := a, endFrame := b }

/-- Qt `QTimeLine::start`. -/
def QTimeLine.start (t : QTimeLine) : QTimeLine := { t with running := true }

/-! Enumerations of the viewer -/

/-- Enumeration `Qt::TransformationMode`. -/
inductive TransformationMode where
  | FastTransformation
  | SmoothTransformation
  deriving DecidableEq, Repr

/-- Enumeration `ImageFitMode`. -/
inductive ImageFitMode where
  | FIT_WINDOW
  | FIT_WIDTH
  | FIT_ORIGINAL
  | FIT_FREE
  deriving DecidableEq, Repr

/-- Enumeration `ViewLockMode`. -/
inductive ViewLockMode where
  | LOCK_NONE
  | LOCK_ZOOM
  | LOCK_ALL
  deriving DecidableEq, Repr

/-- Enumeration `ScalingFilter` (the two filters the viewer distinguishes). -/
inductive ScalingFilter where
  | QI_FILTER_NEAREST
  | QI_FILTER_BILINEAR
  deriving DecidableEq, Repr

/-- Enumeration `ImageFocusPoint`, the setting `focusPointIn1to1Mode`. -/
inductive ImageFocusPoint where
  | FOCUS_TOP
  | FOCUS_CENTER
  | FOCUS_CURSOR
  deriving DecidableEq, Repr

/-- Enumeration `MouseInteractionState`. -/
inductive MouseInteractionState where
  | MOUSE_NONE
  | MOUSE_DRAG_BEGIN
  | MOUSE_DRAG
  | MOUSE_PAN
  | MOUSE_ZOOM
  | MOUSE_WHEEL_ZOOM
  deriving DecidableEq, Repr

/-- Enumeration `ImageScrolling`, the setting `imageScrolling`. -/
inductive ImageScrolling where
  | SCROLL_NONE
  | SCROLL_BY_TRACKPAD
  | SCROLL_BY_TRACKPAD_AND_WHEEL
  deriving DecidableEq, Repr

/-- Signals of `ImageViewerV2`. -/
inductive ViewerSignal where
  | scaleChanged (scale : ℚ)
  | scalingRequested (size : QSize) (filter : ScalingFilter)
  | frameChanged (frame : ℤ)
  | durationChanged (frames : ℤ)
  | animationPaused (paused : Bool)
  | playbackFinished
  | draggedOut
  deriving DecidableEq, Repr

/-- The values of the global `settings` object read by the viewer. -/
structure Settings where
  smoothAnimatedImages : Bool
  smoothUpscaling : Bool
  expandImage : Bool
  expandLimit : ℚ
  keepFitMode : Bool
  imageFitMode : ImageFitMode
  zoomStep : ℚ
  transparencyGrid : Bool
  focusPointIn1to1Mode : ImageFocusPoint
  absoluteZoomStep : Bool
  scalingFilter : ScalingFilter
  imageScrolling : ImageScrolling
  deriving DecidableEq, Repr

/-! The graphics item and the view -/

/-- A `QGraphicsPixmapItem` at scene position (0, 0) without rotation: the members the
viewer sets. -/
structure QGraphicsPixmapItem where
  pixmap : Option QPixmap
  scale : ℚ
  offset : QPointF
  transformOriginPoint : QPointF
  transformationMode : TransformationMode
  visible : Bool
  deriving DecidableEq, Repr

/-- Qt `operator/(QSize, qreal)`: both sides divided and rounded. -/
def QSize.div (s : QSize) (c : ℚ) : QSize := ⟨qRound ((s.width : ℚ) / c), qRound ((s.height : ℚ) / c)⟩

/-- Qt `QGraphicsPixmapItem::boundingRect`: empty for a null pixmap, else the rectangle at
`offset` of size `pixmap.size() / pixmap.devicePixelRatio()` (an integer `QSize`). -/
def QGraphicsPixmapItem.boundingRect (it : QGraphicsPixmapItem) : QRectF :=
  match it.pixmap with
  | none => ⟨0, 0, 0, 0⟩
  | some p =>
    if p.isNull then ⟨0, 0, 0, 0⟩
    else ⟨it.offset.x, it.offset.y,
          ((p.size.div p.devicePixelRatio).width : ℚ), ((p.size.div p.devicePixelRatio).height : ℚ)⟩

/-- Qt `QGraphicsItem::mapToScene(QPointF)`: scaling by `scale` about the transform origin. -/
def QGraphicsPixmapItem.mapToScene (it : QGraphicsPixmapItem) (a : QPointF) : QPointF :=
  ⟨it.transformOriginPoint.x + it.scale * (a.x - it.transformOriginPoint.x),
   it.transformOriginPoint.y + it.scale * (a.y - it.transformOriginPoint.y)⟩

/-- Qt `QGraphicsItem::mapFromScene(QPointF)`: the inverse scaling; Qt substitutes the
identity when the transform is not invertible (`scale == 0`). -/
def QGraphicsPixmapItem.mapFromScene (it : QGraphicsPixmapItem) (q : QPointF) : QPointF :=
  if it.scale = 0 then q
  else ⟨it.transformOriginPoint.x + (q.x - it.transformOriginPoint.x) / it.scale,
        it.transformOriginPoint.y + (q.y - it.transformOriginPoint.y) / it.scale⟩

/-- Qt `QGraphicsItem::mapRectToScene`: the (normalised) image of a rectangle. -/
def QGraphicsPixmapItem.mapRectToScene (it : QGraphicsPixmapItem) (r : QRectF) : QRectF :=
  let x := it.transformOriginPoint.x + it.scale * (r.x - it.transformOriginPoint.x)
  let y := it.transformOriginPoint.y + it.scale * (r.y - it.transformOriginPoint.y)
  let w := it.scale * r.w
  let h := it.scale * r.h
  ⟨if w < 0 then x + w else x, if h < 0 then y + h else y,
   if w < 0 then -w else w, if h < 0 then -h else h⟩

/-- The `QGraphicsView` part of the widget: viewport size, the scroll bar values and
ranges, and the pointer as seen by the widget.  The viewer never sets a view matrix, so
scene and viewport coordinates differ by the scroll offset only; the layout is left to
right and the scene (200000 x 200000) is larger than the viewport, so Qt applies no
indent.  The frame shape is `NoFrame` and both scroll bars are always off, so the widget
and its viewport have the same size. -/
structure GraphicsView where
  viewportWidth : ℤ
  viewportHeight : ℤ
  horizontalValue : ℤ
  verticalValue : ℤ
  horizontalMinimum : ℤ
  horizontalMaximum : ℤ
  verticalMinimum : ℤ
  verticalMaximum : ℤ
  devicePixelRatioF : ℚ
  cursorPos : QPoint
  underMouse : Bool
  deriving DecidableEq, Repr

/-- Qt `viewport()->rect()`. -/
def GraphicsView.rect (v : GraphicsView) : QRect := ⟨0, 0, v.viewportWidth - 1, v.viewportHeight - 1⟩

/-- Qt `QGraphicsView::mapToScene(QPoint)`: the scroll offset is added. -/
def GraphicsView.mapToScene (v : GraphicsView) (p : QPoint) : QPointF :=
  ⟨(p.x : ℚ) + v.horizontalValue, (p.y : ℚ) + v.verticalValue⟩

/-- Qt `QGraphicsView::mapFromScene(QPointF)`: the scroll offset is subtracted and the
result rounded by `QPointF::toPoint`. -/
def GraphicsView.mapFromScene (v : GraphicsView) (q : QPointF) : QPoint :=
  QPointF.toPoint ⟨q.x - v.horizontalValue, q.y - v.verticalValue⟩

/-- Value of `mapToScene(viewport()->rect()).boundingRect().center()`: the scene point shown at
the middle of the viewport.  Qt maps the rectangle widened by one pixel, and maps an
invalid (empty) rectangle to the empty polygon. -/
def GraphicsView.sceneCenter (v : GraphicsView) : QPointF :=
  if v.viewportWidth ≤ 0 ∨ v.viewportHeight ≤ 0 then ⟨0, 0⟩
  else ⟨(v.horizontalValue : ℚ) + (v.viewportWidth : ℚ) / 2,
        (v.verticalValue : ℚ) + (v.viewportHeight : ℚ) / 2⟩

/-- Qt `QGraphicsView::centerOn(QPointF)`: each scroll bar is set to
`int(pos - viewportExtent / 2.0)`; `QAbstractSlider::setValue` bounds the value to the
scroll bar range. -/
def GraphicsView.centerOn (v : GraphicsView) (pos : QPointF) : GraphicsView :=
  { v with
    horizontalValue :=
      qBound v.horizontalMinimum (truncToInt (pos.x - (v.viewportWidth : ℚ) / 2)) v.horizontalMaximum
    verticalValue :=
      qBound v.verticalMinimum (truncToInt (pos.y - (v.viewportHeight : ℚ) / 2)) v.verticalMaximum }

/-- Qt `horizontalScrollBar()->setValue(v)`: the value bounded to the scroll bar range. -/
def GraphicsView.setHorizontalValue (v : GraphicsView) (x : ℤ) : GraphicsView :=
  { v with horizontalValue := qBound v.horizontalMinimum x v.horizontalMaximum }

/-- Qt `verticalScrollBar()->setValue(v)`: the value bounded to the scroll bar range. -/
def GraphicsView.setVerticalValue (v : GraphicsView) (y : ℤ) : GraphicsView :=
  { v with verticalValue := qBound v.verticalMinimum y v.verticalMaximum }

/-- The scroll bar ranges leave the target of `centerOn pos` unchanged: the view can be
centred on `pos`. -/
def GraphicsView.canCenterOn (v : GraphicsView) (pos : QPointF) : Prop :=
  (v.horizontalMinimum ≤ truncToInt (pos.x - (v.viewportWidth : ℚ) / 2) ∧
    truncToInt (pos.x - (v.viewportWidth : ℚ) / 2) ≤ v.horizontalMaximum) ∧
  (v.verticalMinimum ≤ truncToInt (pos.y - (v.viewportHeight : ℚ) / 2) ∧
    truncToInt (pos.y - (v.viewportHeight : ℚ) / 2) ≤ v.verticalMaximum)

instance (v : GraphicsView) (pos : QPointF) : Decidable (v.canCenterOn pos) := by
  unfold GraphicsView.canCenterOn; infer_instance

/-! The viewer state -/

/-- Constants of `imageviewerv2.h` whose values are not in the source files at hand. -/
structure HeaderConstants where
  FAST_SCALE_THRESHOLD : ℚ
  SCROLL_DISTANCE : ℤ
  SCROLL_SPEED_MILTIPLIER : ℚ
  TRACKPAD_SCROLL_MULTIPLIER : ℚ
  LARGE_VIEWPORT_SIZE : ℤ
  dragThreshold : ℤ
  deriving DecidableEq, Repr

/-- The scene rectangle set by the constructor: `setSceneRect(0, 0, 200000, 200000)`. -/
def sceneWidth : ℚ := 200000

/-- The scene rectangle set by the constructor: `setSceneRect(0, 0, 200000, 200000)`. -/
def sceneHeight : ℚ := 200000

/-- The member `maxScale`, initialised to `500.0f` by the constructor and never assigned. -/
def maxScale : ℚ := 500

/-- Members of `ImageViewerV2` together with the `QGraphicsView` it derives from. -/
structure ImageViewerV2 where
  consts : HeaderConstants
  view : GraphicsView
  pixmap : Option QPixmap
  pixmapScaled : Option QPixmap
  movie : Option QMovie
  pixmapItem : QGraphicsPixmapItem
  pixmapItemScaled : QGraphicsPixmapItem
  transparencyGridEnabled : Bool
  expandImage : Bool
  smoothAnimatedImages : Bool
  smoothUpscaling : Bool
  forceFastScale : Bool
  keepFitMode : Bool
  loopPlayback : Bool
  absoluteStep : Bool
  minScale : ℚ
  fitWindowScale : ℚ
  expandLimit : ℚ
  lockedScale : ℚ
  zoomStep : ℚ
  dpr : ℚ
  mViewLock : ViewLockMode
  imageFitMode : ImageFitMode
  imageFitModeDefault : ImageFitMode
  mScalingFilter : ScalingFilter
  focusIn1to1 : ImageFocusPoint
  zoomAnchor : QPointF × QPoint
  savedViewportPos : QPointF
  emitted : List ViewerSignal
  animationTimer : QTimer
  scaleTimer : QTimer
  scrollTimeLineX : QTimeLine
  scrollTimeLineY : QTimeLine
  mouseInteraction : MouseInteractionState
  mouseMoveStartPos : QPoint
  mousePressPos : QPoint
  settings : Settings
  zoomThreshold : ℤ
  deriving DecidableEq, Repr

/-! Member functions of the viewer -/

namespace ImageViewerV2

/-- Emission of a signal: appended to the log. -/
def emit (st : ImageViewerV2) (s : ViewerSignal) : ImageViewerV2 :=
  { st with emitted := st.emitted ++ [s] }

/-- Method `ImageViewerV2::isDisplaying`. -/
def isDisplaying (st : ImageViewerV2) : Bool := st.pixmap.isSome

/-- Method `ImageViewerV2::hasAnimation`. -/
def hasAnimation (st : ImageViewerV2) : Bool := st.movie.isSome

/-- Method `ImageViewerV2::currentScale`. -/
def currentScale (st : ImageViewerV2) : ℚ := st.pixmapItem.scale

/-- Qt `QWidget::width` of the viewer (equal to the viewport width, see `GraphicsView`). -/
def width (st : ImageViewerV2) : ℤ := st.view.viewportWidth

/-- Qt `QWidget::height` of the viewer (equal to the viewport height, see `GraphicsView`). -/
def height (st : ImageViewerV2) : ℤ := st.view.viewportHeight

/-- Qt `QGraphicsView::centerOn` on the viewer. -/
def centerOn (st : ImageViewerV2) (pos : QPointF) : ImageViewerV2 :=
  { st with view := st.view.centerOn pos }

/-- Method `ImageViewerV2::sceneRoundPos`. -/
def sceneRoundPos (st : ImageViewerV2) (scenePoint : QPointF) : QPointF :=
  st.view.mapToScene (st.view.mapFromScene scenePoint)

/-- Method `ImageViewerV2::sceneRoundRect`: rounded top-left corner, unchanged size. -/
def sceneRoundRect (st : ImageViewerV2) (sceneRect : QRectF) : QRectF :=
  ⟨(st.sceneRoundPos sceneRect.topLeft).x, (st.sceneRoundPos sceneRect.topLeft).y,
   sceneRect.w, sceneRect.h⟩

/-- Method `ImageViewerV2::scaledSize`: size as it appears on screen (rounded). -/
def scaledSize (st : ImageViewerV2) : QSize :=
  match st.pixmap with
  | none => ⟨0, 0⟩
  | some _ => (st.sceneRoundRect (st.pixmapItem.mapRectToScene st.pixmapItem.boundingRect)).toSize

/-- Method `ImageViewerV2::scaledRect`: the item rectangle in viewport coordinates. -/
def scaledRect (st : ImageViewerV2) : QRect :=
  QRect.ofCorners
    (st.view.mapFromScene (st.pixmapItem.mapRectToScene st.pixmapItem.boundingRect).topLeft)
    (st.view.mapFromScene (st.pixmapItem.mapRectToScene st.pixmapItem.boundingRect).bottomRight)

/-- Method `ImageViewerV2::imageFits`. -/
def imageFits (st : ImageViewerV2) : Bool :=
  match st.pixmap with
  | none => true
  | some p =>
    decide ((p.width : ℚ) ≤ (st.view.viewportWidth : ℚ) * st.view.devicePixelRatioF) &&
    decide ((p.height : ℚ) ≤ (st.view.viewportHeight : ℚ) * st.view.devicePixelRatioF)

/-- Method `ImageViewerV2::scaledImageFits`. -/
def scaledImageFits (st : ImageViewerV2) : Bool :=
  match st.pixmap with
  | none => true
  | some _ =>
    decide (st.scaledSize.width ≤ st.view.viewportWidth) &&
    decide (st.scaledSize.height ≤ st.view.viewportHeight)

/-- Method `ImageViewerV2::selectTransformationMode`. -/
def selectTransformationMode (st : ImageViewerV2) : TransformationMode :=
  if st.forceFastScale then TransformationMode.FastTransformation
  else if st.movie.isSome then
    if !st.smoothAnimatedImages || (decide (st.pixmapItem.scale > 1) && !st.smoothUpscaling) then
      TransformationMode.FastTransformation
    else TransformationMode.SmoothTransformation
  else
    if (decide (st.pixmapItem.scale > 1) && !st.smoothUpscaling) ||
        decide (st.mScalingFilter = ScalingFilter.QI_FILTER_NEAREST) then
      TransformationMode.FastTransformation
    else TransformationMode.SmoothTransformation

/-- Method `ImageViewerV2::swapToOriginalPixmap`. -/
def swapToOriginalPixmap (st : ImageViewerV2) : ImageViewerV2 :=
  if st.pixmap.isNone || !st.pixmapItemScaled.visible then st
  else
    { st with
      pixmapItemScaled := { st.pixmapItemScaled with visible := false, pixmap := none }
      pixmapScaled := none
      pixmapItem := { st.pixmapItem with visible := true } }

/-- Method `ImageViewerV2::doZoom`. -/
def doZoom (st : ImageViewerV2) (newScale : ℚ) : ImageViewerV2 :=
  match st.pixmap with
  | none => st
  | some _ =>
    let newScale := qBound st.minScale newScale 500
    let st1 := { st with pixmapItem := { st.pixmapItem with scale := newScale } }
    let st2 := { st1 with
      pixmapItem := { st1.pixmapItem with transformationMode := st1.selectTransformationMode } }
    (swapToOriginalPixmap st2).emit (ViewerSignal.scaleChanged newScale)

/-- Method `ImageViewerV2::requestScaling`. -/
def requestScaling (st : ImageViewerV2) : ImageViewerV2 :=
  if st.pixmap.isNone || decide (st.pixmapItem.scale = 1) ||
      (!st.smoothUpscaling && decide (st.pixmapItem.scale ≥ 1)) || st.movie.isSome then st
  else if st.currentScale < st.consts.FAST_SCALE_THRESHOLD then
    st.emit (ViewerSignal.scalingRequested (st.scaledSize.mul st.dpr) st.mScalingFilter)
  else st

/-- Method `ImageViewerV2::updateFitWindowScale`: scale at which the current image fills the
window.  The source dereferences `pixmap`; its only caller has checked it. -/
def updateFitWindowScale (st : ImageViewerV2) : ImageViewerV2 :=
  match st.pixmap with
  | none => st
  | some p =>
    let newMinScaleX := (st.view.viewportWidth : ℚ) * st.view.devicePixelRatioF / (p.width : ℚ)
    let newMinScaleY := (st.view.viewportHeight : ℚ) * st.view.devicePixelRatioF / (p.height : ℚ)
    let st1 := if newMinScaleX < newMinScaleY then { st with fitWindowScale := newMinScaleX }
               else { st with fitWindowScale := newMinScaleY }
    if st1.expandImage && decide (st1.fitWindowScale > st1.expandLimit) then
      { st1 with fitWindowScale := st1.expandLimit }
    else st1

/-- Method `ImageViewerV2::updateMinScale`: limit min scale to window size. -/
def updateMinScale (st : ImageViewerV2) : ImageViewerV2 :=
  match st.pixmap with
  | none => st
  | some _ =>
    let st1 := st.updateFitWindowScale
    let st2 := if st1.imageFits then { st1 with minScale := 1 }
               else { st1 with minScale := st1.fitWindowScale }
    if decide (st2.mViewLock ≠ ViewLockMode.LOCK_NONE) && decide (st2.lockedScale < st2.minScale) then
      { st2 with minScale := st2.lockedScale }
    else st2

/-- Division of two C++ `float` values: the quotient, and no finite value when the
divisor is zero (the result is then an infinity or a NaN). -/
def floatDiv (a b : ℚ) : Option ℚ := if b = 0 then none else some (a / b)

/-- Method `ImageViewerV2::updateFitWindowScale` with its two divisions checked: no state when
one of them divides by zero.  Apart from that it is `updateFitWindowScale`. -/
def updateFitWindowScaleChecked (st : ImageViewerV2) : Option ImageViewerV2 :=
  match st.pixmap with
  | none => some st
  | some p =>
    match floatDiv ((st.view.viewportWidth : ℚ) * st.view.devicePixelRatioF) (p.width : ℚ),
          floatDiv ((st.view.viewportHeight : ℚ) * st.view.devicePixelRatioF) (p.height : ℚ) with
    | some newMinScaleX, some newMinScaleY =>
      let st1 := if newMinScaleX < newMinScaleY then { st with fitWindowScale := newMinScaleX }
                 else { st with fitWindowScale := newMinScaleY }
      if st1.expandImage && decide (st1.fitWindowScale > st1.expandLimit) then
        some { st1 with fitWindowScale := st1.expandLimit }
      else some st1
    | _, _ => none

/-- Method `ImageViewerV2::updateMinScale` on top of `updateFitWindowScaleChecked`. -/
def updateMinScaleChecked (st : ImageViewerV2) : Option ImageViewerV2 :=
  match st.pixmap with
  | none => some st
  | some _ =>
    match st.updateFitWindowScaleChecked with
    | none => none
    | some st1 =>
      let st2 := if st1.imageFits then { st1 with minScale := 1 }
                 else { st1 with minScale := st1.fitWindowScale }
      if decide (st2.mViewLock ≠ ViewLockMode.LOCK_NONE) &&
          decide (st2.lockedScale < st2.minScale) then
        some { st2 with minScale := st2.lockedScale }
      else some st2

/-- Method `ImageViewerV2::setZoomAnchor`. -/
def setZoomAnchor (st : ImageViewerV2) (viewportPos : QPoint) : ImageViewerV2 :=
  { st with
    zoomAnchor := (st.pixmapItem.mapFromScene (st.view.mapToScene viewportPos), viewportPos) }

/-- The point handed to `centerOn` by `zoomAnchored`, computed in the state right after
`doZoom`: the old viewport centre minus the viewport-space drift of the anchor. -/
def anchorCenterTarget (st : ImageViewerV2) (vportCenter : QPointF) : QPointF :=
  let p := st.view.mapFromScene (st.pixmapItem.mapToScene st.zoomAnchor.1)
  ⟨vportCenter.x - ((st.zoomAnchor.2.x - p.x : ℤ) : ℚ),
   vportCenter.y - ((st.zoomAnchor.2.y - p.y : ℤ) : ℚ)⟩

/-- Method `ImageViewerV2::zoomAnchored`. -/
def zoomAnchored (st : ImageViewerV2) (newScale : ℚ) : ImageViewerV2 :=
  if st.currentScale ≠ newScale then
    let vportCenter := st.view.sceneCenter
    let st1 := st.doZoom newScale
    requestScaling (st1.centerOn (st1.anchorCenterTarget vportCenter))
  else st

/-- Method `ImageViewerV2::centerIfNecessary`. -/
def centerIfNecessary (st : ImageViewerV2) : ImageViewerV2 :=
  match st.pixmap with
  | none => st
  | some _ =>
    let sz := st.scaledSize
    let c := st.view.sceneCenter
    let cx := if sz.width ≤ st.view.viewportWidth then sceneWidth / 2 else c.x
    let cy := if sz.height ≤ st.view.viewportHeight then sceneHeight / 2 else c.y
    st.centerOn ⟨cx, cy⟩

/-- Horizontal shift computed by `snapToEdges`. -/
def snapShiftX (st : ImageViewerV2) : ℤ :=
  if st.scaledRect.width > st.width then
    if st.scaledRect.left > 0 then st.scaledRect.left
    else if st.scaledRect.right < st.width then st.scaledRect.right - st.width
    else 0
  else 0

/-- Vertical shift computed by `snapToEdges`. -/
def snapShiftY (st : ImageViewerV2) : ℤ :=
  if st.scaledRect.height > st.height then
    if st.scaledRect.top > 0 then st.scaledRect.top
    else if st.scaledRect.bottom < st.height then st.scaledRect.bottom - st.height
    else 0
  else 0

/-- Method `ImageViewerV2::snapToEdges`. -/
def snapToEdges (st : ImageViewerV2) : ImageViewerV2 :=
  st.centerOn ⟨st.view.sceneCenter.x + (st.snapShiftX : ℚ), st.view.sceneCenter.y + (st.snapShiftY : ℚ)⟩

/-- Method `ImageViewerV2::centerOnPixmap`. -/
def centerOnPixmap (st : ImageViewerV2) : ImageViewerV2 :=
  st.centerOn st.pixmapItem.boundingRect.center

/-- Method `ImageViewerV2::fitFree`. -/
def fitFree (st : ImageViewerV2) (scale : ℚ) : ImageViewerV2 :=
  match st.pixmap with
  | none => st
  | some _ =>
    if st.focusIn1to1 = ImageFocusPoint.FOCUS_TOP then
      let st1 := (st.doZoom scale).centerIfNecessary
      let st2 := if st1.scaledSize.height > st1.view.viewportHeight then
                   st1.centerOn ⟨sceneWidth / 2, 0⟩
                 else st1
      st2.snapToEdges
    else
      let st1 := if st.focusIn1to1 = ImageFocusPoint.FOCUS_CENTER then
                   st.setZoomAnchor st.view.rect.center
                 else st.setZoomAnchor st.view.cursorPos
      ((st1.zoomAnchored scale).centerIfNecessary).snapToEdges

/-- Method `ImageViewerV2::fitNormal`. -/
def fitNormal (st : ImageViewerV2) : ImageViewerV2 := st.fitFree 1

/-- Method `ImageViewerV2::fitWindow`. -/
def fitWindow (st : ImageViewerV2) : ImageViewerV2 :=
  match st.pixmap with
  | none => st
  | some _ =>
    if st.imageFits && !st.expandImage then st.fitNormal
    else
      let st1 := if st.currentScale ≠ st.fitWindowScale then
                   (st.swapToOriginalPixmap).doZoom st.fitWindowScale
                 else st
      st1.centerOnPixmap

/-- Method `ImageViewerV2::fitWidth`. -/
def fitWidth (st : ImageViewerV2) : ImageViewerV2 :=
  match st.pixmap with
  | none => st
  | some p =>
    let scaleX0 := (st.view.viewportWidth : ℚ) * st.view.devicePixelRatioF / (p.width : ℚ)
    let scaleX1 := if !st.expandImage && decide (scaleX0 > 1) then 1 else scaleX0
    let scaleX := if scaleX1 > st.expandLimit then st.expandLimit else scaleX1
    let st1 := if st.currentScale ≠ scaleX then (st.swapToOriginalPixmap).doZoom scaleX else st
    let st2 := st1.centerIfNecessary
    let st3 := if st2.scaledSize.height > st2.view.viewportHeight then
                 st2.centerOn ⟨st2.view.sceneCenter.x, 0⟩
               else st2
    st3.snapToEdges

/-- Method `ImageViewerV2::zoomIn`: zoom in around viewport center. -/
def zoomIn (st : ImageViewerV2) : ImageViewerV2 :=
  let st1 := st.setZoomAnchor st.view.rect.center
  let st2 := if st1.absoluteStep then st1.zoomAnchored (st1.currentScale + st1.zoomStep)
             else st1.zoomAnchored (st1.currentScale * (1 + st1.zoomStep))
  let st3 := (st2.centerIfNecessary).snapToEdges
  let st4 := { st3 with imageFitMode := ImageFitMode.FIT_FREE }
  if st4.pixmapItem.scale = st4.fitWindowScale then
    { st4 with imageFitMode := ImageFitMode.FIT_WINDOW }
  else st4

/-- Method `ImageViewerV2::setScaledPixmap`.  The source dereferences `pixmapScaled` after the
move, so the frame is a pixmap, never a null pointer. -/
def setScaledPixmap (st : ImageViewerV2) (newFrame : QPixmap) : ImageViewerV2 :=
  if st.movie.isNone && decide (newFrame.size ≠ st.scaledSize.mul st.dpr) then st
  else
    let scaled := newFrame.setDevicePixelRatio st.dpr
    { st with
      pixmapScaled := some scaled
      pixmapItemScaled := { st.pixmapItemScaled with
        pixmap := some scaled
        offset := ⟨sceneWidth / 2 - (scaled.width : ℚ) / (st.dpr * 2),
                   sceneHeight / 2 - (scaled.height : ℚ) / (st.dpr * 2)⟩
        visible := true }
      pixmapItem := { st.pixmapItem with visible := false } }

/-! Scrolling -/

/-- Method `ImageViewerV2::stopPosAnimation`. -/
def stopPosAnimation (st : ImageViewerV2) : ImageViewerV2 :=
  let st1 := if st.scrollTimeLineX.running then
               { st with scrollTimeLineX := st.scrollTimeLineX.stop }
             else st
  if st1.scrollTimeLineY.running then { st1 with scrollTimeLineY := st1.scrollTimeLineY.stop }
  else st1

/-- Method `ImageViewerV2::saveViewportPos`: where the viewport centre is on the image, each
coordinate in [0, 1]; only done under view lock ALL. -/
def saveViewportPos (st : ImageViewerV2) : ImageViewerV2 :=
  if st.mViewLock ≠ ViewLockMode.LOCK_ALL then st
  else
    let c := st.view.mapToScene st.view.rect.center
    let itemRect := st.pixmapItem.mapRectToScene st.pixmapItem.boundingRect
    { st with
      savedViewportPos :=
        ⟨qBound 0 ((c.x + 1 - itemRect.x) / itemRect.w) 1,
         qBound 0 ((c.y + 1 - itemRect.y) / itemRect.h) 1⟩ }

/-- Method `ImageViewerV2::applySavedViewportPos`. -/
def applySavedViewportPos (st : ImageViewerV2) : ImageViewerV2 :=
  let itemRect := st.pixmapItem.mapRectToScene st.pixmapItem.boundingRect
  ((st.centerOn ⟨itemRect.x + itemRect.w * st.savedViewportPos.x,
                 itemRect.y + itemRect.h * st.savedViewportPos.y⟩).centerIfNecessary).snapToEdges

/-- The block `scrollSmooth` runs for one axis (the source repeats it for x and for y):
`d` is the requested delta on that axis, `currentPos` the scroll bar value, `t` the
timeline of the axis.  The result is the restarted timeline. -/
def scrollSmoothAxis (c : HeaderConstants) (d : ℤ) (currentPos : ℤ) (t : QTimeLine) : QTimeLine :=
  let delta : ℤ := if d < 0 then c.SCROLL_DISTANCE else -c.SCROLL_DISTANCE
  let newEndFrame : ℤ := currentPos - delta
  let redirect : Bool :=
    decide ((newEndFrame < currentPos ∧ currentPos < t.endFrame) ∨
            (newEndFrame > currentPos ∧ currentPos > t.endFrame))
  let newEndFrame : ℤ :=
    if t.running then
      if !redirect then t.endFrame - truncToInt ((delta : ℚ) * c.SCROLL_SPEED_MILTIPLIER)
      else newEndFrame
    else newEndFrame
  ((t.stop).setFrameRange currentPos newEndFrame).start

/-- Method `ImageViewerV2::scrollSmooth`. -/
def scrollSmooth (st : ImageViewerV2) (dx dy : ℤ) : ImageViewerV2 :=
  let st1 := if dx ≠ 0 then
               { st with scrollTimeLineX :=
                   scrollSmoothAxis st.consts dx st.view.horizontalValue st.scrollTimeLineX }
             else st
  let st2 := if dy ≠ 0 then
               { st1 with scrollTimeLineY :=
                   scrollSmoothAxis st1.consts dy st1.view.verticalValue st1.scrollTimeLineY }
             else st1
  st2.saveViewportPos

/-- Method `ImageViewerV2::scrollPrecise`. -/
def scrollPrecise (st : ImageViewerV2) (dx dy : ℤ) : ImageViewerV2 :=
  let st1 := st.stopPosAnimation
  let st2 := { st1 with view := st1.view.setHorizontalValue (st1.view.horizontalValue + dx) }
  let st3 := { st2 with view := st2.view.setVerticalValue (st2.view.verticalValue + dy) }
  ((st3.centerIfNecessary).snapToEdges).saveViewportPos

/-- Method `ImageViewerV2::scroll`. -/
def scroll (st : ImageViewerV2) (dx dy : ℤ) (smooth : Bool) : ImageViewerV2 :=
  if smooth then st.scrollSmooth dx dy else st.scrollPrecise dx dy

/-- Method `ImageViewerV2::scrollUp`. -/
def scrollUp (st : ImageViewerV2) : ImageViewerV2 := st.scroll 0 (-st.consts.SCROLL_DISTANCE) true

/-- Method `ImageViewerV2::scrollDown`. -/
def scrollDown (st : ImageViewerV2) : ImageViewerV2 := st.scroll 0 st.consts.SCROLL_DISTANCE true

/-- Method `ImageViewerV2::scrollLeft`. -/
def scrollLeft (st : ImageViewerV2) : ImageViewerV2 := st.scroll (-st.consts.SCROLL_DISTANCE) 0 true

/-- Method `ImageViewerV2::scrollRight`. -/
def scrollRight (st : ImageViewerV2) : ImageViewerV2 := st.scroll st.consts.SCROLL_DISTANCE 0 true

/-- Method `ImageViewerV2::scrollToX`, the slot of the x timeline. -/
def scrollToX (st : ImageViewerV2) (x : ℤ) : ImageViewerV2 :=
  (({ st with view := st.view.setHorizontalValue x } : ImageViewerV2).centerIfNecessary).snapToEdges

/-- Method `ImageViewerV2::scrollToY`, the slot of the y timeline. -/
def scrollToY (st : ImageViewerV2) (y : ℤ) : ImageViewerV2 :=
  (({ st with view := st.view.setVerticalValue y } : ImageViewerV2).centerIfNecessary).snapToEdges

/-- Method `ImageViewerV2::onScrollTimelineFinished`. -/
def onScrollTimelineFinished (st : ImageViewerV2) : ImageViewerV2 := st.saveViewportPos

/-! Animation -/

/-- Method `ImageViewerV2::stopAnimation`. -/
def stopAnimation (st : ImageViewerV2) : ImageViewerV2 :=
  match st.movie with
  | none => st
  | some _ =>
    let st1 := st.emit (ViewerSignal.animationPaused true)
    { st1 with animationTimer := st1.animationTimer.stop }

/-- Method `ImageViewerV2::startAnimation`. -/
def startAnimation (st : ImageViewerV2) : ImageViewerV2 :=
  match st.movie with
  | none => st
  | some m =>
    if m.frameCount > 1 then
      let st1 := (st.stopAnimation).emit (ViewerSignal.animationPaused false)
      { st1 with animationTimer := st1.animationTimer.start m.nextFrameDelay }
    else st

/-- Method `ImageViewerV2::updatePixmap`. -/
def updatePixmap (st : ImageViewerV2) (newPixmap : QPixmap) : ImageViewerV2 :=
  let p := newPixmap.setDevicePixelRatio st.dpr
  let it1 : QGraphicsPixmapItem :=
    { st.pixmapItem with
      pixmap := some p
      visible := true
      offset := ⟨sceneWidth / 2 - (p.width : ℚ) / (st.dpr * 2),
                 sceneHeight / 2 - (p.height : ℚ) / (st.dpr * 2)⟩ }
  { st with
    pixmap := some p
    pixmapItem := { it1 with transformOriginPoint := it1.boundingRect.center } }

/-- The tail shared by `onAnimationTimer` and `showAnimationFrame`: `frameChanged` is
emitted for the current frame of the movie and that frame is pushed with `updatePixmap`. -/
def pushCurrentFrame (st : ImageViewerV2) (m : QMovie) : ImageViewerV2 :=
  (st.emit (ViewerSignal.frameChanged m.currentFrameNumber)).updatePixmap m.currentPixmap

/-- Method `ImageViewerV2::onAnimationTimer`, the slot of the animation timer. -/
def onAnimationTimer (st : ImageViewerV2) : ImageViewerV2 :=
  match st.movie with
  | none => st
  | some m =>
    if m.currentFrameNumber = m.frameCount - 1 then
      if !st.loopPlayback then
        (st.emit (ViewerSignal.animationPaused true)).emit ViewerSignal.playbackFinished
      else
        let m1 := m.jumpToFrame0.1
        let st1 := ({ st with movie := some m1 } : ImageViewerV2).pushCurrentFrame m1
        { st1 with animationTimer := st1.animationTimer.start m1.nextFrameDelay }
    else
      let m1 := m.jumpToNextFrame.1
      if !m.jumpToNextFrame.2 then ({ st with movie := some m1 } : ImageViewerV2).stopAnimation
      else
        let st1 := ({ st with movie := some m1 } : ImageViewerV2).pushCurrentFrame m1
        { st1 with animationTimer := st1.animationTimer.start m1.nextFrameDelay }

/-- Expiry of the single-shot animation timer: the timer becomes inactive and its slot
`onAnimationTimer` runs.  Nothing happens while the timer is not active. -/
def animationTimerTimeout (st : ImageViewerV2) : ImageViewerV2 :=
  if st.animationTimer.active then
    ({ st with animationTimer := st.animationTimer.stop } : ImageViewerV2).onAnimationTimer
  else st

/-- The `while` loop of `showAnimationFrame`: step forward until the current frame number
is `frame` or a step fails.  `none` when the fuel runs out before the loop exits. -/
def seekLoop : ℕ → ℤ → QMovie → Option QMovie
  | 0, frame, m => if frame ≠ m.currentFrameNumber then none else some m
  | k + 1, frame, m =>
    if frame ≠ m.currentFrameNumber then
      if !m.jumpToNextFrame.2 then some m.jumpToNextFrame.1
      else seekLoop k frame m.jumpToNextFrame.1
    else some m

/-- Method `ImageViewerV2::showAnimationFrame`, with the fuel for its loop; the result is the
state after the call and the returned flag. -/
def showAnimationFrame (st : ImageViewerV2) (frame : ℤ) (fuel : ℕ) : Option (ImageViewerV2 × Bool) :=
  match st.movie with
  | none => some (st, false)
  | some m =>
    if frame < 0 ∨ frame ≥ m.frameCount then some (st, false)
    else if m.currentFrameNumber = frame then some (st, true)
    else
      let m1 := if frame < m.currentFrameNumber then m.jumpToFrame0.1 else m
      match seekLoop fuel frame m1 with
      | none => none
      | some m2 => some ((({ st with movie := some m2 } : ImageViewerV2).pushCurrentFrame m2), true)

/-- Method `ImageViewerV2::nextFrame`, with the fuel for the loop of `showAnimationFrame`;
the returned flag of that call is dropped, as in the source. -/
def nextFrame (st : ImageViewerV2) (fuel : ℕ) : Option ImageViewerV2 :=
  match st.movie with
  | none => some st
  | some m =>
    if m.currentFrameNumber = m.frameCount - 1 then
      (st.showAnimationFrame 0 fuel).map Prod.fst
    else (st.showAnimationFrame (m.currentFrameNumber + 1) fuel).map Prod.fst

/-- Method `ImageViewerV2::prevFrame`, with the fuel for the loop of `showAnimationFrame`. -/
def prevFrame (st : ImageViewerV2) (fuel : ℕ) : Option ImageViewerV2 :=
  match st.movie with
  | none => some st
  | some m =>
    if m.currentFrameNumber = 0 then
      (st.showAnimationFrame (m.frameCount - 1) fuel).map Prod.fst
    else (st.showAnimationFrame (m.currentFrameNumber - 1) fuel).map Prod.fst

/-! Display of new content -/

/-- Method `ImageViewerV2::reset`: reset state, remove image and stop animation. -/
def reset (st : ImageViewerV2) : ImageViewerV2 :=
  let st1 := st.stopPosAnimation
  let st2 : ImageViewerV2 :=
    { st1 with
      pixmapItemScaled := { st1.pixmapItemScaled with pixmap := none }
      pixmapScaled := none
      pixmapItem := { st1.pixmapItem with pixmap := none, scale := 1 }
      pixmap := none }
  let st3 := st2.stopAnimation
  ({ st3 with movie := none } : ImageViewerV2).centerOn ⟨sceneWidth / 2, sceneHeight / 2⟩

/-- Method `ImageViewerV2::closeImage`. -/
def closeImage (st : ImageViewerV2) : ImageViewerV2 := st.reset

/-- Method `ImageViewerV2::applyFitMode`. -/
def applyFitMode (st : ImageViewerV2) : ImageViewerV2 :=
  match st.imageFitMode with
  | ImageFitMode.FIT_ORIGINAL => st.fitNormal
  | ImageFitMode.FIT_WIDTH => st.fitWidth
  | ImageFitMode.FIT_WINDOW => st.fitWindow
  | ImageFitMode.FIT_FREE => st

/-- The block shared by `displayImage` and `displayAnimation` after the content is in
place: the fit mode is chosen and applied, or the locked view is restored. -/
def applyFitOrLock (st : ImageViewerV2) : ImageViewerV2 :=
  let st1 := if !st.keepFitMode || decide (st.imageFitMode = ImageFitMode.FIT_FREE) then
               { st with imageFitMode := st.imageFitModeDefault }
             else st
  if st1.mViewLock = ViewLockMode.LOCK_NONE then st1.applyFitMode
  else
    let st2 := ({ st1 with imageFitMode := ImageFitMode.FIT_FREE } : ImageViewerV2).fitFree st1.lockedScale
    if st2.mViewLock = ViewLockMode.LOCK_ALL then st2.applySavedViewportPos else st2

/-- Method `ImageViewerV2::displayImage`: display and initialize.  `none` is a null pointer.
`drawTransparencyGrid` has an empty body. -/
def displayImage (st : ImageViewerV2) (_pixmap : Option QPixmap) : ImageViewerV2 :=
  let st0 := st.reset
  match _pixmap with
  | none => st0
  | some px =>
    let p := px.setDevicePixelRatio st0.dpr
    let it1 : QGraphicsPixmapItem :=
      { st0.pixmapItem with
        pixmap := some p
        transformationMode :=
          if st0.mScalingFilter = ScalingFilter.QI_FILTER_NEAREST then
            TransformationMode.FastTransformation
          else TransformationMode.SmoothTransformation
        visible := true
        offset := ⟨sceneWidth / 2 - (p.width : ℚ) / (st0.dpr * 2),
                   sceneHeight / 2 - (p.height : ℚ) / (st0.dpr * 2)⟩ }
    let st1 : ImageViewerV2 :=
      { st0 with
        pixmapItemScaled := { st0.pixmapItemScaled with visible := false }
        pixmap := some p
        pixmapItem := { it1 with transformOriginPoint := it1.boundingRect.center } }
    ((st1.updateMinScale).applyFitOrLock).requestScaling

/-- Method `ImageViewerV2::displayAnimation`.  `none` is a null pointer. -/
def displayAnimation (st : ImageViewerV2) (_movie : Option QMovie) : ImageViewerV2 :=
  match _movie with
  | none => st
  | some mv =>
    if mv.isValid then
      let st0 := st.reset
      let m := mv.jumpToFrame0.1
      let st1 : ImageViewerV2 :=
        { st0 with
          movie := some m
          pixmapItem :=
            { st0.pixmapItem with
              transformationMode :=
                if st0.smoothAnimatedImages then TransformationMode.SmoothTransformation
                else TransformationMode.FastTransformation } }
      let st2 := st1.updatePixmap m.currentPixmap
      let st3 := (st2.emit (ViewerSignal.durationChanged m.frameCount)).emit
        (ViewerSignal.frameChanged 0)
      ((st3.updateMinScale).applyFitOrLock).startAnimation
    else st

/-- The state in which `displayImage` calls `updateMinScale`: after `reset`, with the new
pixmap `px` in place (the first lines of `displayImage` for a non-null pointer). -/
def displayImageContent (st : ImageViewerV2) (px : QPixmap) : ImageViewerV2 :=
  let st0 := st.reset
  let p := px.setDevicePixelRatio st0.dpr
  let it1 : QGraphicsPixmapItem :=
    { st0.pixmapItem with
      pixmap := some p
      transformationMode :=
        if st0.mScalingFilter = ScalingFilter.QI_FILTER_NEAREST then
          TransformationMode.FastTransformation
        else TransformationMode.SmoothTransformation
      visible := true
      offset := ⟨sceneWidth / 2 - (p.width : ℚ) / (st0.dpr * 2),
                 sceneHeight / 2 - (p.height : ℚ) / (st0.dpr * 2)⟩ }
  { st0 with
    pixmapItemScaled := { st0.pixmapItemScaled with visible := false }
    pixmap := some p
    pixmapItem := { it1 with transformOriginPoint := it1.boundingRect.center } }

/-- The state in which `displayAnimation` calls `updateMinScale`: after `reset`, with the
first frame of the valid movie `mv` in place (the first lines of `displayAnimation`). -/
def displayAnimationContent (st : ImageViewerV2) (mv : QMovie) : ImageViewerV2 :=
  let st0 := st.reset
  let m := mv.jumpToFrame0.1
  let st1 : ImageViewerV2 :=
    { st0 with
      movie := some m
      pixmapItem :=
        { st0.pixmapItem with
          transformationMode :=
            if st0.smoothAnimatedImages then TransformationMode.SmoothTransformation
            else TransformationMode.FastTransformation } }
  let st2 := st1.updatePixmap m.currentPixmap
  (st2.emit (ViewerSignal.durationChanged m.frameCount)).emit (ViewerSignal.frameChanged 0)

/-! Fit mode setters, resize and settings -/

/-- Method `ImageViewerV2::setFitMode`. -/
def setFitMode (st : ImageViewerV2) (newMode : ImageFitMode) : ImageViewerV2 :=
  let st1 := if st.scaleTimer.active then { st with scaleTimer := st.scaleTimer.stop } else st
  let st2 := st1.stopPosAnimation
  (({ st2 with imageFitMode := newMode } : ImageViewerV2).applyFitMode).requestScaling

/-- Method `ImageViewerV2::setFitOriginal`. -/
def setFitOriginal (st : ImageViewerV2) : ImageViewerV2 := st.setFitMode ImageFitMode.FIT_ORIGINAL

/-- Method `ImageViewerV2::setFitWidth`. -/
def setFitWidth (st : ImageViewerV2) : ImageViewerV2 :=
  (st.setFitMode ImageFitMode.FIT_WIDTH).requestScaling

/-- Method `ImageViewerV2::setFitWindow`. -/
def setFitWindow (st : ImageViewerV2) : ImageViewerV2 :=
  (st.setFitMode ImageFitMode.FIT_WINDOW).requestScaling

/-- Method `ImageViewerV2::resizeEvent`.  `newView` is the view as `QGraphicsView::resizeEvent`
leaves it (new viewport size, scroll ranges and values), `parentVisible` the value of
`parentWidget()->isVisible()`. -/
def resizeEvent (st : ImageViewerV2) (newView : GraphicsView) (parentVisible : Bool) :
    ImageViewerV2 :=
  let st0 : ImageViewerV2 := { st with view := newView, mousePressPos := newView.cursorPos }
  if parentVisible then
    let st1 := (st0.stopPosAnimation).updateMinScale
    let st2 := if st1.imageFitMode = ImageFitMode.FIT_FREE ∨
                  st1.imageFitMode = ImageFitMode.FIT_ORIGINAL then
                 (st1.centerIfNecessary).snapToEdges
               else st1.applyFitMode
    let st3 := if st2.scaleTimer.active then { st2 with scaleTimer := st2.scaleTimer.stop } else st2
    ({ st3 with scaleTimer := st3.scaleTimer.restart } : ImageViewerV2).saveViewportPos
  else st0

/-- Expiry of the single-shot scale timer: the timer becomes inactive and the connected
lambda calls `requestScaling`.  Nothing happens while the timer is not active. -/
def scaleTimerTimeout (st : ImageViewerV2) : ImageViewerV2 :=
  if st.scaleTimer.active then
    ({ st with scaleTimer := st.scaleTimer.stop } : ImageViewerV2).requestScaling
  else st

/-- Method `ImageViewerV2::setExpandImage`. -/
def setExpandImage (st : ImageViewerV2) (mode : Bool) : ImageViewerV2 :=
  ((({ st with expandImage := mode } : ImageViewerV2).updateMinScale).applyFitMode).requestScaling

/-- Method `ImageViewerV2::setScalingFilter`. -/
def setScalingFilter (st : ImageViewerV2) (filter : ScalingFilter) : ImageViewerV2 :=
  if st.mScalingFilter = filter then st
  else
    let st1 : ImageViewerV2 := { st with mScalingFilter := filter }
    let st2 : ImageViewerV2 :=
      { st1 with
        pixmapItem := { st1.pixmapItem with transformationMode := st1.selectTransformationMode } }
    let st3 := if st2.mScalingFilter = ScalingFilter.QI_FILTER_NEAREST then
                 st2.swapToOriginalPixmap
               else st2
    st3.requestScaling

/-- Method `ImageViewerV2::readSettings`.  `onFullscreenModeChanged` only sets the background
brush of the scene. -/
def readSettings (st : ImageViewerV2) : ImageViewerV2 :=
  let st1 : ImageViewerV2 :=
    { st with
      smoothAnimatedImages := st.settings.smoothAnimatedImages
      smoothUpscaling := st.settings.smoothUpscaling
      expandImage := st.settings.expandImage
      expandLimit := if st.settings.expandLimit < 1 then maxScale else st.settings.expandLimit
      keepFitMode := st.settings.keepFitMode
      imageFitModeDefault := st.settings.imageFitMode
      zoomStep := st.settings.zoomStep
      transparencyGridEnabled := st.settings.transparencyGrid
      focusIn1to1 := st.settings.focusPointIn1to1Mode
      absoluteStep := st.settings.absoluteZoomStep }
  (((st1.updateMinScale).setScalingFilter st1.settings.scalingFilter).setFitMode
    st1.imageFitModeDefault)

/-! Zoom entry points, locks and pointer input -/

/-- Method `ImageViewerV2::zoomOut`: zoom out around viewport center. -/
def zoomOut (st : ImageViewerV2) : ImageViewerV2 :=
  let st1 := st.setZoomAnchor st.view.rect.center
  let st2 := if st1.absoluteStep then st1.zoomAnchored (st1.currentScale - st1.zoomStep)
             else st1.zoomAnchored (st1.currentScale * (1 - st1.zoomStep))
  let st3 := (st2.centerIfNecessary).snapToEdges
  let st4 : ImageViewerV2 := { st3 with imageFitMode := ImageFitMode.FIT_FREE }
  if st4.pixmapItem.scale = st4.fitWindowScale then
    { st4 with imageFitMode := ImageFitMode.FIT_WINDOW }
  else st4

/-- Method `ImageViewerV2::zoomInCursor`. -/
def zoomInCursor (st : ImageViewerV2) : ImageViewerV2 :=
  let st2 := if st.view.underMouse then
               let st1 := st.setZoomAnchor st.view.cursorPos
               if st1.absoluteStep then st1.zoomAnchored (st1.currentScale + st1.zoomStep)
               else st1.zoomAnchored (st1.currentScale * (1 + st1.zoomStep))
             else st.zoomIn
  let st3 : ImageViewerV2 := { st2 with imageFitMode := ImageFitMode.FIT_FREE }
  let st4 : ImageViewerV2 :=
    if st3.pixmapItem.scale = st3.fitWindowScale then
      { st3 with imageFitMode := ImageFitMode.FIT_WINDOW }
    else st3
  (st4.centerIfNecessary).snapToEdges

/-- Method `ImageViewerV2::zoomOutCursor`.  The branch taken when the pointer is not over
the viewer calls `zoomIn`, as the source does. -/
def zoomOutCursor (st : ImageViewerV2) : ImageViewerV2 :=
  let st2 := if st.view.underMouse then
               let st1 := st.setZoomAnchor st.view.cursorPos
               if st1.absoluteStep then st1.zoomAnchored (st1.currentScale - st1.zoomStep)
               else st1.zoomAnchored (st1.currentScale * (1 - st1.zoomStep))
             else st.zoomIn
  let st3 : ImageViewerV2 := { st2 with imageFitMode := ImageFitMode.FIT_FREE }
  let st4 : ImageViewerV2 :=
    if st3.pixmapItem.scale = st3.fitWindowScale then
      { st3 with imageFitMode := ImageFitMode.FIT_WINDOW }
    else st3
  (st4.centerIfNecessary).snapToEdges

/-- Method `ImageViewerV2::lockZoom`. -/
def lockZoom (st : ImageViewerV2) : ImageViewerV2 :=
  ({ st with lockedScale := st.pixmapItem.scale, imageFitMode := ImageFitMode.FIT_FREE } :
    ImageViewerV2).saveViewportPos

/-- Method `ImageViewerV2::toggleLockZoom`. -/
def toggleLockZoom (st : ImageViewerV2) : ImageViewerV2 :=
  if !st.isDisplaying then st
  else if st.mViewLock ≠ ViewLockMode.LOCK_ZOOM then
    ({ st with mViewLock := ViewLockMode.LOCK_ZOOM } : ImageViewerV2).lockZoom
  else { st with mViewLock := ViewLockMode.LOCK_NONE }

/-- Method `ImageViewerV2::toggleLockView`. -/
def toggleLockView (st : ImageViewerV2) : ImageViewerV2 :=
  if !st.isDisplaying then st
  else if st.mViewLock ≠ ViewLockMode.LOCK_ALL then
    ((({ st with mViewLock := ViewLockMode.LOCK_ALL } : ImageViewerV2).lockZoom)).saveViewportPos
  else { st with mViewLock := ViewLockMode.LOCK_NONE }

/-- Method `ImageViewerV2::mousePan`: simple pan behavior; `pos` is `event->pos()`. -/
def mousePan (st : ImageViewerV2) (pos : QPoint) : ImageViewerV2 :=
  if st.scaledImageFits then st
  else
    let d : QPoint := ⟨st.mouseMoveStartPos.x - pos.x, st.mouseMoveStartPos.y - pos.y⟩
    let st1 := ({ st with mouseMoveStartPos := d } : ImageViewerV2).scroll d.x d.y false
    ({ st1 with mouseMoveStartPos := pos } : ImageViewerV2).saveViewportPos

/-- Method `ImageViewerV2::mouseMoveZoom`: zooming while the right button is pressed; `pos` is
`event->pos()`. -/
def mouseMoveZoom (st : ImageViewerV2) (pos : QPoint) : ImageViewerV2 :=
  let moveDistance : ℤ := st.mouseMoveStartPos.y - pos.y
  let newScale : ℚ := st.currentScale * (1 + 3 / 1000 * (moveDistance : ℚ) * st.dpr)
  let st1 : ImageViewerV2 :=
    { st with mouseMoveStartPos := pos, imageFitMode := ImageFitMode.FIT_FREE }
  let st2 := (((st1.zoomAnchored newScale).centerIfNecessary).snapToEdges)
  if st2.pixmapItem.scale = st2.fitWindowScale then
    { st2 with imageFitMode := ImageFitMode.FIT_WINDOW }
  else st2

/-- The part of a `QWheelEvent` the viewer reads. -/
structure QWheelEvent where
  rightButton : Bool
  noModifier : Bool
  pixelDelta : QPoint
  angleDelta : QPoint
  deriving DecidableEq, Repr

/-- The block `wheelEvent` runs for touchpad-like input with delta `d`: the animation is
stopped, both scroll bars are moved by `-d * TRACKPAD_SCROLL_MULTIPLIER`, and the view is
centred and snapped. -/
def trackpadScroll (st : ImageViewerV2) (d : QPoint) : ImageViewerV2 :=
  let st1 := st.stopPosAnimation
  let x : ℤ := truncToInt
    ((st1.view.horizontalValue : ℚ) - (d.x : ℚ) * st1.consts.TRACKPAD_SCROLL_MULTIPLIER)
  let st2 : ImageViewerV2 := { st1 with view := st1.view.setHorizontalValue x }
  let y : ℤ := truncToInt
    ((st2.view.verticalValue : ℚ) - (d.y : ℚ) * st2.consts.TRACKPAD_SCROLL_MULTIPLIER)
  let st3 : ImageViewerV2 := { st2 with view := st2.view.setVerticalValue y }
  (st3.centerIfNecessary).snapToEdges

/-- Method `ImageViewerV2::wheelEvent` (not on Apple platforms).  `elapsed` is the reading of
`lastTouchpadScroll.elapsed()`; `QWidget::wheelEvent` leaves the viewer as it is. -/
def wheelEvent (st : ImageViewerV2) (event : QWheelEvent) (elapsed : ℤ) : ImageViewerV2 :=
  if event.rightButton then
    let st1 : ImageViewerV2 := { st with mouseInteraction := MouseInteractionState.MOUSE_WHEEL_ZOOM }
    if event.angleDelta.y > 0 then st1.zoomInCursor
    else if event.angleDelta.y < 0 then st1.zoomOutCursor
    else st1
  else if event.noModifier then
    if event.pixelDelta ≠ ⟨0, 0⟩ ∧ st.settings.imageScrolling ≠ ImageScrolling.SCROLL_NONE then
      (st.trackpadScroll event.pixelDelta).saveViewportPos
    else if event.angleDelta ≠ ⟨0, 0⟩ then
      if (event.angleDelta.y ≠ 0 ∧ Int.tmod event.angleDelta.y 120 = 0) ∧ elapsed > 100 then
        if st.settings.imageScrolling = ImageScrolling.SCROLL_BY_TRACKPAD_AND_WHEEL then
          st.scroll 0 (-event.angleDelta.y) true
        else st
      else
        let st1 := if st.settings.imageScrolling ≠ ImageScrolling.SCROLL_NONE then
                     st.trackpadScroll event.angleDelta
                   else st
        st1.saveViewportPos
    else st.saveViewportPos
  else st

/-- The part of a `QMouseEvent` the viewer reads: the position, whether the button that
caused the event is the right one (`button() & Qt::RightButton`), and which buttons are
held (`buttons() & Qt::LeftButton`, `buttons() & Qt::RightButton`). -/
structure QMouseEvent where
  pos : QPoint
  buttonRight : Bool
  leftHeld : Bool
  rightHeld : Bool
  deriving DecidableEq, Repr

/-- Method `ImageViewerV2::mousePressEvent`.  The base class handlers leave the members of the
viewer as they are. -/
def mousePressEvent (st : ImageViewerV2) (event : QMouseEvent) : ImageViewerV2 :=
  if st.pixmap.isNone then st
  else
    let st1 : ImageViewerV2 := { st with mouseMoveStartPos := event.pos }
    let st2 : ImageViewerV2 := { st1 with mousePressPos := st1.mouseMoveStartPos }
    if event.buttonRight then st2.setZoomAnchor event.pos else st2

/-- Method `ImageViewerV2::mouseMoveEvent`.  The cursor shape is not part of the state. -/
def mouseMoveEvent (st : ImageViewerV2) (event : QMouseEvent) : ImageViewerV2 :=
  if st.pixmap.isNone || decide (st.mouseInteraction = MouseInteractionState.MOUSE_DRAG) ||
      decide (st.mouseInteraction = MouseInteractionState.MOUSE_WHEEL_ZOOM) then st
  else if event.leftHeld then
    let st1 : ImageViewerV2 :=
      if st.mouseInteraction = MouseInteractionState.MOUSE_NONE then
        if st.scaledImageFits then
          { st with mouseInteraction := MouseInteractionState.MOUSE_DRAG_BEGIN }
        else { st with mouseInteraction := MouseInteractionState.MOUSE_PAN }
      else st
    let st2 : ImageViewerV2 :=
      if st1.mouseInteraction = MouseInteractionState.MOUSE_DRAG_BEGIN then
        if |st1.mousePressPos.x - event.pos.x| > st1.consts.dragThreshold ∨
            |st1.mousePressPos.y - event.pos.y| > st1.consts.dragThreshold then
          ({ st1 with mouseInteraction := MouseInteractionState.MOUSE_NONE } :
            ImageViewerV2).emit ViewerSignal.draggedOut
        else st1
      else st1
    if st2.mouseInteraction = MouseInteractionState.MOUSE_PAN then st2.mousePan event.pos
    else st2
  else if event.rightHeld then
    if st.mouseInteraction = MouseInteractionState.MOUSE_ZOOM ∨
        ((|st.mousePressPos.y - event.pos.y| : ℤ) : ℚ) > (st.zoomThreshold : ℚ) / st.dpr then
      let st1 : ImageViewerV2 := { st with mouseInteraction := MouseInteractionState.MOUSE_ZOOM }
      let st2 : ImageViewerV2 :=
        if st1.view.viewportWidth * st1.view.viewportHeight > st1.consts.LARGE_VIEWPORT_SIZE then
          { st1 with forceFastScale := true }
        else st1
      st2.mouseMoveZoom event.pos
    else st
  else st

/-- Method `ImageViewerV2::mouseReleaseEvent`. -/
def mouseReleaseEvent (st : ImageViewerV2) (_event : QMouseEvent) : ImageViewerV2 :=
  let st1 : ImageViewerV2 :=
    if st.forceFastScale then
      let st0 : ImageViewerV2 := { st with forceFastScale := false }
      { st0 with
        pixmapItem := { st0.pixmapItem with transformationMode := st0.selectTransformationMode } }
    else st
  { st1 with mouseInteraction := MouseInteractionState.MOUSE_NONE }

end ImageViewerV2

/-! The controller: requests to and results from the scaler (`core.cpp`) -/

/-- A `ScalerRequest`: the image to scale (its identity), the target size and the path
string. -/
structure ScalerRequest where
  image : ℕ
  size : QSize
  string : String
  deriving DecidableEq, Repr

/-- The part of `Core` and of the directory model that the scaling slots read and write:
`state.hasActiveImage`, three strings of the model, the cache entry of the current
file name (`none` when the cache has none), the requests handed to the scaler, the
pixmaps passed to `mw->onScalingFinished`, the pixmaps deleted, and the viewer behind
the main window. -/
structure Core where
  hasActiveImage : Bool
  currentFileName : String
  absolutePath : String
  currentFilePath : String
  cached : Option ℕ
  scalerRequests : List ScalerRequest
  handedOver : List QPixmap
  deleted : List QPixmap
  viewer : ImageViewerV2

/-- Method `Core::scalingRequest`. -/
def Core.scalingRequest (c : Core) (size : QSize) : Core :=
  if c.hasActiveImage then
    match c.cached with
    | none => c
    | some forScale =>
      { c with scalerRequests := c.scalerRequests ++
          [⟨forScale, size, c.absolutePath ++ "/" ++ c.currentFileName⟩] }
  else c

/-- Method `Core::onScalingFinished`.  `MainWindow::onScalingFinished` is not among the source
files; it is the parameter `mwOnScalingFinished`, the effect of the call on the viewer. -/
def Core.onScalingFinished (c : Core) (mwOnScalingFinished : ImageViewerV2 → QPixmap → ImageViewerV2)
    (scaled : QPixmap) (req : ScalerRequest) : Core :=
  if c.hasActiveImage && decide (req.string = c.currentFilePath) then
    { c with handedOver := c.handedOver ++ [scaled], viewer := mwOnScalingFinished c.viewer scaled }
  else { c with deleted := c.deleted ++ [scaled] }

namespace ImageViewerV2

/-! Quantities and relations used in the statements -/

/-- Only the view differs between the two states. -/
def sameButView (a b : ImageViewerV2) : Prop := ∃ v, b = { a with view := v }

/-- The smaller of the two viewport-to-content ratios, in device pixels:
`min(viewportWidth * dpr / contentWidth, viewportHeight * dpr / contentHeight)`. -/
def fitRatio (v : GraphicsView) (p : QPixmap) : ℚ :=
  min ((v.viewportWidth : ℚ) * v.devicePixelRatioF / (p.width : ℚ))
    ((v.viewportHeight : ℚ) * v.devicePixelRatioF / (p.height : ℚ))

/-- The members `zoomIn` reads besides the item scale are the same in both states. -/
def sameZoomInputs (a b : ImageViewerV2) : Prop :=
  b.pixmap = a.pixmap ∧ b.minScale = a.minScale ∧ b.absoluteStep = a.absoluteStep ∧
  b.zoomStep = a.zoomStep

/-- The scale requested by `zoomIn`: `s + z` for an absolute step, `s * (1 + z)` for a
relative one. -/
def zoomInTarget (st : ImageViewerV2) : ℚ :=
  if st.absoluteStep = true then st.currentScale + st.zoomStep
  else st.currentScale * (1 + st.zoomStep)

end ImageViewerV2

/-- One axis of `snapToEdges` on integers: `l`, `r` are the rounded scene coordinates of
the two item edges, `w` the viewport extent, `v` the scroll value, `lo`, `hi` the scroll
range; the result is the new scroll value. -/
def snapAxis (lo hi l r w v : ℤ) : ℤ :=
  qBound lo
    (v + (if (r - v) - (l - v) + 1 > w then
            if l - v > 0 then l - v
            else if r - v < w then (r - v) - w
            else 0
          else 0))
    hi

namespace ImageViewerV2

/-- Scene x-coordinate of the left item edge, rounded. -/
def edgeLeft (st : ImageViewerV2) : ℤ :=
  qRound (st.pixmapItem.mapRectToScene st.pixmapItem.boundingRect).topLeft.x

/-- Scene x-coordinate of the right item edge, rounded. -/
def edgeRight (st : ImageViewerV2) : ℤ :=
  qRound (st.pixmapItem.mapRectToScene st.pixmapItem.boundingRect).bottomRight.x

/-- Scene y-coordinate of the top item edge, rounded. -/
def edgeTop (st : ImageViewerV2) : ℤ :=
  qRound (st.pixmapItem.mapRectToScene st.pixmapItem.boundingRect).topLeft.y

/-- Scene y-coordinate of the bottom item edge, rounded. -/
def edgeBottom (st : ImageViewerV2) : ℤ :=
  qRound (st.pixmapItem.mapRectToScene st.pixmapItem.boundingRect).bottomRight.y

end ImageViewerV2

namespace ImageViewerV2

/-- The scale invariant: while content is displayed the item scale lies between `minScale`
and `maxScale`. -/
def scaleInRange (st : ImageViewerV2) : Prop :=
  st.isDisplaying = true → st.minScale ≤ st.pixmapItem.scale ∧ st.pixmapItem.scale ≤ maxScale

/-- The content has positive width and height. -/
def contentPositive (st : ImageViewerV2) : Prop :=
  ∀ p, st.pixmap = some p → 0 < p.width ∧ 0 < p.height

/-- Both layers are visible at once. -/
def bothLayersVisible (st : ImageViewerV2) : Bool :=
  st.pixmapItem.visible && st.pixmapItemScaled.visible

end ImageViewerV2

/-- Recogniser of the signal `scalingRequested`. -/
def ViewerSignal.isScalingRequested : ViewerSignal → Bool
  | ViewerSignal.scalingRequested _ _ => true
  | _ => false

/-- Recogniser of the signal `frameChanged`. -/
def ViewerSignal.isFrameChanged : ViewerSignal → Bool
  | ViewerSignal.frameChanged _ => true
  | _ => false

/-- Number of `scalingRequested` emissions in a signal log. -/
def scalingRequestCount (log : List ViewerSignal) : ℕ :=
  (log.filter ViewerSignal.isScalingRequested).length

namespace ImageViewerV2

/-- Number of `scalingRequested` signals the viewer has emitted. -/
def requests (st : ImageViewerV2) : ℕ := scalingRequestCount st.emitted

/-- The members the fit computations read, and the item scale, are the same in both
states: content, minimum and fit-window scale, viewport size and pixel ratio, the
expansion settings and the scale. -/
structure FitFrame (a b : ImageViewerV2) : Prop where
  pixmap : b.pixmap = a.pixmap
  minScale : b.minScale = a.minScale
  fitWindowScale : b.fitWindowScale = a.fitWindowScale
  viewportWidth : b.view.viewportWidth = a.view.viewportWidth
  viewportHeight : b.view.viewportHeight = a.view.viewportHeight
  devicePixelRatioF : b.view.devicePixelRatioF = a.view.devicePixelRatioF
  expandImage : b.expandImage = a.expandImage
  expandLimit : b.expandLimit = a.expandLimit
  scale : b.pixmapItem.scale = a.pixmapItem.scale

/-- The scale `fitWidth` asks for: the width ratio, capped at 1 unless small images are
expanded, and capped at `expandLimit`. -/
def fitWidthTarget (st : ImageViewerV2) : ℚ :=
  match st.pixmap with
  | none => 1
  | some p =>
    let scaleX0 := (st.view.viewportWidth : ℚ) * st.view.devicePixelRatioF / (p.width : ℚ)
    let scaleX1 := if !st.expandImage && decide (scaleX0 > 1) then 1 else scaleX0
    if scaleX1 > st.expandLimit then st.expandLimit else scaleX1

/-- The scales the three fit functions ask for: 1, `fitWindowScale` and the width scale. -/
def isFitTarget (st : ImageViewerV2) (s : ℚ) : Prop :=
  s = 1 ∨ s = st.fitWindowScale ∨ s = st.fitWidthTarget

/-- One step of the scale: content and `minScale` are kept, and either nothing is
displayed, or the scale is kept (and is of kind `T`), or it is a scale of kind `T`
clamped to `[minScale, 500]`. -/
def scaleStepTo (T : ℚ → Prop) (a b : ImageViewerV2) : Prop :=
  b.pixmap = a.pixmap ∧ b.minScale = a.minScale ∧
  (a.pixmap = none ∨ (b.pixmapItem.scale = a.pixmapItem.scale ∧ T a.pixmapItem.scale) ∨
    ∃ s, T s ∧ b.pixmapItem.scale = qBound a.minScale s 500)

/-- The members the zoom and fit functions never write: the saved viewport position, the
scale timer, the movie, the header constants and the upscaling flag. -/
structure ZoomFrame (a b : ImageViewerV2) : Prop where
  savedViewportPos : b.savedViewportPos = a.savedViewportPos
  scaleTimer : b.scaleTimer = a.scaleTimer
  movie : b.movie = a.movie
  consts : b.consts = a.consts
  smoothUpscaling : b.smoothUpscaling = a.smoothUpscaling
  mViewLock : b.mViewLock = a.mViewLock

/-- The members that hold the fit mode and the view lock are the same in both states. -/
structure LockFrame (a b : ImageViewerV2) : Prop where
  imageFitMode : b.imageFitMode = a.imageFitMode
  mViewLock : b.mViewLock = a.mViewLock
  lockedScale : b.lockedScale = a.lockedScale

/-- The state `st` in a viewport of `w` x `h` pixels. -/
def withViewport (st : ImageViewerV2) (w h : ℤ) : ImageViewerV2 :=
  { st with view := { st.view with viewportWidth := w, viewportHeight := h } }

/-- The members `selectTransformationMode` reads are the same in both states. -/
def sameSamplingInputs (a b : ImageViewerV2) : Prop :=
  b.forceFastScale = a.forceFastScale ∧ b.hasAnimation = a.hasAnimation ∧
  b.pixmapItem.scale = a.pixmapItem.scale ∧ b.smoothAnimatedImages = a.smoothAnimatedImages ∧
  b.smoothUpscaling = a.smoothUpscaling ∧ b.mScalingFilter = a.mScalingFilter

/-- The condition under which the specification has `selectTransformationMode` return fast
(nearest) sampling. -/
def fastSampling (st : ImageViewerV2) : Prop :=
  st.forceFastScale = true ∨
  (st.hasAnimation = true ∧
    (st.smoothAnimatedImages = false ∨ (st.pixmapItem.scale > 1 ∧ st.smoothUpscaling = false))) ∨
  (st.hasAnimation = false ∧
    ((st.pixmapItem.scale > 1 ∧ st.smoothUpscaling = false) ∨
      st.mScalingFilter = ScalingFilter.QI_FILTER_NEAREST))

end ImageViewerV2

/-- The end value the specification assigns to one axis of a smooth scroll: `old` is the
timeline of the axis before the request, `new` after it, `p` the scroll position and `d`
the sign of the request.  The request is opposite to the running motion when it points
away from the end value still ahead.  The source converts the product of the two
constants to `int`; where that conversion is exact the end value is the one of the
specification, `e + d * SCROLL_DISTANCE * SCROLL_SPEED_MILTIPLIER`. -/
def smoothScrollSpec (c : HeaderConstants) (d p : ℤ) (old new : QTimeLine) : Prop :=
  new.running = true ∧ new.startFrame = p ∧
  (old.running = true ∧ ¬ ((d < 0 ∧ p < old.endFrame) ∨ (0 < d ∧ old.endFrame < p)) →
    new.endFrame =
      old.endFrame + d * truncToInt ((c.SCROLL_DISTANCE : ℚ) * c.SCROLL_SPEED_MILTIPLIER) ∧
    (((truncToInt ((c.SCROLL_DISTANCE : ℚ) * c.SCROLL_SPEED_MILTIPLIER) : ℤ) : ℚ) =
        (c.SCROLL_DISTANCE : ℚ) * c.SCROLL_SPEED_MILTIPLIER →
      (new.endFrame : ℚ) =
        (old.endFrame : ℚ) + (d : ℚ) * (c.SCROLL_DISTANCE : ℚ) * c.SCROLL_SPEED_MILTIPLIER)) ∧
  (old.running = false ∨ ((d < 0 ∧ p < old.endFrame) ∨ (0 < d ∧ old.endFrame < p)) →
    new.endFrame = p + d * c.SCROLL_DISTANCE)

/-! Concrete states used to instantiate the theorems -/

/-- A view of 800 x 600 pixels at device pixel ratio 1, scrolled so that the scene centre
(100000, 100000) is in the middle, with the scroll range of the 200000-pixel scene. -/
def sampleView : GraphicsView :=
  { viewportWidth := 800, viewportHeight := 600,
    horizontalValue := 99600, verticalValue := 99700,
    horizontalMinimum := 0, horizontalMaximum := 199200,
    verticalMinimum := 0, verticalMaximum := 199400,
    devicePixelRatioF := 1, cursorPos := ⟨400, 300⟩, underMouse := true }

/-- A 4000 x 3000 pixmap. -/
def samplePixmap : QPixmap := { width := 4000, height := 3000, devicePixelRatio := 1, contents := 1 }

/-- The pixmap item holding `samplePixmap` the way `displayImage` sets it up, at scale 1. -/
def sampleItem : QGraphicsPixmapItem :=
  { pixmap := some samplePixmap, scale := 1, offset := ⟨98000, 98500⟩,
    transformOriginPoint := ⟨100000, 100000⟩,
    transformationMode := TransformationMode.SmoothTransformation, visible := true }

/-- The hidden, empty item of the scaled layer. -/
def emptyScaledItem : QGraphicsPixmapItem :=
  { pixmap := none, scale := 1, offset := ⟨0, 0⟩, transformOriginPoint := ⟨0, 0⟩,
    transformationMode := TransformationMode.FastTransformation, visible := false }

/-- Settings matching the members of `sampleViewer`. -/
def sampleSettings : Settings :=
  { smoothAnimatedImages := true, smoothUpscaling := true, expandImage := false,
    expandLimit := 2, keepFitMode := false, imageFitMode := ImageFitMode.FIT_WINDOW,
    zoomStep := 1 / 10, transparencyGrid := false,
    focusPointIn1to1Mode := ImageFocusPoint.FOCUS_CENTER, absoluteZoomStep := false,
    scalingFilter := ScalingFilter.QI_FILTER_BILINEAR,
    imageScrolling := ImageScrolling.SCROLL_BY_TRACKPAD_AND_WHEEL }

/-- A viewer showing `samplePixmap` at scale 1 in `sampleView`, with the member values of
the constructor, expansion of small images off, and a relative zoom step of 0.1. -/
def sampleViewer : ImageViewerV2 :=
  { consts := { FAST_SCALE_THRESHOLD := 1, SCROLL_DISTANCE := 120,
                SCROLL_SPEED_MILTIPLIER := 3 / 2, TRACKPAD_SCROLL_MULTIPLIER := 1,
                LARGE_VIEWPORT_SIZE := 2073600, dragThreshold := 10 },
    view := sampleView,
    pixmap := some samplePixmap, pixmapScaled := none, movie := none,
    pixmapItem := sampleItem, pixmapItemScaled := emptyScaledItem,
    transparencyGridEnabled := false, expandImage := false, smoothAnimatedImages := true,
    smoothUpscaling := true, forceFastScale := false, keepFitMode := false,
    loopPlayback := true, absoluteStep := false,
    minScale := 1 / 5, fitWindowScale := 1 / 5, expandLimit := 2, lockedScale := 1,
    zoomStep := 1 / 10, dpr := 1,
    mViewLock := ViewLockMode.LOCK_NONE, imageFitMode := ImageFitMode.FIT_ORIGINAL,
    imageFitModeDefault := ImageFitMode.FIT_WINDOW,
    mScalingFilter := ScalingFilter.QI_FILTER_BILINEAR,
    focusIn1to1 := ImageFocusPoint.FOCUS_CENTER,
    zoomAnchor := (⟨0, 0⟩, ⟨0, 0⟩), savedViewportPos := ⟨0, 0⟩, emitted := [],
    animationTimer := { active := false, interval := 0 },
    scaleTimer := { active := false, interval := 80 },
    scrollTimeLineX := { running := false, startFrame := 0, endFrame := 0 },
    scrollTimeLineY := { running := false, startFrame := 0, endFrame := 0 },
    mouseInteraction := MouseInteractionState.MOUSE_NONE,
    mouseMoveStartPos := ⟨0, 0⟩, mousePressPos := ⟨0, 0⟩,
    settings := sampleSettings, zoomThreshold := 4 }

/-- A viewer in `sampleView` showing pixmap `p` at scale 1, the item placed the way
`displayImage` places it (centred in the scene, transform origin at its centre). -/
def viewerShowing (p : QPixmap) : ImageViewerV2 :=
  { sampleViewer with
    pixmap := some p
    pixmapItem :=
      { sampleItem with
        pixmap := some p
        offset := ⟨sceneWidth / 2 - (p.width : ℚ) / (1 * 2), sceneHeight / 2 - (p.height : ℚ) / (1 * 2)⟩ } }

/-- A 100 x 100 pixmap, smaller than the sample viewport. -/
def smallPixmap : QPixmap := { width := 100, height := 100, devicePixelRatio := 1, contents := 2 }

/-- A 1 x 1 pixmap. -/
def dotPixmap : QPixmap := { width := 1, height := 1, devicePixelRatio := 1, contents := 3 }

/-- The sample viewport showing `dotPixmap`, expansion of small images allowed up to
1000 times (setting `expandLimit = 1000`). -/
def dotViewer : ImageViewerV2 := { viewerShowing dotPixmap with expandImage := true, expandLimit := 1000 }

/-- A 2000 x 1500 pixmap. -/
def halfPixmap : QPixmap := { width := 2000, height := 1500, devicePixelRatio := 1, contents := 4 }

/-- A viewer whose scale lies below its minimum scale, with the zoom step setting at 0.
The 2000 x 1500 image is shown in the 800 x 600 viewport at scale 1/5 in fit mode FREE:
it was displayed under a zoom lock taken at scale 1/5, the lock was released, and the
next resize event recomputed `minScale` (now 2/5) without rescaling, which is the
`updateMinScale` applied here. -/
def staleScaleViewer : ImageViewerV2 :=
  ({ viewerShowing halfPixmap with
     pixmapItem := { (viewerShowing halfPixmap).pixmapItem with scale := 1 / 5 }
     imageFitMode := ImageFitMode.FIT_FREE
     zoomStep := 0 } : ImageViewerV2).updateMinScale

/-- A viewer at scale 0 below its minimum scale, with the relative zoom step 0.1.  The
sample image was fitted while the viewport was empty (fit scale 0) and kept at scale 0 in
fit mode FREE by a zoom lock taken then and released after the window got its size;
`minScale` (now 1/5) was recomputed by a resize to 800 x 600, the `updateMinScale`
applied here. -/
def zeroScaleViewer : ImageViewerV2 :=
  ({ sampleViewer with
     pixmapItem := { sampleItem with scale := 0 }
     imageFitMode := ImageFitMode.FIT_FREE } : ImageViewerV2).updateMinScale

/-- The sample viewer scrolled so that the left and top edges of the content (at scene
coordinates 98000 and 98500) are inside the viewport. -/
def offEdgeViewer : ImageViewerV2 :=
  { sampleViewer with view := { sampleView with horizontalValue := 97000, verticalValue := 98000 } }

/-- A frame of 123 x 45 pixels. -/
def strayFrame : QPixmap := { width := 123, height := 45, devicePixelRatio := 1, contents := 7 }

/-- The sample viewer with an animation of 5 frames attached (the content is animated). -/
def animatedViewer : ImageViewerV2 :=
  { sampleViewer with movie := some { frameCount := 5, currentFrameNumber := 0 } }

/-- An animation of 5 frames of 100 x 80 pixels, before its first frame is read, with
frame delays of 40 to 80 ms. -/
def gifMovie : QMovie :=
  { frameCount := 5, currentFrameNumber := -1, frameWidth := 100, frameHeight := 80,
    delays := [40, 50, 60, 70, 80] }

/-- The sample viewer playing `gifMovie`, at frame `f`. -/
def gifViewerAt (f : ℤ) : ImageViewerV2 :=
  { sampleViewer.displayAnimation (some gifMovie) with
    movie := some { gifMovie with currentFrameNumber := f } }

/-- The viewer of `gifViewerAt` with a decoder that cannot deliver frame 3. -/
def brokenGifViewerAt (f : ℤ) : ImageViewerV2 :=
  { sampleViewer.displayAnimation (some gifMovie) with
    movie := some { gifMovie with currentFrameNumber := f, broken := [3] } }

/-- A viewport of 1600 x 1200 pixels, centred on the scene like `sampleView`. -/
def largeView : GraphicsView :=
  { viewportWidth := 1600, viewportHeight := 1200,
    horizontalValue := 99200, verticalValue := 99400,
    horizontalMinimum := 0, horizontalMaximum := 198400,
    verticalMinimum := 0, verticalMaximum := 198800,
    devicePixelRatioF := 1, cursorPos := ⟨400, 300⟩, underMouse := true }

/-- The viewer right after its constructor and `readSettings`: nothing displayed, both
items empty, the scaled item hidden. -/
def emptyViewer : ImageViewerV2 :=
  { sampleViewer with
    pixmap := none
    pixmapItem := { sampleItem with pixmap := none, offset := ⟨0, 0⟩, transformOriginPoint := ⟨0, 0⟩ }
    minScale := 1 / 100
    fitWindowScale := 1 / 8
    imageFitMode := ImageFitMode.FIT_WINDOW }

/-- The empty viewer after `displayImage` of the 4000 x 3000 sample pixmap: fitted to the
800 x 600 window at scale 1/5. -/
def fittedViewer : ImageViewerV2 := emptyViewer.displayImage (some samplePixmap)

/-- The scaled frame for `fittedViewer`: 800 x 600 pixels, the size it requested. -/
def fittedFrame : QPixmap := { width := 800, height := 600, devicePixelRatio := 1, contents := 8 }

/-- A controller with the sample viewer, showing the file `/pics/a.png`. -/
def sampleCore : Core :=
  { hasActiveImage := true, currentFileName := "a.png", absolutePath := "/pics",
    currentFilePath := "/pics/a.png", cached := some 1, scalerRequests := [],
    handedOver := [], deleted := [], viewer := sampleViewer }

/-- The sample viewer under view lock ALL (taken at scale 1, saved position (1/2, 1/2)),
with the pointer at (100, 50). -/
def cursorLockedViewer : ImageViewerV2 :=
  { sampleViewer.toggleLockView with
    view := { sampleViewer.toggleLockView.view with cursorPos := ⟨100, 50⟩ } }

/-- The sample image displayed under a zoom lock that was taken at scale 1/10 (on a larger
image), the lock released afterwards: scale 1/10, `minScale` 1/10, fit mode FREE. -/
def unlockedViewer : ImageViewerV2 :=
  (({ emptyViewer with mViewLock := ViewLockMode.LOCK_ZOOM, lockedScale := 1 / 10 } :
    ImageViewerV2).displayImage (some samplePixmap)).toggleLockZoom

/-- An empty pixmap, 0 x 0 pixels, as `QPixmap()` is; a pointer to it is not null. -/
def emptyPixmap : QPixmap := { width := 0, height := 0, devicePixelRatio := 1, contents := 0 }

/-- A valid movie whose decoder cannot deliver frame 0, so that its current pixmap stays
empty. -/
def unreadableMovie : QMovie := { gifMovie with broken := [0] }

/-- The empty viewer after `displayImage` of the 100 x 100 pixmap: it fits the 800 x 600
window and is shown at scale 1, with `minScale` 1 and `fitWindowScale` 6. -/
def smallFittedViewer : ImageViewerV2 := emptyViewer.displayImage (some smallPixmap)

/-- The sample viewer with the pointer outside the widget. -/
def pointerOutsideViewer : ImageViewerV2 :=
  { sampleViewer with view := { sampleView with underMouse := false } }

/-- A press of the left button at (400, 300). -/
def leftPress : ImageViewerV2.QMouseEvent :=
  { pos := ⟨400, 300⟩, buttonRight := false, leftHeld := true, rightHeld := false }

/-- A mouse move to `pos` with the left button held. -/
def leftMove (pos : QPoint) : ImageViewerV2.QMouseEvent :=
  { pos := pos, buttonRight := false, leftHeld := true, rightHeld := false }

/-- A mouse move to `pos` with the right button held. -/
def rightMove (pos : QPoint) : ImageViewerV2.QMouseEvent :=
  { pos := pos, buttonRight := false, leftHeld := false, rightHeld := true }

/-- A press of the right button at (400, 300). -/
def rightPress : ImageViewerV2.QMouseEvent :=
  { pos := ⟨400, 300⟩, buttonRight := true, leftHeld := false, rightHeld := true }

/-- The sample viewer with smooth upscaling off. -/
def upscaleOffViewer : ImageViewerV2 := { sampleViewer with smoothUpscaling := false }

/-- The movie `gifMovie` when its format cannot be read: `isValid()` is false. -/
def invalidMovie : QMovie := { gifMovie with valid := false }

/-- The sample viewer with smooth upscaling off, zoomed to scale 2 (fast sampling) and then
closed: nothing is displayed, the item is back at scale 1 and still samples fast. -/
def closedAfterUpscale : ImageViewerV2 :=
  (({ sampleViewer with smoothUpscaling := false } : ImageViewerV2).doZoom 2).closeImage

/-! Facts about the Qt helpers -/

theorem qMax_eq_max {α : Type} [LinearOrder α] (a b : α) : qMax a b = max a b := by
  unfold qMax
  split_ifs with h
  · exact (max_eq_right h.le).symm
  · exact (max_eq_left (not_lt.mp h)).symm

theorem qMin_eq_min {α : Type} [LinearOrder α] (a b : α) : qMin a b = min a b := by
  unfold qMin
  split_ifs with h
  · exact (min_eq_left h.le).symm
  · exact (min_eq_right (not_lt.mp h)).symm

theorem qBound_eq {α : Type} [LinearOrder α] (lo val hi : α) :
    qBound lo val hi = max lo (min hi val) := by
  unfold qBound
  rw [qMax_eq_max, qMin_eq_min]

theorem qBound_ge {α : Type} [LinearOrder α] (lo val hi : α) : lo ≤ qBound lo val hi := by
  rw [qBound_eq]
  exact le_max_left _ _

theorem qBound_le {α : Type} [LinearOrder α] (lo val hi : α) (h : lo ≤ hi) :
    qBound lo val hi ≤ hi := by
  rw [qBound_eq]
  exact max_le h (min_le_left _ _)

theorem qBound_of_mem {α : Type} [LinearOrder α] (lo val hi : α) (h1 : lo ≤ val) (h2 : val ≤ hi) :
    qBound lo val hi = val := by
  rw [qBound_eq, min_eq_right h2, max_eq_right h1]

/-! Scale clamping in doZoom (C1) -/

namespace ImageViewerV2

theorem swapToOriginalPixmap_scale (st : ImageViewerV2) :
    st.swapToOriginalPixmap.pixmapItem.scale = st.pixmapItem.scale := by
  unfold swapToOriginalPixmap
  split_ifs <;> rfl

theorem swapToOriginalPixmap_minScale (st : ImageViewerV2) :
    st.swapToOriginalPixmap.minScale = st.minScale := by
  unfold swapToOriginalPixmap
  split_ifs <;> rfl

theorem doZoom_scale (st : ImageViewerV2) (s : ℚ) (h : st.isDisplaying = true) :
    (st.doZoom s).pixmapItem.scale = qBound st.minScale s 500 := by
  unfold isDisplaying at h
  unfold doZoom
  cases hp : st.pixmap with
  | none => rw [hp] at h; simp at h
  | some p => simp only [emit, swapToOriginalPixmap_scale]

theorem doZoom_minScale (st : ImageViewerV2) (s : ℚ) : (st.doZoom s).minScale = st.minScale := by
  unfold doZoom
  cases st.pixmap with
  | none => rfl
  | some p => simp only [emit, swapToOriginalPixmap_minScale]

/-- C1. With content displayed and `minScale <= 500`, `doZoom s` leaves the display scale
equal to `s` clamped into `[minScale, 500]`; the minimum scale is untouched, so the new
scale lies in `[minScale, maxScale]`. -/
theorem doZoom_clamps_scale (st : ImageViewerV2) (s : ℚ)
    (hdisp : st.isDisplaying = true) (hmin : st.minScale ≤ 500) :
    (st.doZoom s).currentScale = max st.minScale (min s 500) ∧
    (st.doZoom s).minScale = st.minScale ∧
    (st.doZoom s).minScale ≤ (st.doZoom s).currentScale ∧
    (st.doZoom s).currentScale ≤ maxScale := by
  have hs : (st.doZoom s).currentScale = qBound st.minScale s 500 := doZoom_scale st s hdisp
  refine ⟨?_, doZoom_minScale st s, ?_, ?_⟩
  · rw [hs, qBound_eq, min_comm]
  · rw [hs, doZoom_minScale]
    exact qBound_ge _ _ _
  · rw [hs]
    exact qBound_le _ _ _ hmin

/-- C1, instance: a request of 1000 on the sample viewer (minimum 1/5) ends at 500. -/
theorem doZoom_clamps_scale_witness :
    sampleViewer.isDisplaying = true ∧ sampleViewer.minScale ≤ 500 ∧
    (sampleViewer.doZoom 1000).currentScale = max sampleViewer.minScale (min 1000 500) :=
  ⟨rfl, by decide!, (doZoom_clamps_scale sampleViewer 1000 rfl (by decide!)).1⟩

/-! Fit modes and the minimum scale (C2 to C5) -/

theorem centerOn_sameButView (st : ImageViewerV2) (pos : QPointF) :
    sameButView st (st.centerOn pos) := ⟨_, rfl⟩

theorem centerIfNecessary_sameButView (st : ImageViewerV2) :
    sameButView st st.centerIfNecessary := by
  unfold centerIfNecessary
  cases st.pixmap with
  | none => exact ⟨st.view, rfl⟩
  | some p => exact ⟨_, rfl⟩

theorem snapToEdges_sameButView (st : ImageViewerV2) : sameButView st st.snapToEdges := ⟨_, rfl⟩

theorem sameButView_trans {a b c : ImageViewerV2} (h1 : sameButView a b) (h2 : sameButView b c) :
    sameButView a c := by
  obtain ⟨v, rfl⟩ := h1
  obtain ⟨w, rfl⟩ := h2
  exact ⟨w, rfl⟩

theorem sameButView_pixmapItem {a b : ImageViewerV2} (h : sameButView a b) :
    b.pixmapItem = a.pixmapItem := by
  obtain ⟨v, rfl⟩ := h
  rfl

theorem centerSnap_pixmapItem (st : ImageViewerV2) :
    st.centerIfNecessary.snapToEdges.pixmapItem = st.pixmapItem :=
  sameButView_pixmapItem
    (sameButView_trans (centerIfNecessary_sameButView st) (snapToEdges_sameButView _))

theorem requestScaling_pixmapItem (st : ImageViewerV2) :
    st.requestScaling.pixmapItem = st.pixmapItem := by
  unfold requestScaling emit
  split_ifs <;> rfl

theorem zoomAnchored_scale (st : ImageViewerV2) (s : ℚ) (h : st.isDisplaying = true) :
    (st.zoomAnchored s).pixmapItem.scale =
      if st.pixmapItem.scale = s then st.pixmapItem.scale else qBound st.minScale s 500 := by
  unfold zoomAnchored currentScale
  by_cases hs : st.pixmapItem.scale = s
  · simp [hs]
  · simp only [ne_eq, hs, not_false_eq_true, if_true, if_false, requestScaling_pixmapItem]
    exact doZoom_scale st s h

theorem fitFree_scale (st : ImageViewerV2) (s : ℚ) (h : st.isDisplaying = true) :
    (st.fitFree s).pixmapItem.scale =
      if st.focusIn1to1 ≠ ImageFocusPoint.FOCUS_TOP ∧ st.pixmapItem.scale = s then st.pixmapItem.scale
      else qBound st.minScale s 500 := by
  unfold fitFree
  cases hp : st.pixmap with
  | none => unfold isDisplaying at h; rw [hp] at h; simp at h
  | some p =>
    by_cases hf : st.focusIn1to1 = ImageFocusPoint.FOCUS_TOP
    · simp only [hf, if_true, ne_eq, not_true_eq_false, false_and, if_false]
      have h1 : ∀ t : ImageViewerV2, (if t.scaledSize.height > t.view.viewportHeight then
          t.centerOn ⟨sceneWidth / 2, 0⟩ else t).pixmapItem = t.pixmapItem := by
        intro t; split_ifs <;> rfl
      have h2 := snapToEdges_sameButView
        (if (st.doZoom s).centerIfNecessary.scaledSize.height >
            (st.doZoom s).centerIfNecessary.view.viewportHeight then
          (st.doZoom s).centerIfNecessary.centerOn ⟨sceneWidth / 2, 0⟩
        else (st.doZoom s).centerIfNecessary)
      rw [sameButView_pixmapItem h2, h1,
        sameButView_pixmapItem (centerIfNecessary_sameButView _)]
      exact doZoom_scale st s h
    · simp only [hf, if_false, ne_eq, not_false_eq_true, true_and]
      rw [centerSnap_pixmapItem]
      by_cases hc : st.focusIn1to1 = ImageFocusPoint.FOCUS_CENTER
      · simp only [hc, if_true]
        exact zoomAnchored_scale (st.setZoomAnchor st.view.rect.center) s h
      · simp only [hc, if_false]
        exact zoomAnchored_scale (st.setZoomAnchor st.view.cursorPos) s h

/-- The value `updateFitWindowScale` stores for pixmap `p`. -/
theorem updateFitWindowScale_eq (st : ImageViewerV2) (p : QPixmap) (hp : st.pixmap = some p) :
    st.updateFitWindowScale =
      { st with
        fitWindowScale :=
          if st.expandImage = true ∧ st.expandLimit < fitRatio st.view p then st.expandLimit
          else fitRatio st.view p } := by
  unfold updateFitWindowScale fitRatio
  rw [hp]
  simp only
  by_cases hxy : (st.view.viewportWidth : ℚ) * st.view.devicePixelRatioF / (p.width : ℚ) <
      (st.view.viewportHeight : ℚ) * st.view.devicePixelRatioF / (p.height : ℚ)
  · rw [if_pos hxy, min_eq_left hxy.le]
    by_cases he : st.expandImage = true
    · by_cases hl : st.expandLimit <
          (st.view.viewportWidth : ℚ) * st.view.devicePixelRatioF / (p.width : ℚ) <;> simp [he, hl]
    · simp [he]
  · rw [if_neg hxy, min_eq_right (not_lt.mp hxy)]
    by_cases he : st.expandImage = true
    · by_cases hl : st.expandLimit <
          (st.view.viewportHeight : ℚ) * st.view.devicePixelRatioF / (p.height : ℚ) <;> simp [he, hl]
    · simp [he]

theorem updateFitWindowScale_imageFits (st : ImageViewerV2) :
    st.updateFitWindowScale.imageFits = st.imageFits := by
  cases hp : st.pixmap with
  | none => unfold updateFitWindowScale; rw [hp]
  | some p => rw [updateFitWindowScale_eq st p hp]; rfl

theorem updateMinScale_eq (st : ImageViewerV2) (p : QPixmap) (hp : st.pixmap = some p) :
    st.updateMinScale =
      { st.updateFitWindowScale with
        minScale :=
          if st.mViewLock ≠ ViewLockMode.LOCK_NONE ∧
              st.lockedScale <
                (if st.imageFits = true then 1 else st.updateFitWindowScale.fitWindowScale) then
            st.lockedScale
          else (if st.imageFits = true then 1 else st.updateFitWindowScale.fitWindowScale) } := by
  have hfit := updateFitWindowScale_imageFits st
  have hrest : st.updateFitWindowScale.mViewLock = st.mViewLock ∧
      st.updateFitWindowScale.lockedScale = st.lockedScale := by
    rw [updateFitWindowScale_eq st p hp]; exact ⟨rfl, rfl⟩
  unfold updateMinScale
  rw [hp]
  simp only [hfit]
  by_cases hf : st.imageFits = true
  · simp only [hf, if_true, hrest.1, hrest.2]
    by_cases hl : st.mViewLock = ViewLockMode.LOCK_NONE
    · simp [hl]
    · by_cases h1 : st.lockedScale < 1 <;> simp [hl, h1]
  · simp only [hf, if_false, hrest.1, hrest.2]
    by_cases hl : st.mViewLock = ViewLockMode.LOCK_NONE
    · simp [hl]
    · by_cases h1 : st.lockedScale < st.updateFitWindowScale.fitWindowScale <;> simp [hl, h1]

theorem updateMinScale_frame (st : ImageViewerV2) :
    st.updateMinScale.pixmap = st.pixmap ∧ st.updateMinScale.pixmapItem = st.pixmapItem ∧
    st.updateMinScale.view = st.view ∧ st.updateMinScale.expandImage = st.expandImage ∧
    st.updateMinScale.focusIn1to1 = st.focusIn1to1 ∧
    st.updateMinScale.imageFits = st.imageFits ∧
    st.updateMinScale.fitWindowScale = st.updateFitWindowScale.fitWindowScale := by
  cases hp : st.pixmap with
  | none =>
    have h1 : st.updateMinScale = st := by unfold updateMinScale; rw [hp]
    have h2 : st.updateFitWindowScale = st := by unfold updateFitWindowScale; rw [hp]
    rw [h1, h2]
    exact ⟨hp, rfl, rfl, rfl, rfl, rfl, rfl⟩
  | some p =>
    rw [updateMinScale_eq st p hp, updateFitWindowScale_eq st p hp]
    exact ⟨hp, rfl, rfl, rfl, rfl, rfl, rfl⟩

theorem imageFits_iff (st : ImageViewerV2) (p : QPixmap) (hp : st.pixmap = some p) :
    st.imageFits = true ↔
      ((p.width : ℚ) ≤ (st.view.viewportWidth : ℚ) * st.view.devicePixelRatioF ∧
       (p.height : ℚ) ≤ (st.view.viewportHeight : ℚ) * st.view.devicePixelRatioF) := by
  unfold imageFits
  rw [hp]
  simp

/-- When the content does not fit the viewport, the smaller ratio is below 1. -/
theorem fitRatio_lt_one (st : ImageViewerV2) (p : QPixmap) (hp : st.pixmap = some p)
    (hw : 0 < p.width) (hh : 0 < p.height) (hfit : ¬ st.imageFits = true) :
    fitRatio st.view p < 1 := by
  rw [imageFits_iff st p hp, not_and_or] at hfit
  have hw2 : (0 : ℚ) < (p.width : ℚ) := by exact_mod_cast hw
  have hh2 : (0 : ℚ) < (p.height : ℚ) := by exact_mod_cast hh
  unfold fitRatio
  rcases hfit with h | h
  · exact lt_of_le_of_lt (min_le_left _ _) ((div_lt_one hw2).2 (lt_of_not_le h))
  · exact lt_of_le_of_lt (min_le_right _ _) ((div_lt_one hh2).2 (lt_of_not_le h))

/-- When the content fits the viewport, both ratios are at least 1. -/
theorem one_le_fitRatio (st : ImageViewerV2) (p : QPixmap) (hp : st.pixmap = some p)
    (hw : 0 < p.width) (hh : 0 < p.height) (hfit : st.imageFits = true) :
    1 ≤ fitRatio st.view p := by
  rw [imageFits_iff st p hp] at hfit
  have hw2 : (0 : ℚ) < (p.width : ℚ) := by exact_mod_cast hw
  have hh2 : (0 : ℚ) < (p.height : ℚ) := by exact_mod_cast hh
  unfold fitRatio
  exact le_min ((one_le_div hw2).2 hfit.1) ((one_le_div hh2).2 hfit.2)

theorem updateFitWindowScale_fitWindowScale (st : ImageViewerV2) (p : QPixmap)
    (hp : st.pixmap = some p) :
    st.updateFitWindowScale.fitWindowScale =
      if st.expandImage = true ∧ st.expandLimit < fitRatio st.view p then st.expandLimit
      else fitRatio st.view p := by
  rw [updateFitWindowScale_eq st p hp]

theorem updateFitWindowScale_le_fitRatio (st : ImageViewerV2) (p : QPixmap)
    (hp : st.pixmap = some p) : st.updateFitWindowScale.fitWindowScale ≤ fitRatio st.view p := by
  rw [updateFitWindowScale_fitWindowScale st p hp]
  split_ifs with h
  · exact h.2.le
  · exact le_rfl

theorem updateMinScale_minScale (st : ImageViewerV2) (p : QPixmap) (hp : st.pixmap = some p) :
    st.updateMinScale.minScale =
      if st.mViewLock ≠ ViewLockMode.LOCK_NONE ∧
          st.lockedScale <
            (if st.imageFits = true then 1 else st.updateFitWindowScale.fitWindowScale) then
        st.lockedScale
      else (if st.imageFits = true then 1 else st.updateFitWindowScale.fitWindowScale) := by
  rw [updateMinScale_eq st p hp]

/-- Without a view lock the minimum scale computed by `updateMinScale` never exceeds 1. -/
theorem updateMinScale_minScale_le_one (st : ImageViewerV2) (p : QPixmap)
    (hp : st.pixmap = some p) (hw : 0 < p.width) (hh : 0 < p.height)
    (hlock : st.mViewLock = ViewLockMode.LOCK_NONE) : st.updateMinScale.minScale ≤ 1 := by
  rw [updateMinScale_minScale st p hp]
  simp only [hlock, ne_eq, not_true_eq_false, false_and, if_false]
  split_ifs with hf
  · exact le_rfl
  · exact le_trans (updateFitWindowScale_le_fitRatio st p hp) (fitRatio_lt_one st p hp hw hh hf).le

/-- C2 (amended). With content of positive size displayed, no view lock, `expandLimit >= 1`
and `minScale` / `fitWindowScale` freshly computed by `updateMinScale`, `fitWindow` leaves
the scale at 1 when the content fits and expansion is disallowed; otherwise it leaves it
equal to `fitWindowScale` provided `fitWindowScale <= 500`; a larger `fitWindowScale` is
clamped to 500 by `doZoom` (unless the scale already equals it, when nothing happens). -/
theorem fitWindow_scale (st : ImageViewerV2) (p : QPixmap) (hp : st.pixmap = some p)
    (hw : 0 < p.width) (hh : 0 < p.height) (hlock : st.mViewLock = ViewLockMode.LOCK_NONE)
    (hlim : 1 ≤ st.expandLimit) :
    st.updateMinScale.fitWindow.currentScale =
      if st.updateMinScale.imageFits = true ∧ st.updateMinScale.expandImage = false then 1
      else if st.updateMinScale.fitWindowScale ≤ 500 then st.updateMinScale.fitWindowScale
      else if st.updateMinScale.currentScale = st.updateMinScale.fitWindowScale then
        st.updateMinScale.fitWindowScale
      else 500 := by
  obtain ⟨hpix, hitem, hview, hexp, hfoc, hfits, hfws⟩ := updateMinScale_frame st
  have hdisp : st.updateMinScale.isDisplaying = true := by
    unfold isDisplaying; rw [hpix, hp]; rfl
  have hmin := updateMinScale_minScale st p hp
  simp only [hlock, ne_eq, not_true_eq_false, false_and, if_false] at hmin
  unfold fitWindow
  rw [hpix, hp]
  simp only [hfits, hexp]
  by_cases hA : st.imageFits = true ∧ st.expandImage = false
  · have hA2 : (st.imageFits && !st.expandImage) = true := by simp [hA.1, hA.2]
    rw [if_pos hA2, if_pos hA]
    unfold fitNormal currentScale
    rw [fitFree_scale _ _ hdisp, hmin, if_pos hA.1]
    split_ifs with h
    · exact h.2
    · exact qBound_of_mem _ _ _ le_rfl (by norm_num)
  · have hA2 : ¬ (st.imageFits && !st.expandImage) = true := by
      intro h; simp at h; exact hA h
    rw [if_neg hA2, if_neg hA]
    have hle : st.updateMinScale.minScale ≤ st.updateMinScale.fitWindowScale ∧
        st.updateMinScale.minScale ≤ 500 := by
      rw [hmin]
      by_cases hf : st.imageFits = true
      · have he : st.expandImage = true := by
          cases h : st.expandImage with
          | true => rfl
          | false => exact absurd ⟨hf, h⟩ hA
        rw [if_pos hf, hfws, updateFitWindowScale_fitWindowScale st p hp]
        refine ⟨?_, by norm_num⟩
        split_ifs
        · exact hlim
        · exact one_le_fitRatio st p hp hw hh hf
      · rw [if_neg hf, hfws]
        refine ⟨le_rfl, ?_⟩
        have := lt_of_le_of_lt (updateFitWindowScale_le_fitRatio st p hp)
          (fitRatio_lt_one st p hp hw hh hf)
        linarith
    have key : ∀ t : ImageViewerV2, t.centerOnPixmap.currentScale = t.pixmapItem.scale :=
      fun _ => rfl
    rw [key]
    by_cases hc : st.updateMinScale.currentScale = st.updateMinScale.fitWindowScale
    · rw [if_neg (not_not.mpr hc), if_pos hc]
      show st.updateMinScale.currentScale = _
      rw [hc]; simp
    · rw [if_pos hc, if_neg hc]
      have hd : st.updateMinScale.swapToOriginalPixmap.isDisplaying = true := by
        unfold isDisplaying swapToOriginalPixmap
        split_ifs
        · rw [hpix, hp]; rfl
        · show st.updateMinScale.pixmap.isSome = true
          rw [hpix, hp]; rfl
      rw [doZoom_scale _ _ hd, swapToOriginalPixmap_minScale, qBound_eq]
      split_ifs with h5
      · rw [min_eq_right h5, max_eq_right hle.1]
      · rw [min_eq_left (not_le.mp h5).le, max_eq_right hle.2]

/-- C2, the scenario of the specification: content 4000 x 3000 in a viewport of
800 x 600 at device pixel ratio 1, expansion disallowed, gives scale 0.2. -/
theorem fitWindow_scale_witness :
    sampleViewer.updateMinScale.fitWindowScale = 1 / 5 ∧
    sampleViewer.updateMinScale.fitWindow.currentScale = 1 / 5 := by
  have h := fitWindow_scale sampleViewer samplePixmap rfl (by decide) (by decide) rfl (by decide!)
  have h1 : sampleViewer.updateMinScale.fitWindowScale = 1 / 5 := by decide!
  have h2 : ¬ (sampleViewer.updateMinScale.imageFits = true ∧
      sampleViewer.updateMinScale.expandImage = false) := by decide!
  rw [if_neg h2, h1, if_pos (by norm_num)] at h
  exact ⟨h1, h⟩

/-- C2, counterexample: a 1 x 1 image in the 800 x 600 viewport with expansion allowed up
to 1000 times has `fitWindowScale = 600`, the content fits and expansion is allowed, yet
`fitWindow` leaves the scale at 500, not at `fitWindowScale`. -/
theorem fitWindow_scale_counterexample :
    dotViewer.mViewLock = ViewLockMode.LOCK_NONE ∧
    dotViewer.updateMinScale.isDisplaying = true ∧
    ¬ (dotViewer.updateMinScale.imageFits = true ∧ dotViewer.updateMinScale.expandImage = false) ∧
    dotViewer.updateMinScale.fitWindowScale = 600 ∧
    dotViewer.updateMinScale.fitWindow.currentScale = 500 ∧
    dotViewer.updateMinScale.fitWindow.currentScale ≠ dotViewer.updateMinScale.fitWindowScale := by
  decide!

/-- C3 (amended). For content of positive width and height, `updateFitWindowScale` sets
`fitWindowScale` to `min(viewportWidth * dpr / contentWidth, viewportHeight * dpr /
contentHeight)`, replaced by `expandLimit` exactly when expansion is allowed
(`expandImage` true) and that minimum exceeds `expandLimit`; with expansion disallowed
the minimum is stored as it is, without a cap at 1. -/
theorem updateFitWindowScale_value (st : ImageViewerV2) (p : QPixmap) (hp : st.pixmap = some p)
    (hw : 0 < p.width) (hh : 0 < p.height) :
    st.updateFitWindowScale.fitWindowScale =
      (if st.expandImage = true ∧ st.expandLimit < fitRatio st.view p then st.expandLimit
       else fitRatio st.view p) ∧
    fitRatio st.view p =
      min ((st.view.viewportWidth : ℚ) * st.view.devicePixelRatioF / (p.width : ℚ))
        ((st.view.viewportHeight : ℚ) * st.view.devicePixelRatioF / (p.height : ℚ)) ∧
    (p.width : ℚ) ≠ 0 ∧ (p.height : ℚ) ≠ 0 := by
  refine ⟨updateFitWindowScale_fitWindowScale st p hp, rfl, ?_, ?_⟩
  · exact_mod_cast hw.ne.symm
  · exact_mod_cast hh.ne.symm

/-- C3, instance: 4000 x 3000 content in the 800 x 600 viewport gives 1/5. -/
theorem updateFitWindowScale_value_witness :
    sampleViewer.updateFitWindowScale.fitWindowScale = 1 / 5 := by
  have h := (updateFitWindowScale_value sampleViewer samplePixmap rfl (by decide) (by decide)).1
  have h2 : ¬ (sampleViewer.expandImage = true ∧
      sampleViewer.expandLimit < fitRatio sampleViewer.view samplePixmap) := by decide!
  rw [if_neg h2] at h
  rw [h]
  decide!

/-- C3, counterexample: 100 x 100 content in the 800 x 600 viewport with expansion
disallowed and `expandLimit = 2`: the stored `fitWindowScale` is 6, neither capped at 1
nor at `expandLimit`. -/
theorem updateFitWindowScale_counterexample :
    (viewerShowing smallPixmap).expandImage = false ∧
    (viewerShowing smallPixmap).expandLimit = 2 ∧
    fitRatio (viewerShowing smallPixmap).view smallPixmap = 6 ∧
    (viewerShowing smallPixmap).updateFitWindowScale.fitWindowScale = 6 ∧
    ¬ ((viewerShowing smallPixmap).updateFitWindowScale.fitWindowScale ≤ 1) ∧
    ¬ ((viewerShowing smallPixmap).updateFitWindowScale.fitWindowScale ≤
        (viewerShowing smallPixmap).expandLimit) := by
  decide!

/-- C4. After `updateMinScale` with content displayed: without a view lock `minScale` is 1
if the content fits the viewport at scale 1 (`contentWidth <= viewportWidth * dpr` and
`contentHeight <= viewportHeight * dpr`) and `fitWindowScale` otherwise; with a zoom or
view lock it is the smaller of that value and `lockedScale`. -/
theorem updateMinScale_value (st : ImageViewerV2) (p : QPixmap) (hp : st.pixmap = some p) :
    st.updateMinScale.minScale =
      if st.mViewLock = ViewLockMode.LOCK_NONE then
        (if (p.width : ℚ) ≤ (st.view.viewportWidth : ℚ) * st.view.devicePixelRatioF ∧
            (p.height : ℚ) ≤ (st.view.viewportHeight : ℚ) * st.view.devicePixelRatioF then 1
         else st.updateMinScale.fitWindowScale)
      else
        min (if (p.width : ℚ) ≤ (st.view.viewportWidth : ℚ) * st.view.devicePixelRatioF ∧
                (p.height : ℚ) ≤ (st.view.viewportHeight : ℚ) * st.view.devicePixelRatioF then 1
             else st.updateMinScale.fitWindowScale)
          st.lockedScale := by
  rw [updateMinScale_minScale st p hp, (updateMinScale_frame st).2.2.2.2.2.2]
  have hiff := imageFits_iff st p hp
  by_cases hf : st.imageFits = true
  · simp only [if_pos hf, if_pos (hiff.1 hf)]
    by_cases hl : st.mViewLock = ViewLockMode.LOCK_NONE
    · simp [hl]
    · rw [if_neg hl]
      by_cases h1 : st.lockedScale < 1
      · rw [if_pos ⟨hl, h1⟩, min_eq_right h1.le]
      · rw [if_neg (fun h => h1 h.2), min_eq_left (not_lt.mp h1)]
  · have hn := fun h => hf (hiff.2 h)
    simp only [if_neg hf, if_neg hn]
    by_cases hl : st.mViewLock = ViewLockMode.LOCK_NONE
    · simp [hl]
    · rw [if_neg hl]
      by_cases h1 : st.lockedScale < st.updateFitWindowScale.fitWindowScale
      · rw [if_pos ⟨hl, h1⟩, min_eq_right h1.le]
      · rw [if_neg (fun h => h1 h.2), min_eq_left (not_lt.mp h1)]

/-- C4, instance: the sample viewer (4000 x 3000 in 800 x 600, no lock) gets
`minScale = fitWindowScale = 1/5`. -/
theorem updateMinScale_value_witness :
    sampleViewer.pixmap = some samplePixmap ∧ sampleViewer.updateMinScale.minScale = 1 / 5 := by
  refine ⟨rfl, ?_⟩
  rw [updateMinScale_value sampleViewer samplePixmap rfl]
  decide!

/-- C5. With content of positive size displayed and `minScale` freshly computed by
`updateMinScale` without a view lock, `fitNormal` (fit mode ORIGINAL) leaves the display
scale exactly 1, for every focus-point setting: the minimum scale does not exceed 1, so
the clamp in `doZoom` does not move the requested 1. -/
theorem fitNormal_scale (st : ImageViewerV2) (p : QPixmap) (hp : st.pixmap = some p)
    (hw : 0 < p.width) (hh : 0 < p.height) (hlock : st.mViewLock = ViewLockMode.LOCK_NONE) :
    st.updateMinScale.minScale ≤ 1 ∧ st.updateMinScale.fitNormal.currentScale = 1 := by
  have hle := updateMinScale_minScale_le_one st p hp hw hh hlock
  have hdisp : st.updateMinScale.isDisplaying = true := by
    unfold isDisplaying; rw [(updateMinScale_frame st).1, hp]; rfl
  refine ⟨hle, ?_⟩
  unfold fitNormal currentScale
  rw [fitFree_scale _ _ hdisp]
  split_ifs with h
  · exact h.2
  · exact qBound_of_mem _ _ _ hle (by norm_num)

/-- C5, instance: the sample viewer zoomed to 3 comes back to scale 1. -/
theorem fitNormal_scale_witness :
    ({ sampleViewer with pixmapItem := { sampleItem with scale := 3 } }.updateMinScale).fitNormal.currentScale
      = 1 :=
  (fitNormal_scale { sampleViewer with pixmapItem := { sampleItem with scale := 3 } }
    samplePixmap rfl (by decide) (by decide) rfl).2

/-! Zooming in (C6) -/

theorem sameZoomInputs_of_sameButView {a b : ImageViewerV2} (h : sameButView a b) :
    sameZoomInputs a b := by
  obtain ⟨v, rfl⟩ := h
  exact ⟨rfl, rfl, rfl, rfl⟩

theorem sameZoomInputs_trans {a b c : ImageViewerV2} (h1 : sameZoomInputs a b)
    (h2 : sameZoomInputs b c) : sameZoomInputs a c :=
  ⟨h2.1.trans h1.1, h2.2.1.trans h1.2.1, h2.2.2.1.trans h1.2.2.1, h2.2.2.2.trans h1.2.2.2⟩

theorem swapToOriginalPixmap_sameZoomInputs (st : ImageViewerV2) :
    sameZoomInputs st st.swapToOriginalPixmap := by
  unfold swapToOriginalPixmap
  split_ifs <;> exact ⟨rfl, rfl, rfl, rfl⟩

theorem emit_sameZoomInputs (st : ImageViewerV2) (s : ViewerSignal) :
    sameZoomInputs st (st.emit s) := ⟨rfl, rfl, rfl, rfl⟩

theorem doZoom_sameZoomInputs (st : ImageViewerV2) (s : ℚ) : sameZoomInputs st (st.doZoom s) := by
  unfold doZoom
  split
  · exact ⟨rfl, rfl, rfl, rfl⟩
  · refine sameZoomInputs_trans
      (sameZoomInputs_trans ?_ (swapToOriginalPixmap_sameZoomInputs _)) (emit_sameZoomInputs _ _)
    exact ⟨rfl, rfl, rfl, rfl⟩

theorem requestScaling_sameZoomInputs (st : ImageViewerV2) :
    sameZoomInputs st st.requestScaling := by
  unfold requestScaling emit
  split_ifs <;> exact ⟨rfl, rfl, rfl, rfl⟩

theorem zoomAnchored_sameZoomInputs (st : ImageViewerV2) (s : ℚ) :
    sameZoomInputs st (st.zoomAnchored s) := by
  unfold zoomAnchored
  split_ifs
  · exact sameZoomInputs_trans (doZoom_sameZoomInputs st s)
      (sameZoomInputs_trans (sameZoomInputs_of_sameButView (centerOn_sameButView _ _))
        (requestScaling_sameZoomInputs _))
  · exact ⟨rfl, rfl, rfl, rfl⟩

theorem zoomIn_sameZoomInputs (st : ImageViewerV2) : sameZoomInputs st st.zoomIn := by
  have h1 : sameZoomInputs st (st.setZoomAnchor st.view.rect.center) := ⟨rfl, rfl, rfl, rfl⟩
  have h2 : ∀ t : ImageViewerV2, sameZoomInputs t
      (if t.absoluteStep then t.zoomAnchored (t.currentScale + t.zoomStep)
       else t.zoomAnchored (t.currentScale * (1 + t.zoomStep))) := by
    intro t; split_ifs <;> exact zoomAnchored_sameZoomInputs _ _
  have h3 : ∀ t : ImageViewerV2, sameZoomInputs t t.centerIfNecessary.snapToEdges := fun t =>
    sameZoomInputs_of_sameButView
      (sameButView_trans (centerIfNecessary_sameButView t) (snapToEdges_sameButView _))
  have h4 : ∀ t : ImageViewerV2, sameZoomInputs t
      (if ({ t with imageFitMode := ImageFitMode.FIT_FREE } : ImageViewerV2).pixmapItem.scale =
          ({ t with imageFitMode := ImageFitMode.FIT_FREE } : ImageViewerV2).fitWindowScale then
        { ({ t with imageFitMode := ImageFitMode.FIT_FREE } : ImageViewerV2) with
          imageFitMode := ImageFitMode.FIT_WINDOW }
       else { t with imageFitMode := ImageFitMode.FIT_FREE }) := by
    intro t; split_ifs <;> exact ⟨rfl, rfl, rfl, rfl⟩
  unfold zoomIn
  exact sameZoomInputs_trans h1 (sameZoomInputs_trans (h2 _) (sameZoomInputs_trans (h3 _) (h4 _)))

theorem zoomIn_scale (st : ImageViewerV2) (h : st.isDisplaying = true) :
    st.zoomIn.currentScale =
      if st.currentScale = st.zoomInTarget then st.currentScale
      else qBound st.minScale st.zoomInTarget 500 := by
  have h4 : ∀ t : ImageViewerV2,
      (if ({ t with imageFitMode := ImageFitMode.FIT_FREE } : ImageViewerV2).pixmapItem.scale =
          ({ t with imageFitMode := ImageFitMode.FIT_FREE } : ImageViewerV2).fitWindowScale then
        { ({ t with imageFitMode := ImageFitMode.FIT_FREE } : ImageViewerV2) with
          imageFitMode := ImageFitMode.FIT_WINDOW }
       else { t with imageFitMode := ImageFitMode.FIT_FREE }).pixmapItem = t.pixmapItem := by
    intro t; split_ifs <;> rfl
  unfold zoomIn currentScale zoomInTarget
  simp only
  rw [h4, centerSnap_pixmapItem]
  by_cases ha : st.absoluteStep = true
  · have ha2 : (st.setZoomAnchor st.view.rect.center).absoluteStep = true := ha
    rw [if_pos ha2, if_pos ha]
    exact zoomAnchored_scale (st.setZoomAnchor st.view.rect.center) _ h
  · have ha2 : ¬ (st.setZoomAnchor st.view.rect.center).absoluteStep = true := ha
    rw [if_neg ha2, if_neg ha]
    exact zoomAnchored_scale (st.setZoomAnchor st.view.rect.center) _ h

/-- C6 (amended). With content displayed at scale `s` and zoom step `z`, `zoomIn` requests
`s * (1 + z)` (relative step) or `s + z` (absolute step); when the requested value differs
from `s` the scale becomes `qBound(minScale, requested, 500)`, and when it equals `s`
(`z = 0`, or `s = 0` with a relative step) the scale is left at `s` without clamping.
In particular, whenever `s` already lies in `[minScale, 500]` the new scale is the
clamped request. -/
theorem zoomIn_scale_clamped (st : ImageViewerV2) (hdisp : st.isDisplaying = true) :
    st.zoomInTarget =
      (if st.absoluteStep = true then st.currentScale + st.zoomStep
       else st.currentScale * (1 + st.zoomStep)) ∧
    st.zoomIn.currentScale =
      (if st.currentScale = st.zoomInTarget then st.currentScale
       else qBound st.minScale st.zoomInTarget 500) ∧
    (st.minScale ≤ st.currentScale ∧ st.currentScale ≤ 500 →
      st.zoomIn.currentScale = qBound st.minScale st.zoomInTarget 500) := by
  refine ⟨rfl, zoomIn_scale st hdisp, ?_⟩
  intro hr
  rw [zoomIn_scale st hdisp]
  split_ifs with he
  · rw [← he]
    exact (qBound_of_mem _ _ _ hr.1 hr.2).symm
  · rfl

/-- C6, the scenario of the specification: relative step 0.1 from scale 1 with
`minScale = 1/5` gives 1.1 after one `zoomIn` and 1.21 after two. -/
theorem zoomIn_scale_clamped_witness :
    sampleViewer.currentScale = 1 ∧ sampleViewer.zoomStep = 1 / 10 ∧
    sampleViewer.absoluteStep = false ∧
    sampleViewer.zoomIn.currentScale = 11 / 10 ∧
    sampleViewer.zoomIn.zoomIn.currentScale = 121 / 100 := by
  have h1 := (zoomIn_scale_clamped sampleViewer rfl).2.1
  have h2 := (zoomIn_scale_clamped sampleViewer.zoomIn
    (by unfold isDisplaying; rw [(zoomIn_sameZoomInputs sampleViewer).1]; rfl)).2.1
  have e1 : sampleViewer.zoomIn.currentScale = 11 / 10 := by
    rw [h1]; decide!
  refine ⟨rfl, rfl, rfl, e1, ?_⟩
  obtain ⟨-, hm, ha, hz⟩ := zoomIn_sameZoomInputs sampleViewer
  rw [h2]
  unfold zoomInTarget
  rw [ha, hz, hm, e1]
  decide!

/-- C6, counterexample: at scale 1/5 below `minScale = 2/5` with zoom step 0, `zoomIn`
leaves the scale at 1/5, while the clamp of the requested `1/5 * (1 + 0)` into
`[minScale, 500]` is 2/5; likewise at scale 0 below `minScale = 1/5` with the relative
step 0.1 the scale stays 0 while the clamp of `0 * (1 + 0.1)` is 1/5. -/
theorem zoomIn_scale_counterexample :
    (staleScaleViewer.isDisplaying = true ∧
     staleScaleViewer.currentScale = 1 / 5 ∧ staleScaleViewer.zoomStep = 0 ∧
     staleScaleViewer.absoluteStep = false ∧ staleScaleViewer.minScale = 2 / 5 ∧
     qBound staleScaleViewer.minScale
       (staleScaleViewer.currentScale * (1 + staleScaleViewer.zoomStep)) 500 = 2 / 5 ∧
     staleScaleViewer.zoomIn.currentScale = 1 / 5 ∧
     staleScaleViewer.zoomIn.currentScale ≠
       qBound staleScaleViewer.minScale
         (staleScaleViewer.currentScale * (1 + staleScaleViewer.zoomStep)) 500) ∧
    (zeroScaleViewer.isDisplaying = true ∧
     zeroScaleViewer.currentScale = 0 ∧ zeroScaleViewer.zoomStep = 1 / 10 ∧
     zeroScaleViewer.absoluteStep = false ∧ zeroScaleViewer.minScale = 1 / 5 ∧
     zeroScaleViewer.zoomIn.currentScale = 0 ∧
     zeroScaleViewer.zoomIn.currentScale ≠
       qBound zeroScaleViewer.minScale
         (zeroScaleViewer.currentScale * (1 + zeroScaleViewer.zoomStep)) 500) := by
  decide!

/-! Anchored zoom (C7) -/

end ImageViewerV2

theorem qRound_add_intCast (x : ℚ) (z : ℤ) : qRound (x + (z : ℚ)) = qRound x + z := by
  unfold qRound
  rw [add_right_comm, Int.floor_add_int]

theorem qRound_sub_intCast (x : ℚ) (z : ℤ) : qRound (x - (z : ℚ)) = qRound x - z := by
  unfold qRound
  rw [sub_add_eq_add_sub, Int.floor_sub_int]

theorem truncToInt_intCast (z : ℤ) : truncToInt (z : ℚ) = z := by
  unfold truncToInt
  split_ifs
  · exact Int.floor_intCast z
  · exact Int.ceil_intCast z

namespace ImageViewerV2

theorem swapToOriginalPixmap_view (st : ImageViewerV2) :
    st.swapToOriginalPixmap.view = st.view ∧ st.swapToOriginalPixmap.zoomAnchor = st.zoomAnchor := by
  unfold swapToOriginalPixmap
  split_ifs <;> exact ⟨rfl, rfl⟩

theorem doZoom_view (st : ImageViewerV2) (s : ℚ) :
    (st.doZoom s).view = st.view ∧ (st.doZoom s).zoomAnchor = st.zoomAnchor := by
  unfold doZoom
  split
  · exact ⟨rfl, rfl⟩
  · simp only [emit]
    exact swapToOriginalPixmap_view _

theorem requestScaling_view (st : ImageViewerV2) : st.requestScaling.view = st.view := by
  unfold requestScaling emit
  split_ifs <;> rfl

/-- The item-space anchor recorded by `setZoomAnchor` lies under the viewport point. -/
theorem setZoomAnchor_under (st : ImageViewerV2) (p : QPoint) (h0 : st.pixmapItem.scale ≠ 0) :
    st.pixmapItem.mapToScene (st.setZoomAnchor p).zoomAnchor.1 = st.view.mapToScene p := by
  unfold setZoomAnchor QGraphicsPixmapItem.mapToScene QGraphicsPixmapItem.mapFromScene
  simp only [if_neg h0]
  congr 1 <;> field_simp <;> simp only [GraphicsView.mapToScene] <;> ring

/-- Centring the view on the old centre minus the viewport-space drift `p - p'` of a
scene point `q` (where `p'` is the current viewport position of `q`) brings `q` to the
viewport point `p`, when the scroll bar ranges allow it. -/
theorem GraphicsView_recentre (v : GraphicsView) (q : QPointF) (p : QPoint)
    (hw : 0 < v.viewportWidth) (hh : 0 < v.viewportHeight)
    (hfree : v.canCenterOn
      ⟨v.sceneCenter.x - ((p.x - (v.mapFromScene q).x : ℤ) : ℚ),
       v.sceneCenter.y - ((p.y - (v.mapFromScene q).y : ℤ) : ℚ)⟩) :
    (v.centerOn
      ⟨v.sceneCenter.x - ((p.x - (v.mapFromScene q).x : ℤ) : ℚ),
       v.sceneCenter.y - ((p.y - (v.mapFromScene q).y : ℤ) : ℚ)⟩).mapFromScene q = p := by
  have hne : ¬ (v.viewportWidth ≤ 0 ∨ v.viewportHeight ≤ 0) := by omega
  have hx : v.sceneCenter.x - ((p.x - (v.mapFromScene q).x : ℤ) : ℚ) - (v.viewportWidth : ℚ) / 2 =
      ((v.horizontalValue - (p.x - (v.mapFromScene q).x) : ℤ) : ℚ) := by
    unfold GraphicsView.sceneCenter
    rw [if_neg hne]
    push_cast
    ring
  have hy : v.sceneCenter.y - ((p.y - (v.mapFromScene q).y : ℤ) : ℚ) - (v.viewportHeight : ℚ) / 2 =
      ((v.verticalValue - (p.y - (v.mapFromScene q).y) : ℤ) : ℚ) := by
    unfold GraphicsView.sceneCenter
    rw [if_neg hne]
    push_cast
    ring
  unfold GraphicsView.canCenterOn at hfree
  simp only [hx, hy, truncToInt_intCast] at hfree
  unfold GraphicsView.centerOn
  simp only [hx, hy, truncToInt_intCast]
  rw [qBound_of_mem _ _ _ hfree.1.1 hfree.1.2, qBound_of_mem _ _ _ hfree.2.1 hfree.2.2]
  unfold GraphicsView.mapFromScene QPointF.toPoint
  simp only [qRound_sub_intCast]
  cases p
  simp only [QPoint.mk.injEq]
  constructor <;> omega

theorem zoomAnchored_of_ne (st : ImageViewerV2) (s : ℚ) (hs : st.currentScale ≠ s) :
    (st.zoomAnchored s).view =
      st.view.centerOn
        ⟨st.view.sceneCenter.x - ((st.zoomAnchor.2.x -
            (st.view.mapFromScene ((st.doZoom s).pixmapItem.mapToScene st.zoomAnchor.1)).x : ℤ) : ℚ),
         st.view.sceneCenter.y - ((st.zoomAnchor.2.y -
            (st.view.mapFromScene ((st.doZoom s).pixmapItem.mapToScene st.zoomAnchor.1)).y : ℤ) : ℚ)⟩ ∧
    (st.zoomAnchored s).pixmapItem = (st.doZoom s).pixmapItem := by
  obtain ⟨hv, hz⟩ := doZoom_view st s
  unfold zoomAnchored
  rw [if_pos hs]
  simp only [requestScaling_view, requestScaling_pixmapItem]
  refine ⟨?_, rfl⟩
  show (st.doZoom s).view.centerOn ((st.doZoom s).anchorCenterTarget st.view.sceneCenter) = _
  unfold anchorCenterTarget
  rw [hv, hz]

theorem anchorCenterTarget_eq (st : ImageViewerV2) (s : ℚ) :
    (st.doZoom s).anchorCenterTarget st.view.sceneCenter =
      ⟨st.view.sceneCenter.x - ((st.zoomAnchor.2.x -
          (st.view.mapFromScene ((st.doZoom s).pixmapItem.mapToScene st.zoomAnchor.1)).x : ℤ) : ℚ),
       st.view.sceneCenter.y - ((st.zoomAnchor.2.y -
          (st.view.mapFromScene ((st.doZoom s).pixmapItem.mapToScene st.zoomAnchor.1)).y : ℤ) : ℚ)⟩ := by
  obtain ⟨hv, hz⟩ := doZoom_view st s
  unfold anchorCenterTarget
  rw [hv, hz]

/-- C7. Anchored zoom is anchor-stable.  Let `p` be a viewport point recorded by
`setZoomAnchor p` in a non-empty viewport at a non-zero scale, so that the recorded
item-space point lies under `p`.  For every requested scale `s` different from the
current one, provided the scroll bar ranges let the view be centred where `zoomAnchored`
asks, after `zoomAnchored s` the recorded item point maps to the viewport point `p`
again (exactly: the rounding of the scene-to-viewport mapping cancels). -/
theorem zoomAnchored_anchor_stable (st : ImageViewerV2) (p : QPoint) (s : ℚ)
    (hw : 0 < st.view.viewportWidth) (hh : 0 < st.view.viewportHeight)
    (h0 : st.currentScale ≠ 0) (hs : st.currentScale ≠ s)
    (hfree : ((st.setZoomAnchor p).doZoom s).view.canCenterOn
      (((st.setZoomAnchor p).doZoom s).anchorCenterTarget (st.setZoomAnchor p).view.sceneCenter)) :
    st.pixmapItem.mapToScene (st.setZoomAnchor p).zoomAnchor.1 = st.view.mapToScene p ∧
    ((st.setZoomAnchor p).zoomAnchored s).view.mapFromScene
      (((st.setZoomAnchor p).zoomAnchored s).pixmapItem.mapToScene
        (st.setZoomAnchor p).zoomAnchor.1) = p := by
  refine ⟨setZoomAnchor_under st p h0, ?_⟩
  obtain ⟨hview, hitem⟩ := zoomAnchored_of_ne (st.setZoomAnchor p) s hs
  rw [anchorCenterTarget_eq, (doZoom_view (st.setZoomAnchor p) s).1] at hfree
  rw [hview, hitem]
  exact GraphicsView_recentre (st.setZoomAnchor p).view _ p hw hh hfree

/-- C7, instance: on the sample viewer, anchoring at viewport point (100, 50) and zooming
to scale 2 keeps the anchored item point under (100, 50). -/
theorem zoomAnchored_anchor_stable_witness :
    ((sampleViewer.setZoomAnchor ⟨100, 50⟩).zoomAnchored 2).view.mapFromScene
      (((sampleViewer.setZoomAnchor ⟨100, 50⟩).zoomAnchored 2).pixmapItem.mapToScene
        (sampleViewer.setZoomAnchor ⟨100, 50⟩).zoomAnchor.1) = ⟨100, 50⟩ :=
  (zoomAnchored_anchor_stable sampleViewer ⟨100, 50⟩ 2 (by decide) (by decide) (by decide!)
    (by decide!) (by decide!)).2

/-! Edge snapping (C8) -/

end ImageViewerV2

theorem snapAxis_idem (lo hi l r w v : ℤ) :
    snapAxis lo hi l r w (snapAxis lo hi l r w v) = snapAxis lo hi l r w v := by
  unfold snapAxis
  simp only [qBound_eq]
  omega

namespace ImageViewerV2

theorem scaledRect_eq (st : ImageViewerV2) :
    st.scaledRect =
      ⟨st.edgeLeft - st.view.horizontalValue, st.edgeTop - st.view.verticalValue,
       st.edgeRight - st.view.horizontalValue, st.edgeBottom - st.view.verticalValue⟩ := by
  unfold scaledRect QRect.ofCorners GraphicsView.mapFromScene QPointF.toPoint
    edgeLeft edgeTop edgeRight edgeBottom
  simp only [qRound_sub_intCast]

theorem snapToEdges_eq (st : ImageViewerV2)
    (hw : 0 < st.view.viewportWidth) (hh : 0 < st.view.viewportHeight) :
    st.snapToEdges =
      { st with
        view :=
          { st.view with
            horizontalValue :=
              snapAxis st.view.horizontalMinimum st.view.horizontalMaximum st.edgeLeft st.edgeRight
                st.view.viewportWidth st.view.horizontalValue
            verticalValue :=
              snapAxis st.view.verticalMinimum st.view.verticalMaximum st.edgeTop st.edgeBottom
                st.view.viewportHeight st.view.verticalValue } } := by
  have hne : ¬ (st.view.viewportWidth ≤ 0 ∨ st.view.viewportHeight ≤ 0) := by omega
  have hx : ∀ k : ℤ, st.view.sceneCenter.x + (k : ℚ) - (st.view.viewportWidth : ℚ) / 2 =
      ((st.view.horizontalValue + k : ℤ) : ℚ) := by
    intro k
    unfold GraphicsView.sceneCenter
    rw [if_neg hne]
    push_cast
    ring
  have hy : ∀ k : ℤ, st.view.sceneCenter.y + (k : ℚ) - (st.view.viewportHeight : ℚ) / 2 =
      ((st.view.verticalValue + k : ℤ) : ℚ) := by
    intro k
    unfold GraphicsView.sceneCenter
    rw [if_neg hne]
    push_cast
    ring
  unfold snapToEdges centerOn GraphicsView.centerOn
  simp only [hx, hy, truncToInt_intCast]
  unfold snapShiftX snapShiftY snapAxis width height
  rw [scaledRect_eq]
  rfl

/-- C8. In a non-empty viewport `snapToEdges` is idempotent: applying it twice yields the
same state, hence the same viewport centre, as applying it once; and when the scroll bar
ranges do not cut the first correction short, the second application computes a zero
shift on both axes. -/
theorem snapToEdges_idempotent (st : ImageViewerV2)
    (hw : 0 < st.view.viewportWidth) (hh : 0 < st.view.viewportHeight) :
    st.snapToEdges.snapToEdges = st.snapToEdges ∧
    st.snapToEdges.snapToEdges.view.sceneCenter = st.snapToEdges.view.sceneCenter ∧
    (st.view.canCenterOn ⟨st.view.sceneCenter.x + (st.snapShiftX : ℚ),
        st.view.sceneCenter.y + (st.snapShiftY : ℚ)⟩ →
      st.snapToEdges.snapShiftX = 0 ∧ st.snapToEdges.snapShiftY = 0) := by
  have h1 := snapToEdges_eq st hw hh
  have hw2 : 0 < st.snapToEdges.view.viewportWidth := by rw [h1]; exact hw
  have hh2 : 0 < st.snapToEdges.view.viewportHeight := by rw [h1]; exact hh
  have h2 := snapToEdges_eq st.snapToEdges hw2 hh2
  have hidem : st.snapToEdges.snapToEdges = st.snapToEdges := by
    rw [h2]
    rw [h1]
    simp only [edgeLeft, edgeRight, edgeTop, edgeBottom, snapAxis_idem]
  refine ⟨hidem, by rw [hidem], ?_⟩
  intro hfree
  have hne : ¬ (st.view.viewportWidth ≤ 0 ∨ st.view.viewportHeight ≤ 0) := by omega
  have hx : st.view.sceneCenter.x + (st.snapShiftX : ℚ) - (st.view.viewportWidth : ℚ) / 2 =
      ((st.view.horizontalValue + st.snapShiftX : ℤ) : ℚ) := by
    unfold GraphicsView.sceneCenter
    rw [if_neg hne]
    push_cast
    ring
  have hy : st.view.sceneCenter.y + (st.snapShiftY : ℚ) - (st.view.viewportHeight : ℚ) / 2 =
      ((st.view.verticalValue + st.snapShiftY : ℤ) : ℚ) := by
    unfold GraphicsView.sceneCenter
    rw [if_neg hne]
    push_cast
    ring
  unfold GraphicsView.canCenterOn at hfree
  simp only [hx, hy, truncToInt_intCast] at hfree
  have hsx : ∀ t : ImageViewerV2, t.snapShiftX =
      (if (t.edgeRight - t.view.horizontalValue) - (t.edgeLeft - t.view.horizontalValue) + 1 >
          t.view.viewportWidth then
        if t.edgeLeft - t.view.horizontalValue > 0 then t.edgeLeft - t.view.horizontalValue
        else if t.edgeRight - t.view.horizontalValue < t.view.viewportWidth then
          (t.edgeRight - t.view.horizontalValue) - t.view.viewportWidth
        else 0
      else 0) := by
    intro t
    unfold snapShiftX width
    rw [scaledRect_eq]
    rfl
  have hsy : ∀ t : ImageViewerV2, t.snapShiftY =
      (if (t.edgeBottom - t.view.verticalValue) - (t.edgeTop - t.view.verticalValue) + 1 >
          t.view.viewportHeight then
        if t.edgeTop - t.view.verticalValue > 0 then t.edgeTop - t.view.verticalValue
        else if t.edgeBottom - t.view.verticalValue < t.view.viewportHeight then
          (t.edgeBottom - t.view.verticalValue) - t.view.viewportHeight
        else 0
      else 0) := by
    intro t
    unfold snapShiftY height
    rw [scaledRect_eq]
    rfl
  have e1 : st.snapToEdges.edgeLeft = st.edgeLeft ∧ st.snapToEdges.edgeRight = st.edgeRight ∧
      st.snapToEdges.edgeTop = st.edgeTop ∧ st.snapToEdges.edgeBottom = st.edgeBottom ∧
      st.snapToEdges.view.viewportWidth = st.view.viewportWidth ∧
      st.snapToEdges.view.viewportHeight = st.view.viewportHeight := ⟨rfl, rfl, rfl, rfl, rfl, rfl⟩
  have e2 : st.snapToEdges.view.horizontalValue = st.view.horizontalValue + st.snapShiftX := by
    rw [h1]
    show snapAxis _ _ _ _ _ _ = _
    unfold snapAxis
    rw [← hsx st]
    exact qBound_of_mem _ _ _ hfree.1.1 hfree.1.2
  have e3 : st.snapToEdges.view.verticalValue = st.view.verticalValue + st.snapShiftY := by
    rw [h1]
    show snapAxis _ _ _ _ _ _ = _
    unfold snapAxis
    rw [← hsy st]
    exact qBound_of_mem _ _ _ hfree.2.1 hfree.2.2
  obtain ⟨el, er, et, eb, ew, eh⟩ := e1
  constructor
  · rw [hsx st.snapToEdges, el, er, ew, e2, hsx st]
    omega
  · rw [hsy st.snapToEdges, et, eb, eh, e3, hsy st]
    omega

/-- C8, instance: with the left and top content edges inside the viewport the first
`snapToEdges` scrolls to (98000, 98500); a second one changes nothing. -/
theorem snapToEdges_idempotent_witness :
    offEdgeViewer.snapToEdges.view.horizontalValue = 98000 ∧
    offEdgeViewer.snapToEdges.view.verticalValue = 98500 ∧
    offEdgeViewer.snapToEdges.snapToEdges = offEdgeViewer.snapToEdges :=
  ⟨by decide!, by decide!, (snapToEdges_idempotent offEdgeViewer (by decide) (by decide)).1⟩

/-! The scaled layer (C9, C10) -/

/-- C9. For static content, a scaling result whose pixel size differs from the expected
`scaledSize() * dpr` is dropped: `setScaledPixmap` returns the state unchanged, so the
held scaled pixmap, the content of the scaled layer and the visibility of both layers
are exactly as before the call. -/
theorem setScaledPixmap_stale (st : ImageViewerV2) (newFrame : QPixmap)
    (hstatic : st.hasAnimation = false)
    (hsize : newFrame.size ≠ st.scaledSize.mul st.dpr) :
    st.setScaledPixmap newFrame = st ∧
    (st.setScaledPixmap newFrame).pixmapScaled = st.pixmapScaled ∧
    (st.setScaledPixmap newFrame).pixmapItemScaled.pixmap = st.pixmapItemScaled.pixmap ∧
    (st.setScaledPixmap newFrame).pixmapItem.visible = st.pixmapItem.visible ∧
    (st.setScaledPixmap newFrame).pixmapItemScaled.visible = st.pixmapItemScaled.visible := by
  have h : st.setScaledPixmap newFrame = st := by
    unfold hasAnimation at hstatic
    unfold setScaledPixmap
    have hm : st.movie.isNone = true := by
      cases hmv : st.movie with
      | none => rfl
      | some m => rw [hmv] at hstatic; simp at hstatic
    rw [if_pos]
    simp [hm, hsize]
  rw [h]
  exact ⟨rfl, rfl, rfl, rfl, rfl⟩

/-- C9, instance: the sample viewer expects 4000 x 3000 pixels and drops a frame of
123 x 45 pixels. -/
theorem setScaledPixmap_stale_witness :
    sampleViewer.scaledSize.mul sampleViewer.dpr = ⟨4000, 3000⟩ ∧
    sampleViewer.setScaledPixmap strayFrame = sampleViewer :=
  ⟨by decide!, (setScaledPixmap_stale sampleViewer strayFrame rfl (by decide!)).1⟩

/-- C10 (amended). When the displayed content is animated `setScaledPixmap` is never
rejected: the size check is made for static content only, and for every incoming frame
of any size the frame (given the device pixel ratio of the viewer) becomes the held
scaled pixmap and the content of the scaled layer, the original layer is hidden and the
scaled layer is shown. -/
theorem setScaledPixmap_animated (st : ImageViewerV2) (newFrame : QPixmap)
    (hanim : st.hasAnimation = true) :
    (st.setScaledPixmap newFrame).pixmapScaled = some (newFrame.setDevicePixelRatio st.dpr) ∧
    (st.setScaledPixmap newFrame).pixmapItemScaled.pixmap =
      some (newFrame.setDevicePixelRatio st.dpr) ∧
    (st.setScaledPixmap newFrame).pixmapItem.visible = false ∧
    (st.setScaledPixmap newFrame).pixmapItemScaled.visible = true := by
  unfold hasAnimation at hanim
  have hm : st.movie.isNone = false := by
    cases hmv : st.movie with
    | none => rw [hmv] at hanim; simp at hanim
    | some m => rfl
  unfold setScaledPixmap
  rw [if_neg (by simp [hm])]
  exact ⟨rfl, rfl, rfl, rfl⟩

/-- C10, instance: the animated sample viewer takes the stray frame. -/
theorem setScaledPixmap_animated_witness :
    animatedViewer.hasAnimation = true ∧
    (animatedViewer.setScaledPixmap strayFrame).pixmapScaled = some strayFrame :=
  ⟨rfl, (setScaledPixmap_animated animatedViewer strayFrame rfl).1⟩

/-- C10, counterexample: with animated content shown and no scaled pixmap held, a
123 x 45 frame handed to `setScaledPixmap` is not rejected: afterwards it is the held
scaled pixmap, the original layer is hidden and the scaled layer is visible. -/
theorem setScaledPixmap_animated_counterexample :
    animatedViewer.hasAnimation = true ∧
    animatedViewer.pixmapScaled = none ∧
    animatedViewer.pixmapItem.visible = true ∧
    animatedViewer.pixmapItemScaled.visible = false ∧
    (animatedViewer.setScaledPixmap strayFrame).pixmapScaled ≠ animatedViewer.pixmapScaled ∧
    (animatedViewer.setScaledPixmap strayFrame).pixmapItem.visible ≠
      animatedViewer.pixmapItem.visible ∧
    (animatedViewer.setScaledPixmap strayFrame).pixmapItemScaled.visible ≠
      animatedViewer.pixmapItemScaled.visible := by
  decide!

end ImageViewerV2

/-! The controller and the scaler (C11) -/

/-- C11: `Core::onScalingFinished` hands the scaled pixmap to the main window (and through it
to the viewer) exactly when an image is active and the request string equals the current
file path; in that case the viewer is what the main window makes of it and nothing is
deleted; in every other case the pixmap is deleted, nothing is handed over and the viewer
is unchanged. -/
theorem onScalingFinished_handover (c : Core)
    (mwOnScalingFinished : ImageViewerV2 → QPixmap → ImageViewerV2) (scaled : QPixmap)
    (req : ScalerRequest) :
    ((c.onScalingFinished mwOnScalingFinished scaled req).handedOver = c.handedOver ++ [scaled] ↔
      (c.hasActiveImage = true ∧ req.string = c.currentFilePath)) ∧
    (if c.hasActiveImage = true ∧ req.string = c.currentFilePath then
      (c.onScalingFinished mwOnScalingFinished scaled req).viewer =
        mwOnScalingFinished c.viewer scaled ∧
      (c.onScalingFinished mwOnScalingFinished scaled req).deleted = c.deleted
    else
      (c.onScalingFinished mwOnScalingFinished scaled req).viewer = c.viewer ∧
      (c.onScalingFinished mwOnScalingFinished scaled req).handedOver = c.handedOver ∧
      (c.onScalingFinished mwOnScalingFinished scaled req).deleted = c.deleted ++ [scaled]) := by
  by_cases h : c.hasActiveImage = true ∧ req.string = c.currentFilePath
  · have h1 : (c.hasActiveImage && decide (req.string = c.currentFilePath)) = true := by
      simp [h.1, h.2]
    simp [Core.onScalingFinished, h1, h]
  · have h1 : (c.hasActiveImage && decide (req.string = c.currentFilePath)) = false := by
      rcases Bool.eq_false_or_eq_true c.hasActiveImage with ha | ha
      · by_cases hs : req.string = c.currentFilePath
        · exact absurd ⟨ha, hs⟩ h
        · simp [hs]
      · simp [ha]
    simp [Core.onScalingFinished, h1, h]

namespace ImageViewerV2

/-! Animation stepping and seeking (C12 to C15) -/

/-- A step forward from a frame before the last one succeeds when the next frame can be
decoded, and moves on by one frame. -/
theorem jumpToNextFrame_ok (m : QMovie) (h0 : 0 ≤ m.currentFrameNumber + 1)
    (h1 : m.currentFrameNumber + 1 < m.frameCount) (hb : m.currentFrameNumber + 1 ∉ m.broken) :
    m.jumpToNextFrame =
      ({ m with currentFrameNumber := m.currentFrameNumber + 1,
                calls := m.calls ++ [MovieCall.jumpToNextFrame] }, true) := by
  unfold QMovie.jumpToNextFrame
  rw [if_pos ⟨h0, h1, hb⟩]

/-- The seek loop with enough fuel: `d` steps forward, each one recorded, when every frame
on the way can be decoded. -/
theorem seekLoop_steps (d : ℕ) : ∀ (fuel : ℕ) (t : ℤ) (m : QMovie),
    d ≤ fuel → 0 ≤ m.currentFrameNumber → m.currentFrameNumber + d = t → t < m.frameCount →
    (∀ k, 0 ≤ k → k < m.frameCount → k ∉ m.broken) →
    seekLoop fuel t m =
      some { m with currentFrameNumber := t,
                    calls := m.calls ++ List.replicate d MovieCall.jumpToNextFrame } := by
  induction d with
  | zero =>
    intro fuel t m _ _ ht _ _
    have hc : m.currentFrameNumber = t := by simpa using ht
    subst hc
    cases fuel with
    | zero => simp [seekLoop]
    | succ k => simp [seekLoop]
  | succ d ih =>
    intro fuel t m hfuel h0 ht htn hb
    cases fuel with
    | zero => omega
    | succ k =>
      push_cast at ht
      have hne : t ≠ m.currentFrameNumber := by omega
      have hstep := jumpToNextFrame_ok m (by omega) (by omega) (hb _ (by omega) (by omega))
      have h1c : m.jumpToNextFrame.1.currentFrameNumber = m.currentFrameNumber + 1 := by
        rw [hstep]
      have h1f : m.jumpToNextFrame.1.frameCount = m.frameCount := by rw [hstep]
      have h1b : m.jumpToNextFrame.1.broken = m.broken := by rw [hstep]
      have h2 : m.jumpToNextFrame.2 = true := by rw [hstep]
      have hrec := ih k t m.jumpToNextFrame.1 (by omega) (by omega) (by omega) (by omega)
        (by rw [h1f, h1b]; exact hb)
      unfold seekLoop
      rw [if_pos hne]
      simp only [h2, Bool.not_true, Bool.false_eq_true, if_false]
      rw [hrec, hstep]
      simp [List.replicate_succ]

/-- Pushing a frame leaves the movie, the timers and the display scale alone; it logs
`frameChanged` and installs the frame as the displayed pixmap. -/
theorem pushCurrentFrame_eq (st : ImageViewerV2) (m : QMovie) :
    (st.pushCurrentFrame m).movie = st.movie ∧
    (st.pushCurrentFrame m).animationTimer = st.animationTimer ∧
    (st.pushCurrentFrame m).emitted = st.emitted ++ [ViewerSignal.frameChanged m.currentFrameNumber] ∧
    (st.pushCurrentFrame m).pixmap = some (m.currentPixmap.setDevicePixelRatio st.dpr) ∧
    (st.pushCurrentFrame m).pixmapItem.pixmap = some (m.currentPixmap.setDevicePixelRatio st.dpr) ∧
    (st.pushCurrentFrame m).pixmapItem.visible = true :=
  ⟨rfl, rfl, rfl, rfl, rfl, rfl⟩

/-- The result of `showAnimationFrame` in terms of its seek loop, when the target is in
range and differs from the current frame. -/
theorem showAnimationFrame_of_seek (st : ImageViewerV2) (m m1 : QMovie) (t : ℤ) (fuel : ℕ)
    (hm : st.movie = some m) (hrange : ¬ (t < 0 ∨ t ≥ m.frameCount))
    (hcur : ¬ m.currentFrameNumber = t)
    (hs : seekLoop fuel t (if t < m.currentFrameNumber then m.jumpToFrame0.1 else m) = some m1) :
    st.showAnimationFrame t fuel =
      some (({ st with movie := some m1 } : ImageViewerV2).pushCurrentFrame m1, true) := by
  simp only [showAnimationFrame, hm, hrange, hcur, if_false, hs]

/-- C12: seeking in an animation whose decoder can deliver every frame.  From a current
frame in range, `showAnimationFrame t` with `0 ≤ t < frameCount` returns (for every fuel of
at least `t` loop rounds) the flag `true` and leaves the movie at frame `t`.  When `t` is
before the current frame the decoder calls made are one `jumpToFrame(0)` followed by
exactly `t` calls of `jumpToNextFrame`; otherwise they are `t - f` calls of
`jumpToNextFrame`.  Unless the viewer was at frame `t` already, frame `t` is pushed as the
displayed pixmap and `frameChanged(t)` is emitted. -/
theorem showAnimationFrame_seeks (st : ImageViewerV2) (m : QMovie) (t : ℤ) (fuel : ℕ)
    (hm : st.movie = some m)
    (hdec : ∀ k, 0 ≤ k → k < m.frameCount → k ∉ m.broken)
    (hf0 : 0 ≤ m.currentFrameNumber) (hfn : m.currentFrameNumber < m.frameCount)
    (ht0 : 0 ≤ t) (htn : t < m.frameCount) (hfuel : t.toNat ≤ fuel) :
    ∃ st1 m1, st.showAnimationFrame t fuel = some (st1, true) ∧ st1.movie = some m1 ∧
      m1.currentFrameNumber = t ∧
      m1.calls = m.calls ++
        (if t < m.currentFrameNumber then
          MovieCall.jumpToFrame 0 :: List.replicate t.toNat MovieCall.jumpToNextFrame
         else List.replicate (t - m.currentFrameNumber).toNat MovieCall.jumpToNextFrame) ∧
      (t ≠ m.currentFrameNumber →
        st1.pixmap = some (m1.currentPixmap.setDevicePixelRatio st.dpr) ∧
        st1.emitted = st.emitted ++ [ViewerSignal.frameChanged t]) := by
  have hrange : ¬ (t < 0 ∨ t ≥ m.frameCount) := by omega
  by_cases hcur : m.currentFrameNumber = t
  · refine ⟨st, m, ?_, hm, hcur, ?_, fun h => absurd hcur.symm h⟩
    · simp [showAnimationFrame, hm, hrange, hcur]
    · have h1 : ¬ t < m.currentFrameNumber := by omega
      have h2 : (t - m.currentFrameNumber).toNat = 0 := by omega
      simp [h1, h2]
  · by_cases hlt : t < m.currentFrameNumber
    · have h0 : m.currentFrameNumber ≠ 0 := by omega
      have hj : m.jumpToFrame0.1 =
          { m with currentFrameNumber := 0, calls := m.calls ++ [MovieCall.jumpToFrame 0] } := by
        unfold QMovie.jumpToFrame0
        rw [if_neg h0, if_pos ⟨by omega, hdec 0 le_rfl (by omega)⟩]
      have hs := seekLoop_steps t.toNat fuel t m.jumpToFrame0.1 hfuel (by rw [hj])
        (by rw [hj]; simp; omega) (by rw [hj]; exact htn) (by rw [hj]; exact hdec)
      have hres := showAnimationFrame_of_seek st m _ t fuel hm hrange hcur
        (by rw [if_pos hlt]; exact hs)
      refine ⟨_, _, hres, rfl, rfl, ?_, fun _ => ⟨rfl, rfl⟩⟩
      simp [hj, hlt]
    · have hs := seekLoop_steps (t - m.currentFrameNumber).toNat fuel t m (by omega) hf0
        (by omega) htn hdec
      have hres := showAnimationFrame_of_seek st m _ t fuel hm hrange hcur
        (by rw [if_neg hlt]; exact hs)
      refine ⟨_, _, hres, rfl, rfl, ?_, fun _ => ⟨rfl, rfl⟩⟩
      simp [hlt]

/-- C12 at a concrete input: 5 frames, at frame 3, seeking to frame 1. -/
theorem showAnimationFrame_seeks_witness :
    ∃ st1 m1, (gifViewerAt 3).showAnimationFrame 1 5 = some (st1, true) ∧ st1.movie = some m1 ∧
      m1.currentFrameNumber = 1 ∧
      m1.calls = [MovieCall.jumpToFrame 0, MovieCall.jumpToNextFrame] := by
  obtain ⟨st1, m1, h1, h2, h3, h4, _⟩ :=
    showAnimationFrame_seeks (gifViewerAt 3) { gifMovie with currentFrameNumber := 3 } 1 5 rfl
      (by intro k _ _; simp [gifMovie]) (by decide) (by decide) (by decide) (by decide)
      (by decide)
  exact ⟨st1, m1, h1, h2, h3, by simpa [gifMovie] using h4⟩

/-- C13: at the last frame with loop playback off, the timer slot emits `animationPaused(true)`
and then `playbackFinished` and nothing else, does not start the animation timer (which,
being single-shot, is inactive after the tick), pushes no frame (pixmap and item are
unchanged) and leaves the movie, hence the frame index `n - 1`, as it was. -/
theorem onAnimationTimer_finishes (st : ImageViewerV2) (m : QMovie) (hm : st.movie = some m)
    (hlast : m.currentFrameNumber = m.frameCount - 1) (hloop : st.loopPlayback = false) :
    st.onAnimationTimer.emitted =
      st.emitted ++ [ViewerSignal.animationPaused true, ViewerSignal.playbackFinished] ∧
    st.onAnimationTimer.animationTimer = st.animationTimer ∧
    st.animationTimerTimeout.animationTimer.active = false ∧
    st.onAnimationTimer.pixmap = st.pixmap ∧
    st.onAnimationTimer.pixmapItem = st.pixmapItem ∧
    st.onAnimationTimer.movie = some m := by
  have h : st.onAnimationTimer =
      (st.emit (ViewerSignal.animationPaused true)).emit ViewerSignal.playbackFinished := by
    simp [onAnimationTimer, hm, hlast, hloop]
  refine ⟨by simp [h, emit], by simp [h, emit], ?_, by simp [h, emit], by simp [h, emit],
    by simp [h, emit, hm]⟩
  unfold animationTimerTimeout
  split
  · simp [onAnimationTimer, hm, hlast, hloop, emit, QTimer.stop]
  · rename_i hact
    simpa using hact

/-- C13 at the input of the claim: 5 frames, at frame 4, loop playback off. -/
theorem onAnimationTimer_finishes_witness :
    ({ gifViewerAt 4 with loopPlayback := false } : ImageViewerV2).onAnimationTimer.movie =
      some { gifMovie with currentFrameNumber := 4 } :=
  (onAnimationTimer_finishes { gifViewerAt 4 with loopPlayback := false }
    { gifMovie with currentFrameNumber := 4 } rfl (by decide) rfl).2.2.2.2.2

/-- C15: a tick before the last frame on which the decoder cannot supply the next frame.
The animation timer is stopped and not started again, the only signal emitted is
`animationPaused(true)` (so no `frameChanged`), the displayed pixmap and the item are
unchanged, the frame index is unchanged, and the content stays displayed and animated. -/
theorem onAnimationTimer_decode_failure (st : ImageViewerV2) (m : QMovie)
    (hm : st.movie = some m) (hdisp : st.isDisplaying = true)
    (hnl : m.currentFrameNumber ≠ m.frameCount - 1) (hfail : m.jumpToNextFrame.2 = false) :
    st.onAnimationTimer.animationTimer.active = false ∧
    st.onAnimationTimer.emitted = st.emitted ++ [ViewerSignal.animationPaused true] ∧
    st.onAnimationTimer.pixmap = st.pixmap ∧
    st.onAnimationTimer.pixmapItem = st.pixmapItem ∧
    st.onAnimationTimer.isDisplaying = true ∧
    st.onAnimationTimer.hasAnimation = true ∧
    ∃ m1, st.onAnimationTimer.movie = some m1 ∧ m1.currentFrameNumber = m.currentFrameNumber := by
  have h : st.onAnimationTimer =
      ({ st with movie := some m.jumpToNextFrame.1 } : ImageViewerV2).stopAnimation := by
    simp [onAnimationTimer, hm, hnl, hfail]
  have hcur : m.jumpToNextFrame.1.currentFrameNumber = m.currentFrameNumber := by
    revert hfail
    unfold QMovie.jumpToNextFrame
    split
    · intro hc; simp at hc
    · intro _; rfl
  rw [h]
  refine ⟨rfl, rfl, rfl, rfl, ?_, rfl, _, rfl, hcur⟩
  simpa [stopAnimation, emit, isDisplaying] using hdisp

/-- C15 at a concrete input: 5 frames, at frame 2, frame 3 cannot be decoded. -/
theorem onAnimationTimer_decode_failure_witness :
    (brokenGifViewerAt 2).onAnimationTimer.animationTimer.active = false ∧
    (brokenGifViewerAt 2).onAnimationTimer.emitted =
      (brokenGifViewerAt 2).emitted ++ [ViewerSignal.animationPaused true] :=
  have h := onAnimationTimer_decode_failure (brokenGifViewerAt 2)
    { gifMovie with currentFrameNumber := 2, broken := [3] } rfl (by decide!) (by decide)
    (by decide)
  ⟨h.1, h.2.1⟩

/-! Smooth scrolling (C16) -/

/-- Conversion to `int` commutes with negation. -/
theorem truncToInt_neg (x : ℚ) : truncToInt (-x) = -truncToInt x := by
  unfold truncToInt
  rcases lt_trichotomy x 0 with h | h | h
  · rw [if_pos (by linarith), if_neg (by linarith), Int.floor_neg]
  · subst h; simp
  · rw [if_neg (by linarith), if_pos (by linarith), Int.ceil_neg]

/-- Saving the viewport position leaves everything but `savedViewportPos` alone. -/
theorem saveViewportPos_eq (st : ImageViewerV2) :
    ∃ q, st.saveViewportPos = { st with savedViewportPos := q } := by
  unfold saveViewportPos
  split
  · exact ⟨st.savedViewportPos, rfl⟩
  · exact ⟨_, rfl⟩

/-- The timelines after `scrollSmooth`: each axis with a non-zero delta is restarted by
`scrollSmoothAxis` from the scroll bar value of that axis. -/
theorem scrollSmooth_timelines (st : ImageViewerV2) (dx dy : ℤ) :
    (st.scrollSmooth dx dy).scrollTimeLineX =
      (if dx ≠ 0 then scrollSmoothAxis st.consts dx st.view.horizontalValue st.scrollTimeLineX
       else st.scrollTimeLineX) ∧
    (st.scrollSmooth dx dy).scrollTimeLineY =
      (if dy ≠ 0 then scrollSmoothAxis st.consts dy st.view.verticalValue st.scrollTimeLineY
       else st.scrollTimeLineY) := by
  unfold scrollSmooth
  simp only []
  obtain ⟨q, hq⟩ := saveViewportPos_eq
    (if dy ≠ 0 then
      { (if dx ≠ 0 then
          { st with scrollTimeLineX :=
              scrollSmoothAxis st.consts dx st.view.horizontalValue st.scrollTimeLineX }
         else st) with
        scrollTimeLineY :=
          scrollSmoothAxis (if dx ≠ 0 then
              { st with scrollTimeLineX :=
                  scrollSmoothAxis st.consts dx st.view.horizontalValue st.scrollTimeLineX }
             else st).consts dy
            (if dx ≠ 0 then
              { st with scrollTimeLineX :=
                  scrollSmoothAxis st.consts dx st.view.horizontalValue st.scrollTimeLineX }
             else st).view.verticalValue
            (if dx ≠ 0 then
              { st with scrollTimeLineX :=
                  scrollSmoothAxis st.consts dx st.view.horizontalValue st.scrollTimeLineX }
             else st).scrollTimeLineY }
     else
      (if dx ≠ 0 then
        { st with scrollTimeLineX :=
            scrollSmoothAxis st.consts dx st.view.horizontalValue st.scrollTimeLineX }
       else st))
  rw [hq]
  by_cases hx : dx = 0 <;> by_cases hy : dy = 0 <;> simp [hx, hy]

/-- The end value computed by one axis of `scrollSmooth`, with `delta` the signed step of
the source. -/
theorem scrollSmoothAxis_endFrame (c : HeaderConstants) (dxy p : ℤ) (t : QTimeLine) (delta : ℤ)
    (hdelta : delta = if dxy < 0 then c.SCROLL_DISTANCE else -c.SCROLL_DISTANCE) :
    (scrollSmoothAxis c dxy p t).endFrame =
      if t.running = true ∧
          ¬ ((p - delta < p ∧ p < t.endFrame) ∨ (p - delta > p ∧ p > t.endFrame)) then
        t.endFrame - truncToInt ((delta : ℚ) * c.SCROLL_SPEED_MILTIPLIER)
      else p - delta := by
  subst hdelta
  unfold scrollSmoothAxis
  simp only [QTimeLine.start, QTimeLine.setFrameRange, QTimeLine.stop]
  by_cases hrun : t.running = true
  · by_cases hr : ((p - (if dxy < 0 then c.SCROLL_DISTANCE else -c.SCROLL_DISTANCE) < p ∧
        p < t.endFrame) ∨
        (p - (if dxy < 0 then c.SCROLL_DISTANCE else -c.SCROLL_DISTANCE) > p ∧ p > t.endFrame))
    · simp only [hrun, hr, if_true, decide_True, Bool.not_true, Bool.false_eq_true, if_false,
        not_true_eq_false, and_false]
    · simp only [hrun, hr, if_true, decide_False, Bool.not_false, not_false_eq_true, and_self]
  · simp only [hrun, if_false, false_and, Bool.false_eq_true]

/-- One axis of `scrollSmooth` meets the specification of the end value. -/
theorem scrollSmoothAxis_spec (c : HeaderConstants) (dxy p : ℤ) (t : QTimeLine)
    (hd : dxy ≠ 0) (hS : 0 < c.SCROLL_DISTANCE) :
    smoothScrollSpec c (Int.sign dxy) p t (scrollSmoothAxis c dxy p t) := by
  rcases lt_or_gt_of_ne hd with hneg | hpos
  · have hs : Int.sign dxy = -1 := Int.sign_eq_neg_one_of_neg hneg
    have hend := scrollSmoothAxis_endFrame c dxy p t c.SCROLL_DISTANCE (by rw [if_pos hneg])
    rw [hs]
    refine ⟨rfl, rfl, ?_, ?_⟩
    · rintro ⟨hrun, hopp⟩
      have hnr : ¬ (p - c.SCROLL_DISTANCE < p ∧ p < t.endFrame ∨
          p - c.SCROLL_DISTANCE > p ∧ p > t.endFrame) := by
        intro h; apply hopp; left; omega
      rw [if_pos ⟨hrun, hnr⟩] at hend
      have hend1 : (scrollSmoothAxis c dxy p t).endFrame =
          t.endFrame + -1 * truncToInt ((c.SCROLL_DISTANCE : ℚ) * c.SCROLL_SPEED_MILTIPLIER) := by
        rw [hend]; ring
      refine ⟨hend1, fun hint => ?_⟩
      rw [hend1]; push_cast; rw [hint]; ring
    · intro h
      have hc : ¬ (t.running = true ∧ ¬ (p - c.SCROLL_DISTANCE < p ∧ p < t.endFrame ∨
          p - c.SCROLL_DISTANCE > p ∧ p > t.endFrame)) := by
        rintro ⟨hrun, hnr⟩
        rcases h with h | h | h
        · simp [hrun] at h
        · apply hnr; left; omega
        · omega
      rw [if_neg hc] at hend
      rw [hend]; ring
  · have hs : Int.sign dxy = 1 := Int.sign_eq_one_of_pos hpos
    have hnn : ¬ dxy < 0 := by omega
    have hend := scrollSmoothAxis_endFrame c dxy p t (-c.SCROLL_DISTANCE) (by rw [if_neg hnn])
    rw [hs]
    refine ⟨rfl, rfl, ?_, ?_⟩
    · rintro ⟨hrun, hopp⟩
      have hnr : ¬ (p - -c.SCROLL_DISTANCE < p ∧ p < t.endFrame ∨
          p - -c.SCROLL_DISTANCE > p ∧ p > t.endFrame) := by
        intro h; apply hopp; right; omega
      rw [if_pos ⟨hrun, hnr⟩] at hend
      have hend1 : (scrollSmoothAxis c dxy p t).endFrame =
          t.endFrame + 1 * truncToInt ((c.SCROLL_DISTANCE : ℚ) * c.SCROLL_SPEED_MILTIPLIER) := by
        rw [hend]
        have : ((-c.SCROLL_DISTANCE : ℤ) : ℚ) * c.SCROLL_SPEED_MILTIPLIER =
            -((c.SCROLL_DISTANCE : ℚ) * c.SCROLL_SPEED_MILTIPLIER) := by push_cast; ring
        rw [this, truncToInt_neg]; ring
      refine ⟨hend1, fun hint => ?_⟩
      rw [hend1]; push_cast; rw [hint]; ring
    · intro h
      have hc : ¬ (t.running = true ∧ ¬ (p - -c.SCROLL_DISTANCE < p ∧ p < t.endFrame ∨
          p - -c.SCROLL_DISTANCE > p ∧ p > t.endFrame)) := by
        rintro ⟨hrun, hnr⟩
        rcases h with h | h | h
        · simp [hrun] at h
        · omega
        · apply hnr; right; omega
      rw [if_neg hc] at hend
      rw [hend]; ring

/-- C16: smooth scroll redirection.  With a positive `SCROLL_DISTANCE`, `scrollSmooth(dx, dy)`
restarts the timeline of every axis with a non-zero delta from the current scroll
position `p` of that axis, `d` being the sign of the delta: if the timeline was running
with end value `e` and the request is not opposite to the remaining motion, the new end
value is `e + d * int(SCROLL_DISTANCE * SCROLL_SPEED_MILTIPLIER)`, which is
`e + d * SCROLL_DISTANCE * SCROLL_SPEED_MILTIPLIER` where the conversion to `int` is exact;
if the timeline was idle, or the request is opposite, the new end value is
`p + d * SCROLL_DISTANCE`.  An axis with delta 0 keeps its timeline. -/
theorem scrollSmooth_endFrame (st : ImageViewerV2) (dx dy : ℤ)
    (hS : 0 < st.consts.SCROLL_DISTANCE) :
    (dx ≠ 0 → smoothScrollSpec st.consts (Int.sign dx) st.view.horizontalValue
      st.scrollTimeLineX (st.scrollSmooth dx dy).scrollTimeLineX) ∧
    (dy ≠ 0 → smoothScrollSpec st.consts (Int.sign dy) st.view.verticalValue
      st.scrollTimeLineY (st.scrollSmooth dx dy).scrollTimeLineY) ∧
    (dx = 0 → (st.scrollSmooth dx dy).scrollTimeLineX = st.scrollTimeLineX) ∧
    (dy = 0 → (st.scrollSmooth dx dy).scrollTimeLineY = st.scrollTimeLineY) := by
  obtain ⟨hx, hy⟩ := scrollSmooth_timelines st dx dy
  refine ⟨fun h => ?_, fun h => ?_, fun h => ?_, fun h => ?_⟩
  · rw [hx, if_pos h]; exact scrollSmoothAxis_spec _ _ _ _ h hS
  · rw [hy, if_pos h]; exact scrollSmoothAxis_spec _ _ _ _ h hS
  · rw [hx, if_neg (not_not.mpr h)]
  · rw [hy, if_neg (not_not.mpr h)]

/-- C16 at the input of the claim: two successive `scrollDown` requests on the sample
viewer (scroll position 99700, step 120, multiplier 3/2).  The first sets the end value
99820; the second, arriving while the first is animating, extends it to 100000 rather
than starting again from the current position. -/
theorem scrollSmooth_endFrame_witness :
    sampleViewer.scrollDown.scrollTimeLineY.endFrame = 99820 ∧
    sampleViewer.scrollDown.scrollDown.scrollTimeLineY.endFrame = 100000 := by
  have h1 := (scrollSmooth_endFrame sampleViewer 0 120 (by decide)).2.1 (by decide)
  have h2 := (scrollSmooth_endFrame sampleViewer.scrollDown 0 120 (by decide!)).2.1 (by decide)
  have e1 : sampleViewer.scrollDown.scrollTimeLineY.endFrame = 99820 :=
    h1.2.2.2 (Or.inl rfl)
  refine ⟨e1, ?_⟩
  have hrun : sampleViewer.scrollDown.scrollTimeLineY.running = true := h1.1
  have hv : sampleViewer.scrollDown.view.verticalValue = 99700 := by decide!
  have := (h2.2.2.1 ⟨hrun, by rw [e1, hv]; decide⟩).1
  rw [e1] at this
  have hc : truncToInt (((sampleViewer.scrollDown).consts.SCROLL_DISTANCE : ℚ) *
      (sampleViewer.scrollDown).consts.SCROLL_SPEED_MILTIPLIER) = 180 := by decide!
  rw [hc] at this
  exact this

/-! The scale invariant (C17) -/

theorem FitFrame.fitRefl (a : ImageViewerV2) : FitFrame a a :=
  ⟨rfl, rfl, rfl, rfl, rfl, rfl, rfl, rfl, rfl⟩

theorem FitFrame.fitTrans {a b c : ImageViewerV2} (h1 : FitFrame a b) (h2 : FitFrame b c) :
    FitFrame a c :=
  ⟨h2.pixmap.trans h1.pixmap, h2.minScale.trans h1.minScale,
   h2.fitWindowScale.trans h1.fitWindowScale, h2.viewportWidth.trans h1.viewportWidth,
   h2.viewportHeight.trans h1.viewportHeight, h2.devicePixelRatioF.trans h1.devicePixelRatioF,
   h2.expandImage.trans h1.expandImage, h2.expandLimit.trans h1.expandLimit,
   h2.scale.trans h1.scale⟩

theorem emit_fitFrame (st : ImageViewerV2) (s : ViewerSignal) : FitFrame st (st.emit s) :=
  ⟨rfl, rfl, rfl, rfl, rfl, rfl, rfl, rfl, rfl⟩

theorem centerOn_fitFrame (st : ImageViewerV2) (pos : QPointF) : FitFrame st (st.centerOn pos) :=
  ⟨rfl, rfl, rfl, rfl, rfl, rfl, rfl, rfl, rfl⟩

theorem setZoomAnchor_fitFrame (st : ImageViewerV2) (p : QPoint) :
    FitFrame st (st.setZoomAnchor p) :=
  ⟨rfl, rfl, rfl, rfl, rfl, rfl, rfl, rfl, rfl⟩

theorem swapToOriginalPixmap_fitFrame (st : ImageViewerV2) :
    FitFrame st st.swapToOriginalPixmap := by
  unfold swapToOriginalPixmap
  split
  · exact FitFrame.fitRefl st
  · exact ⟨rfl, rfl, rfl, rfl, rfl, rfl, rfl, rfl, rfl⟩

theorem requestScaling_fitFrame (st : ImageViewerV2) : FitFrame st st.requestScaling := by
  unfold requestScaling
  split
  · exact FitFrame.fitRefl st
  · split
    · exact emit_fitFrame _ _
    · exact FitFrame.fitRefl st

theorem centerIfNecessary_fitFrame (st : ImageViewerV2) : FitFrame st st.centerIfNecessary := by
  unfold centerIfNecessary
  split
  · exact FitFrame.fitRefl st
  · exact centerOn_fitFrame _ _

theorem ite_fitFrame (a : ImageViewerV2) (c : Prop) [Decidable c] (b : ImageViewerV2)
    (h : FitFrame a b) : FitFrame a (if c then b else a) := by
  split
  · exact h
  · exact FitFrame.fitRefl a

theorem snapToEdges_fitFrame (st : ImageViewerV2) : FitFrame st st.snapToEdges :=
  centerOn_fitFrame _ _

theorem centerOnPixmap_fitFrame (st : ImageViewerV2) : FitFrame st st.centerOnPixmap :=
  centerOn_fitFrame _ _

theorem saveViewportPos_fitFrame (st : ImageViewerV2) : FitFrame st st.saveViewportPos := by
  unfold saveViewportPos
  split
  · exact FitFrame.fitRefl st
  · exact ⟨rfl, rfl, rfl, rfl, rfl, rfl, rfl, rfl, rfl⟩

theorem stopPosAnimation_fitFrame (st : ImageViewerV2) : FitFrame st st.stopPosAnimation := by
  unfold stopPosAnimation
  simp only []
  split <;> split <;> exact ⟨rfl, rfl, rfl, rfl, rfl, rfl, rfl, rfl, rfl⟩

theorem centerSnap_fitFrame (st : ImageViewerV2) :
    FitFrame st st.centerIfNecessary.snapToEdges :=
  (centerIfNecessary_fitFrame st).fitTrans (snapToEdges_fitFrame _)

theorem applySavedViewportPos_fitFrame (st : ImageViewerV2) :
    FitFrame st st.applySavedViewportPos :=
  (centerOn_fitFrame st _).fitTrans (centerSnap_fitFrame _)

/-- A step whose scale is kept is a scale step for every kind. -/
theorem scaleStepTo_of_fitFrame {T : ℚ → Prop} {a b c : ImageViewerV2} (h1 : FitFrame a b)
    (h2 : scaleStepTo T b c) : scaleStepTo T a c := by
  obtain ⟨hp, hm, h⟩ := h2
  refine ⟨hp.trans h1.pixmap, hm.trans h1.minScale, ?_⟩
  rcases h with h | ⟨h, ht⟩ | ⟨s, hs, h⟩
  · exact Or.inl (h1.pixmap ▸ h)
  · exact Or.inr (Or.inl ⟨h.trans h1.scale, h1.scale ▸ ht⟩)
  · exact Or.inr (Or.inr ⟨s, hs, h1.minScale ▸ h⟩)

theorem scaleStepTo_fitFrame {T : ℚ → Prop} {a b c : ImageViewerV2} (h1 : scaleStepTo T a b)
    (h2 : FitFrame b c) : scaleStepTo T a c := by
  obtain ⟨hp, hm, h⟩ := h1
  refine ⟨h2.pixmap.trans hp, h2.minScale.trans hm, ?_⟩
  rcases h with h | ⟨h, ht⟩ | ⟨s, hs, h⟩
  · exact Or.inl h
  · exact Or.inr (Or.inl ⟨h2.scale.trans h, ht⟩)
  · exact Or.inr (Or.inr ⟨s, hs, h2.scale.trans h⟩)

theorem scaleStepTo_mono {T U : ℚ → Prop} {a b : ImageViewerV2} (h : scaleStepTo T a b)
    (hTU : ∀ s, T s → U s) : scaleStepTo U a b := by
  obtain ⟨hp, hm, h⟩ := h
  refine ⟨hp, hm, ?_⟩
  rcases h with h | ⟨h, ht⟩ | ⟨s, hs, h⟩
  · exact Or.inl h
  · exact Or.inr (Or.inl ⟨h, hTU _ ht⟩)
  · exact Or.inr (Or.inr ⟨s, hTU _ hs, h⟩)

theorem scaleStep_of_fitFrame {a b : ImageViewerV2} (h : FitFrame a b) :
    scaleStepTo (fun _ => True) a b :=
  ⟨h.pixmap, h.minScale, Or.inr (Or.inl ⟨h.scale, trivial⟩)⟩

theorem scaleStep_trans {T : ℚ → Prop} {a b c : ImageViewerV2}
    (h1 : scaleStepTo T a b) (h2 : scaleStepTo (fun _ => True) b c) :
    scaleStepTo (fun _ => True) a c := by
  obtain ⟨hp1, hm1, h1⟩ := h1
  obtain ⟨hp2, hm2, h2⟩ := h2
  refine ⟨hp2.trans hp1, hm2.trans hm1, ?_⟩
  rcases h2 with h2 | ⟨h2, _⟩ | ⟨s, _, h2⟩
  · exact Or.inl (hp1 ▸ h2)
  · rcases h1 with h1 | ⟨h1, _⟩ | ⟨s, _, h1⟩
    · exact Or.inl h1
    · exact Or.inr (Or.inl ⟨h2.trans h1, trivial⟩)
    · exact Or.inr (Or.inr ⟨s, trivial, h2.trans h1⟩)
  · exact Or.inr (Or.inr ⟨s, trivial, hm1 ▸ h2⟩)

/-- A scale step keeps the scale invariant. -/
theorem scaleInRange_of_scaleStep {T : ℚ → Prop} {a b : ImageViewerV2} (h : scaleStepTo T a b)
    (ha : a.scaleInRange) : b.scaleInRange := by
  obtain ⟨hp, hm, h⟩ := h
  intro hb
  have hda : a.isDisplaying = true := by
    unfold isDisplaying at hb ⊢
    rw [← hp]; exact hb
  obtain ⟨h1, h2⟩ := ha hda
  have h500 : a.minScale ≤ 500 := le_trans h1 h2
  rcases h with h | ⟨h, _⟩ | ⟨s, _, h⟩
  · unfold isDisplaying at hda
    rw [h] at hda
    simp at hda
  · rw [h, hm]; exact ⟨h1, h2⟩
  · rw [h, hm]
    exact ⟨qBound_ge _ _ _, qBound_le _ _ _ h500⟩

/-- A fit re-establishes the scale invariant when every scale it may ask for is at least
`minScale`, `minScale` is at most 1 and the scale is at most 500. -/
theorem scaleInRange_of_refit {T : ℚ → Prop} {a b : ImageViewerV2} (h : scaleStepTo T a b)
    (hT : ∀ s, T s → a.minScale ≤ s) (h1 : a.minScale ≤ 1)
    (h500 : a.pixmapItem.scale ≤ 500) : b.scaleInRange := by
  obtain ⟨hp, hm, h⟩ := h
  intro hb
  rcases h with h | ⟨h, ht⟩ | ⟨s, _, h⟩
  · unfold isDisplaying at hb
    rw [hp, h] at hb
    simp at hb
  · rw [h, hm]; exact ⟨hT _ ht, h500⟩
  · rw [h, hm]
    exact ⟨qBound_ge _ _ _, qBound_le _ _ _ (by linarith)⟩

theorem doZoom_scaleStep (st : ImageViewerV2) (s : ℚ) :
    scaleStepTo (fun x => x = s) st (st.doZoom s) := by
  cases hp : st.pixmap with
  | none =>
    refine ⟨?_, doZoom_minScale st s, Or.inl hp⟩
    simp [doZoom, hp]
  | some p =>
    have hd : st.isDisplaying = true := by simp [isDisplaying, hp]
    refine ⟨?_, doZoom_minScale st s, Or.inr (Or.inr ⟨s, rfl, doZoom_scale st s hd⟩)⟩
    rw [(doZoom_sameZoomInputs st s).1, hp]

theorem zoomAnchored_scaleStep (st : ImageViewerV2) (s : ℚ) :
    scaleStepTo (fun x => x = s) st (st.zoomAnchored s) := by
  unfold zoomAnchored
  split
  · exact scaleStepTo_fitFrame (doZoom_scaleStep st s)
      ((centerOn_fitFrame _ _).fitTrans (requestScaling_fitFrame _))
  · rename_i h
    have h1 : st.pixmapItem.scale = s := by
      simpa [currentScale] using h
    exact ⟨rfl, rfl, Or.inr (Or.inl ⟨rfl, h1⟩)⟩

theorem fitFree_scaleStep (st : ImageViewerV2) (s : ℚ) :
    scaleStepTo (fun x => x = s) st (st.fitFree s) := by
  unfold fitFree
  split
  · rename_i hp
    exact ⟨rfl, rfl, Or.inl hp⟩
  · split
    · simp only []
      refine scaleStepTo_fitFrame (doZoom_scaleStep st s) ?_
      refine (centerIfNecessary_fitFrame _).fitTrans ?_
      split
      · exact (centerOn_fitFrame _ _).fitTrans (snapToEdges_fitFrame _)
      · exact snapToEdges_fitFrame _
    · simp only []
      split
      · exact scaleStepTo_of_fitFrame (setZoomAnchor_fitFrame st _)
          (scaleStepTo_fitFrame (zoomAnchored_scaleStep _ s) (centerSnap_fitFrame _))
      · exact scaleStepTo_of_fitFrame (setZoomAnchor_fitFrame st _)
          (scaleStepTo_fitFrame (zoomAnchored_scaleStep _ s) (centerSnap_fitFrame _))

theorem fitNormal_scaleStep (st : ImageViewerV2) :
    scaleStepTo (fun x => x = 1) st st.fitNormal := fitFree_scaleStep st 1

theorem fitWindow_scaleStep (st : ImageViewerV2) :
    scaleStepTo (fun x => x = 1 ∨ x = st.fitWindowScale) st st.fitWindow := by
  unfold fitWindow
  split
  · rename_i hp
    exact ⟨rfl, rfl, Or.inl hp⟩
  · split
    · exact scaleStepTo_mono (fitNormal_scaleStep st) (fun _ h => Or.inl h)
    · simp only []
      split
      · refine scaleStepTo_fitFrame ?_ (centerOnPixmap_fitFrame _)
        refine scaleStepTo_of_fitFrame (swapToOriginalPixmap_fitFrame st) ?_
        have := doZoom_scaleStep st.swapToOriginalPixmap st.fitWindowScale
        exact scaleStepTo_mono this (fun _ h => Or.inr h)
      · rename_i h
        have h1 : st.pixmapItem.scale = st.fitWindowScale := by
          simpa [currentScale] using h
        exact scaleStepTo_fitFrame ⟨rfl, rfl, Or.inr (Or.inl ⟨rfl, Or.inr h1⟩)⟩
          (centerOnPixmap_fitFrame _)

theorem fitWidth_scaleStep (st : ImageViewerV2) :
    scaleStepTo (fun x => x = st.fitWidthTarget) st st.fitWidth := by
  unfold fitWidth
  split
  · rename_i hp
    exact ⟨rfl, rfl, Or.inl hp⟩
  · rename_i p hp
    have htgt : st.fitWidthTarget =
        (if (if (!st.expandImage && decide ((st.view.viewportWidth : ℚ) *
              st.view.devicePixelRatioF / (p.width : ℚ) > 1)) = true then (1 : ℚ)
            else (st.view.viewportWidth : ℚ) * st.view.devicePixelRatioF / (p.width : ℚ)) >
            st.expandLimit then st.expandLimit
         else (if (!st.expandImage && decide ((st.view.viewportWidth : ℚ) *
              st.view.devicePixelRatioF / (p.width : ℚ) > 1)) = true then (1 : ℚ)
            else (st.view.viewportWidth : ℚ) * st.view.devicePixelRatioF / (p.width : ℚ))) := by
      simp only [fitWidthTarget, hp]
    simp only []
    rw [← htgt]
    have hstep : scaleStepTo (fun x => x = st.fitWidthTarget) st
        (if st.currentScale ≠ st.fitWidthTarget then
          st.swapToOriginalPixmap.doZoom st.fitWidthTarget else st) := by
      split
      · exact scaleStepTo_of_fitFrame (swapToOriginalPixmap_fitFrame st) (doZoom_scaleStep _ _)
      · rename_i h
        have h1 : st.pixmapItem.scale = st.fitWidthTarget := by
          simpa [currentScale] using h
        exact ⟨rfl, rfl, Or.inr (Or.inl ⟨rfl, h1⟩)⟩
    refine scaleStepTo_fitFrame hstep ?_
    exact ((centerIfNecessary_fitFrame _).fitTrans
      (ite_fitFrame _ _ _ (centerOn_fitFrame _ _))).fitTrans (snapToEdges_fitFrame _)

/-- In a mode other than FREE, `applyFitMode` steps to one of the fit scales. -/
theorem applyFitMode_refit (st : ImageViewerV2) (h : st.imageFitMode ≠ ImageFitMode.FIT_FREE) :
    scaleStepTo st.isFitTarget st st.applyFitMode := by
  unfold applyFitMode
  split
  · exact scaleStepTo_mono (fitNormal_scaleStep st) (fun _ h => Or.inl h)
  · exact scaleStepTo_mono (fitWidth_scaleStep st) (fun _ h => Or.inr (Or.inr h))
  · exact scaleStepTo_mono (fitWindow_scaleStep st)
      (fun _ h => h.elim Or.inl (fun h => Or.inr (Or.inl h)))
  · rename_i hm
    exact absurd hm h

theorem applyFitMode_scaleStep (st : ImageViewerV2) :
    scaleStepTo (fun _ => True) st st.applyFitMode := by
  by_cases h : st.imageFitMode = ImageFitMode.FIT_FREE
  · unfold applyFitMode
    rw [h]
    exact scaleStep_of_fitFrame (FitFrame.fitRefl st)
  · exact scaleStepTo_mono (applyFitMode_refit st h) (fun _ _ => trivial)

theorem withFitMode_fitFrame (st : ImageViewerV2) (m : ImageFitMode) :
    FitFrame st { st with imageFitMode := m } :=
  ⟨rfl, rfl, rfl, rfl, rfl, rfl, rfl, rfl, rfl⟩

theorem ite_scaleStepTo {T : ℚ → Prop} {a b1 b2 : ImageViewerV2} (c : Prop) [Decidable c]
    (h1 : scaleStepTo T a b1) (h2 : scaleStepTo T a b2) :
    scaleStepTo T a (if c then b1 else b2) := by
  split
  · exact h1
  · exact h2

/-- The zoom call shared by the zoom entry points is a scale step. -/
theorem zoomByStep_scaleStep (st : ImageViewerV2) (s1 s2 : ℚ) :
    scaleStepTo (fun _ => True) st
      (if st.absoluteStep = true then st.zoomAnchored s1 else st.zoomAnchored s2) :=
  ite_scaleStepTo _ (scaleStepTo_mono (zoomAnchored_scaleStep _ _) (fun _ _ => trivial))
    (scaleStepTo_mono (zoomAnchored_scaleStep _ _) (fun _ _ => trivial))

/-- The tail shared by the zoom entry points: the fit mode is set to FREE, or to WINDOW
at the fit-window scale. -/
theorem fitModeTail_fitFrame (st : ImageViewerV2) :
    FitFrame st
      (if ({ st with imageFitMode := ImageFitMode.FIT_FREE } : ImageViewerV2).pixmapItem.scale =
          ({ st with imageFitMode := ImageFitMode.FIT_FREE } : ImageViewerV2).fitWindowScale then
        { ({ st with imageFitMode := ImageFitMode.FIT_FREE } : ImageViewerV2) with
          imageFitMode := ImageFitMode.FIT_WINDOW }
       else { st with imageFitMode := ImageFitMode.FIT_FREE }) := by
  split
  · exact ⟨rfl, rfl, rfl, rfl, rfl, rfl, rfl, rfl, rfl⟩
  · exact ⟨rfl, rfl, rfl, rfl, rfl, rfl, rfl, rfl, rfl⟩

theorem zoomIn_scaleStep (st : ImageViewerV2) : scaleStepTo (fun _ => True) st st.zoomIn :=
  scaleStepTo_fitFrame
    (scaleStepTo_fitFrame
      (scaleStepTo_of_fitFrame (setZoomAnchor_fitFrame st _) (zoomByStep_scaleStep _ _ _))
      (centerSnap_fitFrame _))
    (fitModeTail_fitFrame _)

theorem zoomOut_scaleStep (st : ImageViewerV2) : scaleStepTo (fun _ => True) st st.zoomOut :=
  scaleStepTo_fitFrame
    (scaleStepTo_fitFrame
      (scaleStepTo_of_fitFrame (setZoomAnchor_fitFrame st _) (zoomByStep_scaleStep _ _ _))
      (centerSnap_fitFrame _))
    (fitModeTail_fitFrame _)

theorem zoomInCursor_scaleStep (st : ImageViewerV2) :
    scaleStepTo (fun _ => True) st st.zoomInCursor :=
  scaleStepTo_fitFrame
    (scaleStepTo_fitFrame
      (ite_scaleStepTo _
        (scaleStepTo_of_fitFrame (setZoomAnchor_fitFrame st _) (zoomByStep_scaleStep _ _ _))
        (zoomIn_scaleStep st))
      (fitModeTail_fitFrame _))
    (centerSnap_fitFrame _)

theorem zoomOutCursor_scaleStep (st : ImageViewerV2) :
    scaleStepTo (fun _ => True) st st.zoomOutCursor :=
  scaleStepTo_fitFrame
    (scaleStepTo_fitFrame
      (ite_scaleStepTo _
        (scaleStepTo_of_fitFrame (setZoomAnchor_fitFrame st _) (zoomByStep_scaleStep _ _ _))
        (zoomIn_scaleStep st))
      (fitModeTail_fitFrame _))
    (centerSnap_fitFrame _)

theorem mouseMoveZoom_scaleStep (st : ImageViewerV2) (pos : QPoint) :
    scaleStepTo (fun _ => True) st (st.mouseMoveZoom pos) := by
  have h1 : FitFrame st
      { st with mouseMoveStartPos := pos, imageFitMode := ImageFitMode.FIT_FREE } :=
    ⟨rfl, rfl, rfl, rfl, rfl, rfl, rfl, rfl, rfl⟩
  have h2 := scaleStepTo_fitFrame
    (scaleStepTo_of_fitFrame h1
      (scaleStepTo_mono (zoomAnchored_scaleStep _
        (st.currentScale * (1 + 3 / 1000 * ((st.mouseMoveStartPos.y - pos.y : ℤ) : ℚ) * st.dpr)))
        (fun _ _ => trivial)))
    (centerSnap_fitFrame _)
  unfold mouseMoveZoom
  simp only []
  split
  · exact scaleStepTo_fitFrame h2 (withFitMode_fitFrame _ _)
  · exact h2

theorem setFitMode_scaleStep (st : ImageViewerV2) (m : ImageFitMode) :
    scaleStepTo (fun _ => True) st (st.setFitMode m) := by
  have h1 : FitFrame st (if st.scaleTimer.active = true then
      { st with scaleTimer := st.scaleTimer.stop } else st) :=
    ite_fitFrame _ _ _ ⟨rfl, rfl, rfl, rfl, rfl, rfl, rfl, rfl, rfl⟩
  have h2 := (h1.fitTrans (stopPosAnimation_fitFrame _)).fitTrans (withFitMode_fitFrame _ m)
  exact scaleStepTo_fitFrame (scaleStepTo_of_fitFrame h2 (applyFitMode_scaleStep _))
    (requestScaling_fitFrame _)

theorem lockZoom_fitFrame (st : ImageViewerV2) : FitFrame st st.lockZoom := by
  have h1 : FitFrame st ({ st with lockedScale := st.pixmapItem.scale,
                                   imageFitMode := ImageFitMode.FIT_FREE } : ImageViewerV2) :=
    ⟨rfl, rfl, rfl, rfl, rfl, rfl, rfl, rfl, rfl⟩
  exact h1.fitTrans (saveViewportPos_fitFrame _)

theorem toggleLockZoom_fitFrame (st : ImageViewerV2) : FitFrame st st.toggleLockZoom := by
  unfold toggleLockZoom
  split
  · exact FitFrame.fitRefl st
  · split
    · have h1 : FitFrame st ({ st with mViewLock := ViewLockMode.LOCK_ZOOM } : ImageViewerV2) :=
        ⟨rfl, rfl, rfl, rfl, rfl, rfl, rfl, rfl, rfl⟩
      exact h1.fitTrans (lockZoom_fitFrame _)
    · exact ⟨rfl, rfl, rfl, rfl, rfl, rfl, rfl, rfl, rfl⟩

theorem toggleLockView_fitFrame (st : ImageViewerV2) : FitFrame st st.toggleLockView := by
  unfold toggleLockView
  split
  · exact FitFrame.fitRefl st
  · split
    · have h1 : FitFrame st ({ st with mViewLock := ViewLockMode.LOCK_ALL } : ImageViewerV2) :=
        ⟨rfl, rfl, rfl, rfl, rfl, rfl, rfl, rfl, rfl⟩
      exact (h1.fitTrans (lockZoom_fitFrame _)).fitTrans (saveViewportPos_fitFrame _)
    · exact ⟨rfl, rfl, rfl, rfl, rfl, rfl, rfl, rfl, rfl⟩

theorem stopAnimation_pixmap (st : ImageViewerV2) :
    st.stopAnimation.pixmap = st.pixmap ∧ st.stopAnimation.pixmapItem = st.pixmapItem ∧
    st.stopAnimation.view = st.view := by
  unfold stopAnimation
  split
  · exact ⟨rfl, rfl, rfl⟩
  · exact ⟨rfl, rfl, rfl⟩

theorem reset_pixmap (st : ImageViewerV2) :
    st.reset.pixmap = none ∧ st.reset.pixmapItem.scale = 1 := by
  unfold reset
  simp only [centerOn]
  refine ⟨?_, ?_⟩
  · rw [(stopAnimation_pixmap _).1]
  · rw [(stopAnimation_pixmap _).2.1]

/-- The state after `updateMinScale` differs in `fitWindowScale` and `minScale` only. -/
theorem updateMinScale_record (st : ImageViewerV2) :
    ∃ F M, st.updateMinScale = { st with fitWindowScale := F, minScale := M } := by
  rcases Option.eq_none_or_eq_some st.pixmap with hp | ⟨p, hp⟩
  · have h : st.updateMinScale = st := by simp [updateMinScale, hp]
    exact ⟨st.fitWindowScale, st.minScale, h.trans rfl⟩
  · have h := updateMinScale_eq st p hp
    rw [updateFitWindowScale_eq st p hp] at h
    exact ⟨_, _, h⟩

theorem updateMinScale_fitFrameLike (st : ImageViewerV2) :
    st.updateMinScale.pixmap = st.pixmap ∧ st.updateMinScale.pixmapItem = st.pixmapItem ∧
    st.updateMinScale.view = st.view ∧ st.updateMinScale.expandImage = st.expandImage ∧
    st.updateMinScale.expandLimit = st.expandLimit ∧
    st.updateMinScale.imageFitMode = st.imageFitMode ∧
    st.updateMinScale.mViewLock = st.mViewLock ∧
    st.updateMinScale.lockedScale = st.lockedScale ∧
    st.updateMinScale.keepFitMode = st.keepFitMode ∧
    st.updateMinScale.imageFitModeDefault = st.imageFitModeDefault ∧
    st.updateMinScale.emitted = st.emitted ∧
    st.updateMinScale.scaleTimer = st.scaleTimer ∧
    st.updateMinScale.movie = st.movie := by
  obtain ⟨F, M, h⟩ := updateMinScale_record st
  rw [h]
  exact ⟨rfl, rfl, rfl, rfl, rfl, rfl, rfl, rfl, rfl, rfl, rfl, rfl, rfl⟩

/-- Three bounds on `minScale` after `updateMinScale` on content of positive size: it is at
most 1, at most the width ratio, and (with `expandLimit ≥ 1`) at most `fitWindowScale`. -/
theorem updateMinScale_bounds (st : ImageViewerV2) (p : QPixmap) (hp : st.pixmap = some p)
    (hw : 0 < p.width) (hh : 0 < p.height) :
    st.updateMinScale.minScale ≤ 1 ∧
    st.updateMinScale.minScale ≤
      (st.view.viewportWidth : ℚ) * st.view.devicePixelRatioF / (p.width : ℚ) ∧
    (1 ≤ st.expandLimit → st.updateMinScale.minScale ≤ st.updateMinScale.fitWindowScale) := by
  have hF := (updateMinScale_frame st).2.2.2.2.2.2
  have hFv := updateFitWindowScale_fitWindowScale st p hp
  have hM := updateMinScale_minScale st p hp
  have hwq : (0 : ℚ) < (p.width : ℚ) := by exact_mod_cast hw
  have hle := updateFitWindowScale_le_fitRatio st p hp
  by_cases hf : st.imageFits = true
  · have hbase : st.updateMinScale.minScale ≤ 1 := by
      rw [hM]
      simp only [if_pos hf]
      split_ifs with h1
      · exact h1.2.le
      · exact le_rfl
    refine ⟨hbase, le_trans hbase ?_, fun hlim => le_trans hbase ?_⟩
    · rw [le_div_iff₀ hwq, one_mul]
      exact ((imageFits_iff st p hp).mp hf).1
    · rw [hF, hFv]
      split_ifs
      · exact hlim
      · exact one_le_fitRatio st p hp hw hh hf
  · have hbase : st.updateMinScale.minScale ≤ st.updateFitWindowScale.fitWindowScale := by
      rw [hM]
      simp only [if_neg hf]
      split_ifs with h1
      · exact h1.2.le
      · exact le_rfl
    have hlt := fitRatio_lt_one st p hp hw hh hf
    refine ⟨le_trans hbase (le_trans hle hlt.le),
      le_trans hbase (le_trans hle (min_le_left _ _)), fun _ => ?_⟩
    rw [hF]; exact hbase

/-- After `updateMinScale` on content of positive size with `expandLimit ≥ 1`, `minScale`
is at most every scale a fit may ask for. -/
theorem updateMinScale_fitTargets (st : ImageViewerV2) (p : QPixmap) (hp : st.pixmap = some p)
    (hw : 0 < p.width) (hh : 0 < p.height) (hlim : 1 ≤ st.expandLimit) :
    ∀ s, st.updateMinScale.isFitTarget s → st.updateMinScale.minScale ≤ s := by
  obtain ⟨hpu, _, hvu, heu, hlu, _⟩ := updateMinScale_fitFrameLike st
  obtain ⟨h1, hrx, hF⟩ := updateMinScale_bounds st p hp hw hh
  intro s hs
  rcases hs with hs | hs | hs
  · rw [hs]; exact h1
  · rw [hs]; exact hF hlim
  · rw [hs]
    simp only [fitWidthTarget, hpu, hp, hvu, heu, hlu]
    split_ifs
    · exact le_trans h1 hlim
    · exact h1
    · exact le_trans h1 hlim
    · exact hrx

theorem scaleInRange_of_not_displaying {st : ImageViewerV2} (h : st.pixmap = none) :
    st.scaleInRange := by
  intro hd
  simp [isDisplaying, h] at hd

theorem fitWidthTarget_of_fitFrame {a b : ImageViewerV2} (h : FitFrame a b) :
    b.fitWidthTarget = a.fitWidthTarget := by
  unfold fitWidthTarget
  rw [h.pixmap, h.viewportWidth, h.devicePixelRatioF, h.expandImage, h.expandLimit]

theorem isFitTarget_of_fitFrame {a b : ImageViewerV2} (h : FitFrame a b) (s : ℚ)
    (hs : b.isFitTarget s) : a.isFitTarget s := by
  unfold isFitTarget at hs ⊢
  rw [h.fitWindowScale, fitWidthTarget_of_fitFrame h] at hs
  exact hs

/-- Re-fitting restores the scale invariant: after `updateMinScale` on content of positive
size with `expandLimit ≥ 1`, any steps that keep the fit inputs, and then `applyFitMode`
in a mode other than FREE, the scale is within range. -/
theorem scaleInRange_refit (x z : ImageViewerV2) (hpos : x.contentPositive)
    (hlim : 1 ≤ x.expandLimit) (h500 : x.isDisplaying = true → x.pixmapItem.scale ≤ 500)
    (hf : FitFrame x.updateMinScale z) (hmode : z.imageFitMode ≠ ImageFitMode.FIT_FREE) :
    z.applyFitMode.scaleInRange := by
  have hstep := applyFitMode_refit z hmode
  have hxu := updateMinScale_fitFrameLike x
  rcases Option.eq_none_or_eq_some x.pixmap with hp | ⟨p, hp⟩
  · apply scaleInRange_of_not_displaying
    rw [hstep.1, hf.pixmap, hxu.1, hp]
  · obtain ⟨hw, hh⟩ := hpos p hp
    have hT := updateMinScale_fitTargets x p hp hw hh hlim
    have hd : x.isDisplaying = true := by simp [isDisplaying, hp]
    refine scaleInRange_of_refit hstep (fun s hs => ?_) ?_ ?_
    · rw [hf.minScale]
      exact hT s (isFitTarget_of_fitFrame hf s hs)
    · rw [hf.minScale]
      exact hT 1 (Or.inl rfl)
    · rw [hf.scale, hxu.2.1]
      exact h500 hd

/-- After `updateMinScale` the scale invariant holds for content of positive size shown
at scale 1. -/
theorem scaleInRange_updateMinScale_one (x : ImageViewerV2) (hpos : x.contentPositive)
    (hs : x.pixmapItem.scale = 1) : x.updateMinScale.scaleInRange := by
  have hxu := updateMinScale_fitFrameLike x
  rcases Option.eq_none_or_eq_some x.pixmap with hp | ⟨p, hp⟩
  · apply scaleInRange_of_not_displaying
    rw [hxu.1, hp]
  · obtain ⟨hw, hh⟩ := hpos p hp
    intro _
    rw [hxu.2.1, hs]
    exact ⟨(updateMinScale_bounds x p hp hw hh).1, by norm_num [maxScale]⟩

theorem lockedFit_scaleStep (y : ImageViewerV2) :
    scaleStepTo (fun _ => True) y
      (if (({ y with imageFitMode := ImageFitMode.FIT_FREE } : ImageViewerV2).fitFree
            y.lockedScale).mViewLock = ViewLockMode.LOCK_ALL then
        (({ y with imageFitMode := ImageFitMode.FIT_FREE } : ImageViewerV2).fitFree
          y.lockedScale).applySavedViewportPos
       else ({ y with imageFitMode := ImageFitMode.FIT_FREE } : ImageViewerV2).fitFree
          y.lockedScale) := by
  have h2 : scaleStepTo (fun _ => True) y
      (({ y with imageFitMode := ImageFitMode.FIT_FREE } : ImageViewerV2).fitFree
        y.lockedScale) :=
    scaleStepTo_of_fitFrame (withFitMode_fitFrame y ImageFitMode.FIT_FREE)
      (scaleStepTo_mono (fitFree_scaleStep _ _) (fun _ _ => trivial))
  exact ite_scaleStepTo _ (scaleStepTo_fitFrame h2 (applySavedViewportPos_fitFrame _)) h2

theorem applyFitOrLock_scaleStep (st : ImageViewerV2) :
    scaleStepTo (fun _ => True) st st.applyFitOrLock := by
  have h1 : FitFrame st
      (if (!st.keepFitMode || decide (st.imageFitMode = ImageFitMode.FIT_FREE)) = true then
        { st with imageFitMode := st.imageFitModeDefault } else st) :=
    ite_fitFrame _ _ _ (withFitMode_fitFrame _ _)
  exact scaleStepTo_of_fitFrame h1
    (ite_scaleStepTo _ (applyFitMode_scaleStep _) (lockedFit_scaleStep _))

theorem stopAnimation_fitFrame (st : ImageViewerV2) : FitFrame st st.stopAnimation := by
  unfold stopAnimation
  split
  · exact FitFrame.fitRefl st
  · exact ⟨rfl, rfl, rfl, rfl, rfl, rfl, rfl, rfl, rfl⟩

theorem startAnimation_fitFrame (st : ImageViewerV2) : FitFrame st st.startAnimation := by
  unfold startAnimation
  split
  · exact FitFrame.fitRefl st
  · split
    · have h2 : FitFrame st (st.stopAnimation.emit (ViewerSignal.animationPaused false)) :=
        (stopAnimation_fitFrame st).fitTrans (emit_fitFrame _ _)
      exact h2.fitTrans ⟨rfl, rfl, rfl, rfl, rfl, rfl, rfl, rfl, rfl⟩
    · exact FitFrame.fitRefl st

theorem displayImage_scaleInRange (st : ImageViewerV2) (px : QPixmap) (hw : 0 < px.width)
    (hh : 0 < px.height) : (st.displayImage (some px)).scaleInRange := by
  unfold displayImage
  simp only []
  refine scaleInRange_of_scaleStep
    (scaleStepTo_fitFrame (applyFitOrLock_scaleStep _) (requestScaling_fitFrame _))
    (scaleInRange_updateMinScale_one _ ?_ ?_)
  · intro p hp
    have : p = px.setDevicePixelRatio st.reset.dpr := by
      simpa using hp.symm
    rw [this]
    exact ⟨hw, hh⟩
  · exact (reset_pixmap st).2

theorem displayAnimation_scaleInRange (st : ImageViewerV2) (mv : QMovie)
    (hin : st.scaleInRange)
    (hw : 0 < mv.jumpToFrame0.1.currentPixmap.width)
    (hh : 0 < mv.jumpToFrame0.1.currentPixmap.height) :
    (st.displayAnimation (some mv)).scaleInRange := by
  unfold displayAnimation
  simp only []
  split
  · refine scaleInRange_of_scaleStep
      (scaleStepTo_fitFrame (applyFitOrLock_scaleStep _) (startAnimation_fitFrame _))
      (scaleInRange_updateMinScale_one _ ?_ ?_)
    · intro p hp
      have : p = mv.jumpToFrame0.1.currentPixmap.setDevicePixelRatio st.reset.dpr := by
        simpa [emit, updatePixmap] using hp.symm
      rw [this]
      exact ⟨hw, hh⟩
    · exact (reset_pixmap st).2
  · exact hin

theorem stopPosAnimation_record (st : ImageViewerV2) :
    ∃ tx ty, st.stopPosAnimation = { st with scrollTimeLineX := tx, scrollTimeLineY := ty } := by
  unfold stopPosAnimation
  simp only []
  split <;> split <;> exact ⟨_, _, rfl⟩

/-- The end of `resizeEvent`: the scale timer is restarted and the viewport position
saved. -/
theorem resizeTail_fitFrame (w : ImageViewerV2) :
    FitFrame w
      (({ (if w.scaleTimer.active = true then { w with scaleTimer := w.scaleTimer.stop }
           else w) with
          scaleTimer := (if w.scaleTimer.active = true then
              ({ w with scaleTimer := w.scaleTimer.stop } : ImageViewerV2)
            else w).scaleTimer.restart } : ImageViewerV2).saveViewportPos) := by
  refine FitFrame.fitTrans ?_ (saveViewportPos_fitFrame _)
  split <;> exact ⟨rfl, rfl, rfl, rfl, rfl, rfl, rfl, rfl, rfl⟩

theorem resizeEvent_scaleInRange (st : ImageViewerV2) (v : GraphicsView)
    (hin : st.scaleInRange) (hpos : st.contentPositive) (hlim : 1 ≤ st.expandLimit)
    (hmode : st.imageFitMode = ImageFitMode.FIT_WINDOW ∨
      st.imageFitMode = ImageFitMode.FIT_WIDTH) :
    (st.resizeEvent v true).scaleInRange := by
  obtain ⟨tx, ty, hx⟩ := stopPosAnimation_record
    ({ st with view := v, mousePressPos := v.cursorPos } : ImageViewerV2)
  have hxu := updateMinScale_fitFrameLike
    ({ st with view := v, mousePressPos := v.cursorPos } : ImageViewerV2).stopPosAnimation
  have hm : (({ st with view := v, mousePressPos := v.cursorPos } :
      ImageViewerV2).stopPosAnimation).updateMinScale.imageFitMode = st.imageFitMode := by
    rw [hxu.2.2.2.2.2.1, hx]
  have hrefit : ((({ st with view := v, mousePressPos := v.cursorPos } :
      ImageViewerV2).stopPosAnimation).updateMinScale).applyFitMode.scaleInRange := by
    refine scaleInRange_refit _ _ ?_ ?_ ?_ (FitFrame.fitRefl _) ?_
    · rw [hx]; exact hpos
    · rw [hx]; exact hlim
    · rw [hx]
      intro hd
      exact (hin hd).2
    · rw [hm]
      rcases hmode with h | h <;> rw [h] <;> decide
  have hnot : ¬ ((({ st with view := v, mousePressPos := v.cursorPos } :
        ImageViewerV2).stopPosAnimation).updateMinScale.imageFitMode = ImageFitMode.FIT_FREE ∨
      (({ st with view := v, mousePressPos := v.cursorPos } :
        ImageViewerV2).stopPosAnimation).updateMinScale.imageFitMode =
          ImageFitMode.FIT_ORIGINAL) := by
    rw [hm]
    rcases hmode with h | h <;> rw [h] <;> decide
  have hres : st.resizeEvent v true =
      (({ (if ((({ st with view := v, mousePressPos := v.cursorPos } :
              ImageViewerV2).stopPosAnimation).updateMinScale).applyFitMode.scaleTimer.active = true
            then { ((({ st with view := v, mousePressPos := v.cursorPos } :
              ImageViewerV2).stopPosAnimation).updateMinScale).applyFitMode with
              scaleTimer := ((({ st with view := v, mousePressPos := v.cursorPos } :
                ImageViewerV2).stopPosAnimation).updateMinScale).applyFitMode.scaleTimer.stop }
           else ((({ st with view := v, mousePressPos := v.cursorPos } :
              ImageViewerV2).stopPosAnimation).updateMinScale).applyFitMode) with
          scaleTimer := (if ((({ st with view := v, mousePressPos := v.cursorPos } :
              ImageViewerV2).stopPosAnimation).updateMinScale).applyFitMode.scaleTimer.active = true
            then ({ ((({ st with view := v, mousePressPos := v.cursorPos } :
              ImageViewerV2).stopPosAnimation).updateMinScale).applyFitMode with
              scaleTimer := ((({ st with view := v, mousePressPos := v.cursorPos } :
                ImageViewerV2).stopPosAnimation).updateMinScale).applyFitMode.scaleTimer.stop } :
                ImageViewerV2)
            else ((({ st with view := v, mousePressPos := v.cursorPos } :
              ImageViewerV2).stopPosAnimation).updateMinScale).applyFitMode).scaleTimer.restart } :
          ImageViewerV2).saveViewportPos) := by
    unfold resizeEvent
    simp only [if_true, if_neg hnot]
  rw [hres]
  exact scaleInRange_of_scaleStep (scaleStep_of_fitFrame (resizeTail_fitFrame _)) hrefit

theorem setExpandImage_scaleInRange (st : ImageViewerV2) (mode : Bool)
    (hin : st.scaleInRange) (hpos : st.contentPositive) (hlim : 1 ≤ st.expandLimit)
    (hmode : st.imageFitMode ≠ ImageFitMode.FIT_FREE) :
    (st.setExpandImage mode).scaleInRange := by
  have hxu := updateMinScale_fitFrameLike ({ st with expandImage := mode } : ImageViewerV2)
  have hrefit := scaleInRange_refit ({ st with expandImage := mode } : ImageViewerV2) _
    hpos hlim (fun hd => (hin hd).2) (FitFrame.fitRefl _) (by rw [hxu.2.2.2.2.2.1]; exact hmode)
  exact scaleInRange_of_scaleStep (scaleStep_of_fitFrame (requestScaling_fitFrame _)) hrefit

theorem setScalingFilter_fitFrame (st : ImageViewerV2) (f : ScalingFilter) :
    FitFrame st (st.setScalingFilter f) := by
  unfold setScalingFilter
  split
  · exact FitFrame.fitRefl st
  · simp only []
    have h1 : FitFrame st
        ({ ({ st with mScalingFilter := f } : ImageViewerV2) with
           pixmapItem :=
             { ({ st with mScalingFilter := f } : ImageViewerV2).pixmapItem with
               transformationMode :=
                 ({ st with mScalingFilter := f } : ImageViewerV2).selectTransformationMode } } :
          ImageViewerV2) :=
      ⟨rfl, rfl, rfl, rfl, rfl, rfl, rfl, rfl, rfl⟩
    exact (h1.fitTrans (ite_fitFrame _ _ _ (swapToOriginalPixmap_fitFrame _))).fitTrans
      (requestScaling_fitFrame _)

/-- The call chain at the end of `readSettings` restores the scale invariant. -/
theorem settingsTail_scaleInRange (x : ImageViewerV2) (f : ScalingFilter) (m : ImageFitMode)
    (hpos : x.contentPositive) (hlim : 1 ≤ x.expandLimit)
    (h500 : x.isDisplaying = true → x.pixmapItem.scale ≤ 500)
    (hm : m ≠ ImageFitMode.FIT_FREE) :
    ((x.updateMinScale.setScalingFilter f).setFitMode m).scaleInRange := by
  have h1 := setScalingFilter_fitFrame x.updateMinScale f
  generalize x.updateMinScale.setScalingFilter f = y at h1 ⊢
  have h2 : FitFrame y
      (if y.scaleTimer.active = true then { y with scaleTimer := y.scaleTimer.stop } else y) :=
    ite_fitFrame _ _ _ ⟨rfl, rfl, rfl, rfl, rfl, rfl, rfl, rfl, rfl⟩
  have h3 := stopPosAnimation_fitFrame
    (if y.scaleTimer.active = true then { y with scaleTimer := y.scaleTimer.stop } else y)
  have h4 := withFitMode_fitFrame
    (if y.scaleTimer.active = true then { y with scaleTimer := y.scaleTimer.stop }
     else y).stopPosAnimation m
  have hrefit := scaleInRange_refit x _ hpos hlim h500 (((h1.fitTrans h2).fitTrans h3).fitTrans h4) hm
  exact scaleInRange_of_scaleStep (scaleStep_of_fitFrame (requestScaling_fitFrame _)) hrefit

theorem readSettings_scaleInRange (st : ImageViewerV2) (hin : st.scaleInRange)
    (hpos : st.contentPositive)
    (hmode : st.settings.imageFitMode ≠ ImageFitMode.FIT_FREE) :
    st.readSettings.scaleInRange := by
  have hlim : (1 : ℚ) ≤
      if st.settings.expandLimit < 1 then maxScale else st.settings.expandLimit := by
    split_ifs with h
    · norm_num [maxScale]
    · exact not_lt.mp h
  unfold readSettings
  simp only []
  exact settingsTail_scaleInRange _ _ _ hpos hlim (fun hd => (hin hd).2) hmode

/-- After `displayAnimation` of a valid movie whose first frame has positive size the scale
is within range, whatever the state before. -/
theorem displayAnimation_valid_scaleInRange (st : ImageViewerV2) (mv : QMovie)
    (hv : mv.isValid = true)
    (hw : 0 < mv.jumpToFrame0.1.currentPixmap.width)
    (hh : 0 < mv.jumpToFrame0.1.currentPixmap.height) :
    (st.displayAnimation (some mv)).scaleInRange := by
  unfold displayAnimation
  simp only [hv, if_true]
  refine scaleInRange_of_scaleStep
    (scaleStepTo_fitFrame (applyFitOrLock_scaleStep _) (startAnimation_fitFrame _))
    (scaleInRange_updateMinScale_one _ ?_ ?_)
  · intro p hp
    have : p = mv.jumpToFrame0.1.currentPixmap.setDevicePixelRatio st.reset.dpr := by
      simpa [emit, updatePixmap] using hp.symm
    rw [this]
    exact ⟨hw, hh⟩
  · exact (reset_pixmap st).2

theorem displayAnimation_invalid (st : ImageViewerV2) (mv : QMovie) (hv : mv.isValid = false) :
    st.displayAnimation (some mv) = st := by
  unfold displayAnimation
  simp only [hv]
  rfl

/-- A resize event in fit mode FREE or ORIGINAL leaves the scale as it is; a scale of at
least 1 stays within range, because the recomputed `minScale` is at most 1. -/
theorem resizeEvent_unfitted_scaleInRange (st : ImageViewerV2) (v : GraphicsView)
    (hin : st.scaleInRange) (hpos : st.contentPositive)
    (hmode : st.imageFitMode = ImageFitMode.FIT_FREE ∨
      st.imageFitMode = ImageFitMode.FIT_ORIGINAL)
    (h1 : st.isDisplaying = true → 1 ≤ st.pixmapItem.scale) :
    (st.resizeEvent v true).scaleInRange ∧
    (st.resizeEvent v true).pixmapItem.scale = st.pixmapItem.scale := by
  obtain ⟨tx, ty, hx⟩ := stopPosAnimation_record
    ({ st with view := v, mousePressPos := v.cursorPos } : ImageViewerV2)
  have hxu := updateMinScale_fitFrameLike
    ({ st with view := v, mousePressPos := v.cursorPos } : ImageViewerV2).stopPosAnimation
  have hm : (({ st with view := v, mousePressPos := v.cursorPos } :
      ImageViewerV2).stopPosAnimation).updateMinScale.imageFitMode = st.imageFitMode := by
    rw [hxu.2.2.2.2.2.1, hx]
  have hyes : ((({ st with view := v, mousePressPos := v.cursorPos } :
        ImageViewerV2).stopPosAnimation).updateMinScale.imageFitMode = ImageFitMode.FIT_FREE ∨
      (({ st with view := v, mousePressPos := v.cursorPos } :
        ImageViewerV2).stopPosAnimation).updateMinScale.imageFitMode =
          ImageFitMode.FIT_ORIGINAL) := by
    rw [hm]
    exact hmode
  have hres : st.resizeEvent v true =
      (({ (if ((({ st with view := v, mousePressPos := v.cursorPos } : ImageViewerV2).stopPosAnimation).updateMinScale).centerIfNecessary.snapToEdges.scaleTimer.active = true
            then { ((({ st with view := v, mousePressPos := v.cursorPos } : ImageViewerV2).stopPosAnimation).updateMinScale).centerIfNecessary.snapToEdges with
              scaleTimer := ((({ st with view := v, mousePressPos := v.cursorPos } : ImageViewerV2).stopPosAnimation).updateMinScale).centerIfNecessary.snapToEdges.scaleTimer.stop }
           else ((({ st with view := v, mousePressPos := v.cursorPos } : ImageViewerV2).stopPosAnimation).updateMinScale).centerIfNecessary.snapToEdges) with
          scaleTimer := (if ((({ st with view := v, mousePressPos := v.cursorPos } : ImageViewerV2).stopPosAnimation).updateMinScale).centerIfNecessary.snapToEdges.scaleTimer.active = true
            then ({ ((({ st with view := v, mousePressPos := v.cursorPos } : ImageViewerV2).stopPosAnimation).updateMinScale).centerIfNecessary.snapToEdges with
              scaleTimer := ((({ st with view := v, mousePressPos := v.cursorPos } : ImageViewerV2).stopPosAnimation).updateMinScale).centerIfNecessary.snapToEdges.scaleTimer.stop } :
                ImageViewerV2)
            else ((({ st with view := v, mousePressPos := v.cursorPos } : ImageViewerV2).stopPosAnimation).updateMinScale).centerIfNecessary.snapToEdges).scaleTimer.restart } :
          ImageViewerV2).saveViewportPos) := by
    unfold resizeEvent
    simp only [if_true, if_pos hyes]
  have hF : FitFrame (({ st with view := v, mousePressPos := v.cursorPos } :
      ImageViewerV2).stopPosAnimation).updateMinScale (st.resizeEvent v true) := by
    rw [hres]
    exact (centerSnap_fitFrame _).fitTrans (resizeTail_fitFrame _)
  have hscale : (st.resizeEvent v true).pixmapItem.scale = st.pixmapItem.scale := by
    rw [hF.scale, hxu.2.1, hx]
  have hpix : (st.resizeEvent v true).pixmap = st.pixmap := by
    rw [hF.pixmap, hxu.1, hx]
  refine ⟨?_, hscale⟩
  intro hd
  have hd0 : st.isDisplaying = true := by
    unfold isDisplaying at hd ⊢
    rw [← hpix]
    exact hd
  rcases Option.eq_none_or_eq_some st.pixmap with hp | ⟨p, hp⟩
  · unfold isDisplaying at hd0
    rw [hp] at hd0
    simp at hd0
  · obtain ⟨hw, hh⟩ := hpos p hp
    have hp2 : (({ st with view := v, mousePressPos := v.cursorPos } :
        ImageViewerV2).stopPosAnimation).pixmap = some p := by
      rw [hx]; exact hp
    have hmin := (updateMinScale_bounds _ p hp2 hw hh).1
    rw [hscale, hF.minScale]
    exact ⟨le_trans hmin (h1 hd0), (hin hd0).2⟩

/-- C17 (amended).  After `displayImage` of a pixmap of positive size and after
`displayAnimation` of a valid movie whose first frame has positive size the scale lies
within `[minScale, maxScale]`, whatever the state before; after `reset` and after
`displayImage` of a null pointer nothing is displayed.  From a state in which the scale
lies within the range while content is displayed, it lies within the range again after
`displayAnimation` of a null pointer or of a movie that is not valid (the state is kept),
the zoom operations (`doZoom`, `zoomAnchored`, `zoomIn`, `zoomOut`, `zoomInCursor`,
`zoomOutCursor`, drag zoom), the fit-mode setters, the lock toggles and a resize event that
is ignored (parent not visible).  `resizeEvent`, `setExpandImage` and `readSettings`
recompute `minScale`; for content of positive size the scale is within the range
afterwards in these cases: `resizeEvent` in fit mode FREE or ORIGINAL, which leaves the
scale as it is, when the scale is at least 1 (the new `minScale` is at most 1);
`resizeEvent` in fit mode WINDOW or WIDTH and `setExpandImage` in any fit mode but FREE,
which apply the fit again, when `expandLimit ≥ 1`; `readSettings` with a fit mode setting
other than FREE. -/
theorem scaleInRange_preserved (st : ImageViewerV2) :
    (st.reset.scaleInRange ∧ (st.displayImage none).scaleInRange ∧
      (∀ px : QPixmap, 0 < px.width → 0 < px.height →
        (st.displayImage (some px)).scaleInRange) ∧
      (∀ mv : QMovie, mv.isValid = true → 0 < mv.jumpToFrame0.1.currentPixmap.width →
        0 < mv.jumpToFrame0.1.currentPixmap.height →
        (st.displayAnimation (some mv)).scaleInRange)) ∧
    (st.scaleInRange →
      (st.displayAnimation none).scaleInRange ∧
      (∀ mv : QMovie, mv.isValid = false → (st.displayAnimation (some mv)).scaleInRange) ∧
      (∀ s, (st.doZoom s).scaleInRange) ∧
      (∀ s, (st.zoomAnchored s).scaleInRange) ∧
      st.zoomIn.scaleInRange ∧ st.zoomOut.scaleInRange ∧
      st.zoomInCursor.scaleInRange ∧ st.zoomOutCursor.scaleInRange ∧
      (∀ pos, (st.mouseMoveZoom pos).scaleInRange) ∧
      (∀ m, (st.setFitMode m).scaleInRange) ∧
      st.setFitOriginal.scaleInRange ∧ st.setFitWidth.scaleInRange ∧
      st.setFitWindow.scaleInRange ∧
      st.toggleLockZoom.scaleInRange ∧ st.toggleLockView.scaleInRange ∧
      (∀ v, (st.resizeEvent v false).scaleInRange) ∧
      (st.contentPositive →
        (∀ v, st.imageFitMode = ImageFitMode.FIT_FREE ∨
            st.imageFitMode = ImageFitMode.FIT_ORIGINAL →
          (st.isDisplaying = true → 1 ≤ st.pixmapItem.scale) →
          (st.resizeEvent v true).scaleInRange ∧
          (st.resizeEvent v true).pixmapItem.scale = st.pixmapItem.scale) ∧
        (1 ≤ st.expandLimit →
          (∀ v, st.imageFitMode = ImageFitMode.FIT_WINDOW ∨
              st.imageFitMode = ImageFitMode.FIT_WIDTH →
            (st.resizeEvent v true).scaleInRange) ∧
          (∀ mode, st.imageFitMode ≠ ImageFitMode.FIT_FREE →
            (st.setExpandImage mode).scaleInRange)) ∧
        (st.settings.imageFitMode ≠ ImageFitMode.FIT_FREE → st.readSettings.scaleInRange))) := by
  refine ⟨⟨scaleInRange_of_not_displaying (reset_pixmap st).1,
    scaleInRange_of_not_displaying (reset_pixmap st).1,
    fun px hw hh => displayImage_scaleInRange st px hw hh,
    fun mv hv hw hh => displayAnimation_valid_scaleInRange st mv hv hw hh⟩, fun hin => ?_⟩
  refine ⟨hin,
    fun mv hv => by rw [displayAnimation_invalid st mv hv]; exact hin,
    fun s => scaleInRange_of_scaleStep (doZoom_scaleStep st s) hin,
    fun s => scaleInRange_of_scaleStep (zoomAnchored_scaleStep st s) hin,
    scaleInRange_of_scaleStep (zoomIn_scaleStep st) hin,
    scaleInRange_of_scaleStep (zoomOut_scaleStep st) hin,
    scaleInRange_of_scaleStep (zoomInCursor_scaleStep st) hin,
    scaleInRange_of_scaleStep (zoomOutCursor_scaleStep st) hin,
    fun pos => scaleInRange_of_scaleStep (mouseMoveZoom_scaleStep st pos) hin,
    fun m => scaleInRange_of_scaleStep (setFitMode_scaleStep st m) hin,
    scaleInRange_of_scaleStep (setFitMode_scaleStep st _) hin,
    scaleInRange_of_scaleStep
      (scaleStepTo_fitFrame (setFitMode_scaleStep st _) (requestScaling_fitFrame _)) hin,
    scaleInRange_of_scaleStep
      (scaleStepTo_fitFrame (setFitMode_scaleStep st _) (requestScaling_fitFrame _)) hin,
    scaleInRange_of_scaleStep (scaleStep_of_fitFrame (toggleLockZoom_fitFrame st)) hin,
    scaleInRange_of_scaleStep (scaleStep_of_fitFrame (toggleLockView_fitFrame st)) hin,
    fun v => hin,
    fun hpos => ⟨fun v hm h1 => resizeEvent_unfitted_scaleInRange st v hin hpos hm h1,
      fun hlim => ⟨fun v hm => resizeEvent_scaleInRange st v hin hpos hlim hm,
        fun mode hm => setExpandImage_scaleInRange st mode hin hpos hlim hm⟩,
      fun hm => readSettings_scaleInRange st hin hpos hm⟩⟩

/-- C17 at concrete inputs: the sample image displayed in the empty viewer is within range,
whatever was there before, and stays so across a resize to 1600 x 1200 in fit mode WINDOW
(the fit is applied again); the sample viewer, in fit mode ORIGINAL at scale 1, stays within
range across the same resize with its scale unchanged. -/
theorem scaleInRange_preserved_witness :
    fittedViewer.scaleInRange ∧ (fittedViewer.resizeEvent largeView true).scaleInRange ∧
    (sampleViewer.resizeEvent largeView true).scaleInRange ∧
    (sampleViewer.resizeEvent largeView true).pixmapItem.scale = 1 := by
  have h1 : fittedViewer.scaleInRange :=
    (scaleInRange_preserved emptyViewer).1.2.2.1 samplePixmap (by decide) (by decide)
  have hpos : fittedViewer.contentPositive := by
    intro p hp
    have : fittedViewer.pixmap = some samplePixmap := by decide!
    rw [this] at hp
    cases hp
    exact ⟨by decide, by decide⟩
  have hpos2 : sampleViewer.contentPositive := by
    intro p hp
    cases hp
    exact ⟨by decide, by decide⟩
  have h2 : sampleViewer.scaleInRange := by
    intro _
    refine ⟨by decide!, by decide!⟩
  have h3 := ((scaleInRange_preserved sampleViewer).2 h2).2.2.2.2.2.2.2.2.2.2.2.2.2.2.2.2
    hpos2
  have h4 := h3.1 largeView (Or.inr rfl) (fun _ => by decide!)
  exact ⟨h1, ((((scaleInRange_preserved fittedViewer).2 h1).2.2.2.2.2.2.2.2.2.2.2.2.2.2.2.2
    hpos).2.1 (by decide!)).1 largeView (Or.inl (by decide!)), h4.1, h4.2.trans (by decide!)⟩

/-- C17 as stated fails for `resizeEvent` in fit mode FREE at a scale below 1.  The
4000 x 3000 sample image is displayed in the 800 x 600 viewport (scale 1/5) and zoomed in
once (scale 11/50, fit mode FREE, within range).  The resize to 1600 x 1200 raises
`minScale` to 2/5 and leaves the scale at 11/50, below it. -/
theorem scaleInRange_counterexample :
    fittedViewer.zoomIn.isDisplaying = true ∧
    fittedViewer.zoomIn.minScale ≤ fittedViewer.zoomIn.pixmapItem.scale ∧
    fittedViewer.zoomIn.pixmapItem.scale ≤ maxScale ∧
    (fittedViewer.zoomIn.resizeEvent largeView true).isDisplaying = true ∧
    (fittedViewer.zoomIn.resizeEvent largeView true).pixmapItem.scale = 11 / 50 ∧
    (fittedViewer.zoomIn.resizeEvent largeView true).minScale = 2 / 5 ∧
    ¬ (fittedViewer.zoomIn.resizeEvent largeView true).scaleInRange := by
  have h1 : (fittedViewer.zoomIn.resizeEvent largeView true).isDisplaying = true := by decide!
  have h2 : (fittedViewer.zoomIn.resizeEvent largeView true).pixmapItem.scale = 11 / 50 := by
    decide!
  have h3 : (fittedViewer.zoomIn.resizeEvent largeView true).minScale = 2 / 5 := by decide!
  refine ⟨by decide!, by decide!, by decide!, h1, h2, h3, fun h => ?_⟩
  have := (h h1).1
  rw [h2, h3] at this
  norm_num at this

/-- The scale can also be left below `minScale` by `setExpandImage` and by `readSettings`
in fit mode FREE: on the sample image at scale 1/10 with `minScale` 1/10 (a released zoom
lock) both recompute `minScale` to 1/5 and leave the scale at 1/10. -/
theorem scaleInRange_free_examples :
    unlockedViewer.isDisplaying = true ∧
    unlockedViewer.minScale ≤ unlockedViewer.pixmapItem.scale ∧
    unlockedViewer.pixmapItem.scale ≤ maxScale ∧
    (unlockedViewer.setExpandImage false).pixmapItem.scale = 1 / 10 ∧
    (unlockedViewer.setExpandImage false).minScale = 1 / 5 ∧
    (({ unlockedViewer with
        settings := { sampleSettings with imageFitMode := ImageFitMode.FIT_FREE } } :
      ImageViewerV2).readSettings).pixmapItem.scale = 1 / 10 ∧
    (({ unlockedViewer with
        settings := { sampleSettings with imageFitMode := ImageFitMode.FIT_FREE } } :
      ImageViewerV2).readSettings).minScale = 1 / 5 := by
  refine ⟨by decide!, by decide!, by decide!, by decide!, by decide!, by decide!, by decide!⟩

/-! Members the zoom functions leave alone -/

theorem ZoomFrame.zoomRefl (a : ImageViewerV2) : ZoomFrame a a := ⟨rfl, rfl, rfl, rfl, rfl, rfl⟩

theorem ZoomFrame.zoomTrans {a b c : ImageViewerV2} (h1 : ZoomFrame a b) (h2 : ZoomFrame b c) :
    ZoomFrame a c :=
  ⟨h2.savedViewportPos.trans h1.savedViewportPos, h2.scaleTimer.trans h1.scaleTimer,
   h2.movie.trans h1.movie, h2.consts.trans h1.consts,
   h2.smoothUpscaling.trans h1.smoothUpscaling, h2.mViewLock.trans h1.mViewLock⟩

theorem ite_zoomFrame {a b1 b2 : ImageViewerV2} (c : Prop) [Decidable c]
    (h1 : ZoomFrame a b1) (h2 : ZoomFrame a b2) : ZoomFrame a (if c then b1 else b2) := by
  split
  · exact h1
  · exact h2

theorem emit_zoomFrame (st : ImageViewerV2) (s : ViewerSignal) : ZoomFrame st (st.emit s) :=
  ⟨rfl, rfl, rfl, rfl, rfl, rfl⟩

theorem centerOn_zoomFrame (st : ImageViewerV2) (pos : QPointF) :
    ZoomFrame st (st.centerOn pos) :=
  ⟨rfl, rfl, rfl, rfl, rfl, rfl⟩

theorem setZoomAnchor_zoomFrame (st : ImageViewerV2) (p : QPoint) :
    ZoomFrame st (st.setZoomAnchor p) :=
  ⟨rfl, rfl, rfl, rfl, rfl, rfl⟩

theorem withFitMode_zoomFrame (st : ImageViewerV2) (m : ImageFitMode) :
    ZoomFrame st { st with imageFitMode := m } :=
  ⟨rfl, rfl, rfl, rfl, rfl, rfl⟩

theorem swapToOriginalPixmap_zoomFrame (st : ImageViewerV2) :
    ZoomFrame st st.swapToOriginalPixmap := by
  unfold swapToOriginalPixmap
  split
  · exact ZoomFrame.zoomRefl st
  · exact ⟨rfl, rfl, rfl, rfl, rfl, rfl⟩

theorem requestScaling_zoomFrame (st : ImageViewerV2) : ZoomFrame st st.requestScaling := by
  unfold requestScaling
  split
  · exact ZoomFrame.zoomRefl st
  · split
    · exact emit_zoomFrame _ _
    · exact ZoomFrame.zoomRefl st

theorem centerIfNecessary_zoomFrame (st : ImageViewerV2) :
    ZoomFrame st st.centerIfNecessary := by
  unfold centerIfNecessary
  split
  · exact ZoomFrame.zoomRefl st
  · exact centerOn_zoomFrame _ _

theorem snapToEdges_zoomFrame (st : ImageViewerV2) : ZoomFrame st st.snapToEdges :=
  centerOn_zoomFrame _ _

theorem centerSnap_zoomFrame (st : ImageViewerV2) :
    ZoomFrame st st.centerIfNecessary.snapToEdges :=
  (centerIfNecessary_zoomFrame st).zoomTrans (snapToEdges_zoomFrame _)

theorem doZoom_zoomFrame (st : ImageViewerV2) (s : ℚ) : ZoomFrame st (st.doZoom s) := by
  unfold doZoom
  split
  · exact ZoomFrame.zoomRefl st
  · simp only []
    have h1 : ZoomFrame st
        ({ ({ st with pixmapItem := { st.pixmapItem with scale := qBound st.minScale s 500 } } :
              ImageViewerV2) with
           pixmapItem :=
             { ({ st with pixmapItem :=
                   { st.pixmapItem with scale := qBound st.minScale s 500 } } :
                 ImageViewerV2).pixmapItem with
               transformationMode :=
                 ({ st with pixmapItem :=
                     { st.pixmapItem with scale := qBound st.minScale s 500 } } :
                   ImageViewerV2).selectTransformationMode } } : ImageViewerV2) :=
      ⟨rfl, rfl, rfl, rfl, rfl, rfl⟩
    exact (h1.zoomTrans (swapToOriginalPixmap_zoomFrame _)).zoomTrans (emit_zoomFrame _ _)

theorem zoomAnchored_zoomFrame (st : ImageViewerV2) (s : ℚ) :
    ZoomFrame st (st.zoomAnchored s) := by
  unfold zoomAnchored
  split
  · exact ((doZoom_zoomFrame st s).zoomTrans (centerOn_zoomFrame _ _)).zoomTrans
      (requestScaling_zoomFrame _)
  · exact ZoomFrame.zoomRefl st

theorem zoomByStep_zoomFrame (st : ImageViewerV2) (s1 s2 : ℚ) :
    ZoomFrame st (if st.absoluteStep = true then st.zoomAnchored s1 else st.zoomAnchored s2) :=
  ite_zoomFrame _ (zoomAnchored_zoomFrame _ _) (zoomAnchored_zoomFrame _ _)

theorem fitModeTail_zoomFrame (st : ImageViewerV2) :
    ZoomFrame st
      (if ({ st with imageFitMode := ImageFitMode.FIT_FREE } : ImageViewerV2).pixmapItem.scale =
          ({ st with imageFitMode := ImageFitMode.FIT_FREE } : ImageViewerV2).fitWindowScale then
        { ({ st with imageFitMode := ImageFitMode.FIT_FREE } : ImageViewerV2) with
          imageFitMode := ImageFitMode.FIT_WINDOW }
       else { st with imageFitMode := ImageFitMode.FIT_FREE }) := by
  split
  · exact ⟨rfl, rfl, rfl, rfl, rfl, rfl⟩
  · exact ⟨rfl, rfl, rfl, rfl, rfl, rfl⟩

theorem zoomIn_zoomFrame (st : ImageViewerV2) : ZoomFrame st st.zoomIn :=
  (((setZoomAnchor_zoomFrame st _).zoomTrans (zoomByStep_zoomFrame _ _ _)).zoomTrans
    (centerSnap_zoomFrame _)).zoomTrans (fitModeTail_zoomFrame _)

theorem zoomOut_zoomFrame (st : ImageViewerV2) : ZoomFrame st st.zoomOut :=
  (((setZoomAnchor_zoomFrame st _).zoomTrans (zoomByStep_zoomFrame _ _ _)).zoomTrans
    (centerSnap_zoomFrame _)).zoomTrans (fitModeTail_zoomFrame _)

theorem zoomInCursor_zoomFrame (st : ImageViewerV2) : ZoomFrame st st.zoomInCursor :=
  ((ite_zoomFrame _ ((setZoomAnchor_zoomFrame st _).zoomTrans (zoomByStep_zoomFrame _ _ _))
      (zoomIn_zoomFrame st)).zoomTrans (fitModeTail_zoomFrame _)).zoomTrans (centerSnap_zoomFrame _)

theorem zoomOutCursor_zoomFrame (st : ImageViewerV2) : ZoomFrame st st.zoomOutCursor :=
  ((ite_zoomFrame _ ((setZoomAnchor_zoomFrame st _).zoomTrans (zoomByStep_zoomFrame _ _ _))
      (zoomIn_zoomFrame st)).zoomTrans (fitModeTail_zoomFrame _)).zoomTrans (centerSnap_zoomFrame _)

theorem mouseMoveZoom_zoomFrame (st : ImageViewerV2) (pos : QPoint) :
    ZoomFrame st (st.mouseMoveZoom pos) := by
  have h1 : ZoomFrame st
      { st with mouseMoveStartPos := pos, imageFitMode := ImageFitMode.FIT_FREE } :=
    ⟨rfl, rfl, rfl, rfl, rfl, rfl⟩
  have h2 := (h1.zoomTrans (zoomAnchored_zoomFrame _
    (st.currentScale * (1 + 3 / 1000 * ((st.mouseMoveStartPos.y - pos.y : ℤ) : ℚ) * st.dpr)))).zoomTrans
    (centerSnap_zoomFrame _)
  unfold mouseMoveZoom
  simp only []
  split
  · exact h2.zoomTrans (withFitMode_zoomFrame _ _)
  · exact h2

/-! The two layers (C18) -/

/-- C18, at the failing input: the 4000 x 3000 sample image is displayed and fitted, its
scaled frame of 800 x 600 arrives and is shown (original hidden, scaled visible), and then
an animation of 100 x 80 frames is displayed.  `displayAnimation` shows the original item
and, unlike `displayImage`, does not hide the scaled item: both items are visible.
`displayImage` of a small image in the same state leaves the scaled item hidden.  The
same happens when a scaled frame is set while an animation plays and the next timer tick
pushes a frame: `updatePixmap` shows the original item and leaves the scaled item, which
holds the frame, visible. -/
theorem displayAnimation_both_layers_visible :
    (fittedViewer.setScaledPixmap fittedFrame).pixmapItem.visible = false ∧
    (fittedViewer.setScaledPixmap fittedFrame).pixmapItemScaled.visible = true ∧
    ((fittedViewer.setScaledPixmap fittedFrame).displayAnimation (some gifMovie)).pixmapItem.visible =
      true ∧
    ((fittedViewer.setScaledPixmap fittedFrame).displayAnimation
      (some gifMovie)).pixmapItemScaled.visible = true ∧
    ((fittedViewer.setScaledPixmap fittedFrame).displayAnimation
      (some gifMovie)).bothLayersVisible = true ∧
    ((fittedViewer.setScaledPixmap fittedFrame).displayImage
      (some smallPixmap)).bothLayersVisible = false ∧
    ((emptyViewer.displayAnimation (some gifMovie)).setScaledPixmap
      fittedFrame).bothLayersVisible = false ∧
    (((emptyViewer.displayAnimation (some gifMovie)).setScaledPixmap
      fittedFrame).animationTimerTimeout).bothLayersVisible = true ∧
    (((emptyViewer.displayAnimation (some gifMovie)).setScaledPixmap
      fittedFrame).animationTimerTimeout).pixmapItemScaled.pixmap = some fittedFrame := by
  refine ⟨by decide!, by decide!, by decide!, by decide!, by decide!, by decide!, by decide!,
    by decide!, by decide!⟩

/-! Rescale requests and the scale timer (C19) -/

theorem scalingRequestCount_append (log : List ViewerSignal) (s : ViewerSignal) :
    scalingRequestCount (log ++ [s]) =
      scalingRequestCount log + (if s.isScalingRequested = true then 1 else 0) := by
  unfold scalingRequestCount
  by_cases h : s.isScalingRequested = true <;> simp [List.filter_append, h]

theorem emit_requests (st : ImageViewerV2) (s : ViewerSignal)
    (h : s.isScalingRequested = false) : (st.emit s).requests = st.requests := by
  unfold requests emit
  simp [scalingRequestCount_append, h]

theorem swapToOriginalPixmap_requests (st : ImageViewerV2) :
    st.swapToOriginalPixmap.requests = st.requests := by
  unfold swapToOriginalPixmap
  split <;> rfl

theorem centerIfNecessary_requests (st : ImageViewerV2) :
    st.centerIfNecessary.requests = st.requests := by
  unfold centerIfNecessary
  split <;> rfl

theorem centerSnap_requests (st : ImageViewerV2) :
    st.centerIfNecessary.snapToEdges.requests = st.requests :=
  centerIfNecessary_requests st

theorem doZoom_requests (st : ImageViewerV2) (s : ℚ) : (st.doZoom s).requests = st.requests := by
  unfold doZoom
  split
  · rfl
  · exact (emit_requests _ (ViewerSignal.scaleChanged _) rfl).trans
      (swapToOriginalPixmap_requests _)

/-- A call of `requestScaling` emits at most one `scalingRequested`. -/
theorem requestScaling_requests_le (st : ImageViewerV2) :
    st.requests ≤ st.requestScaling.requests ∧ st.requestScaling.requests ≤ st.requests + 1 := by
  unfold requestScaling
  split
  · exact ⟨le_rfl, Nat.le_succ _⟩
  · split
    · have : (st.emit (ViewerSignal.scalingRequested (st.scaledSize.mul st.dpr)
          st.mScalingFilter)).requests = st.requests + 1 := by
        unfold requests emit
        simp [scalingRequestCount_append, ViewerSignal.isScalingRequested]
      rw [this]
      exact ⟨Nat.le_succ _, le_rfl⟩
    · exact ⟨le_rfl, Nat.le_succ _⟩

/-- No request is made at scale 1 or without content. -/
theorem requestScaling_idle (st : ImageViewerV2)
    (h : st.pixmap = none ∨ st.pixmapItem.scale = 1) : st.requestScaling = st := by
  unfold requestScaling
  rcases h with h | h
  · simp [h]
  · simp [h]

/-- A request is made for static content at a scale other than 1 below the threshold for
fast scaling, provided upscaling is smooth or the scale is below 1. -/
theorem requestScaling_emits (st : ImageViewerV2) (hp : st.isDisplaying = true)
    (hm : st.movie = none) (h1 : st.pixmapItem.scale ≠ 1)
    (hup : st.smoothUpscaling = true ∨ st.pixmapItem.scale < 1)
    (hthr : st.pixmapItem.scale < st.consts.FAST_SCALE_THRESHOLD) :
    st.requestScaling.requests = st.requests + 1 := by
  have hc : (st.pixmap.isNone || decide (st.pixmapItem.scale = 1) ||
      (!st.smoothUpscaling && decide (st.pixmapItem.scale ≥ 1)) || st.movie.isSome) = false := by
    have hn : st.pixmap.isNone = false := by
      unfold isDisplaying at hp
      cases hq : st.pixmap with
      | none => rw [hq] at hp; simp at hp
      | some p => rfl
    have hu : (!st.smoothUpscaling && decide (st.pixmapItem.scale ≥ 1)) = false := by
      rcases hup with h | h
      · simp [h]
      · simp [not_le.mpr h]
    simp [hn, h1, hu, hm]
  unfold requestScaling
  rw [hc]
  simp only [Bool.false_eq_true, if_false, currentScale, if_pos hthr]
  unfold requests emit
  simp [scalingRequestCount_append, ViewerSignal.isScalingRequested]

theorem zoomAnchored_requests_le (st : ImageViewerV2) (s : ℚ) :
    (st.zoomAnchored s).requests ≤ st.requests + 1 := by
  unfold zoomAnchored
  split
  · have h := (requestScaling_requests_le ((st.doZoom s).centerOn
      ((st.doZoom s).anchorCenterTarget st.view.sceneCenter))).2
    have h2 : ((st.doZoom s).centerOn
        ((st.doZoom s).anchorCenterTarget st.view.sceneCenter)).requests = st.requests :=
      doZoom_requests st s
    rw [h2] at h
    exact h
  · exact Nat.le_succ _

/-- An anchored zoom towards scale 1 makes no request when `minScale ≤ 1`: the scale
arrived at is 1. -/
theorem zoomAnchored_one_requests (st : ImageViewerV2)
    (h : st.isDisplaying = true → st.minScale ≤ 1) :
    (st.zoomAnchored 1).requests = st.requests := by
  unfold zoomAnchored
  split
  · have hidle : ((st.doZoom 1).centerOn
        ((st.doZoom 1).anchorCenterTarget st.view.sceneCenter)).requestScaling =
        (st.doZoom 1).centerOn ((st.doZoom 1).anchorCenterTarget st.view.sceneCenter) := by
      apply requestScaling_idle
      rcases Option.eq_none_or_eq_some st.pixmap with hp | ⟨p, hp⟩
      · left
        show (st.doZoom 1).pixmap = none
        rw [(doZoom_sameZoomInputs st 1).1, hp]
      · right
        have hd : st.isDisplaying = true := by simp [isDisplaying, hp]
        show (st.doZoom 1).pixmapItem.scale = 1
        rw [doZoom_scale st 1 hd]
        exact qBound_of_mem _ _ _ (h hd) (by norm_num)
    rw [hidle]
    exact doZoom_requests st 1
  · rfl

theorem ite_centerOn_requests (x : ImageViewerV2) (c : Prop) [Decidable c] (p : QPointF) :
    (if c then x.centerOn p else x).requests = x.requests := by
  split <;> rfl

theorem fitFree_one_requests (st : ImageViewerV2)
    (h : st.isDisplaying = true → st.minScale ≤ 1) : (st.fitFree 1).requests = st.requests := by
  unfold fitFree
  split
  · rfl
  · split
    · exact ((ite_centerOn_requests _ _ _).trans (centerIfNecessary_requests _)).trans
        (doZoom_requests st 1)
    · simp only []
      split
      · exact (centerSnap_requests _).trans (zoomAnchored_one_requests _ h)
      · exact (centerSnap_requests _).trans (zoomAnchored_one_requests _ h)

theorem fitWindow_requests (st : ImageViewerV2)
    (h : st.isDisplaying = true → st.minScale ≤ 1) : st.fitWindow.requests = st.requests := by
  unfold fitWindow
  split
  · rfl
  · split
    · exact fitFree_one_requests st h
    · simp only []
      split
      · exact (doZoom_requests _ _).trans (swapToOriginalPixmap_requests st)
      · rfl

theorem fitWidth_requests (st : ImageViewerV2) : st.fitWidth.requests = st.requests := by
  have hstep : ∀ t : ℚ, (if st.currentScale ≠ t then st.swapToOriginalPixmap.doZoom t
      else st).requests = st.requests := by
    intro t
    split
    · exact (doZoom_requests _ _).trans (swapToOriginalPixmap_requests st)
    · rfl
  unfold fitWidth
  split
  · rfl
  · exact ((ite_centerOn_requests _ _ _).trans (centerIfNecessary_requests _)).trans (hstep _)

theorem applyFitMode_requests (st : ImageViewerV2)
    (h : st.isDisplaying = true → st.minScale ≤ 1) : st.applyFitMode.requests = st.requests := by
  unfold applyFitMode
  split
  · exact fitFree_one_requests st h
  · exact fitWidth_requests st
  · exact fitWindow_requests st h
  · rfl

/-- A resize event handled with the parent visible makes no rescale request itself and
leaves the scale timer running. -/
theorem resizeEvent_requests (st : ImageViewerV2) (v : GraphicsView)
    (hpos : st.contentPositive) :
    (st.resizeEvent v true).requests = st.requests ∧
    (st.resizeEvent v true).scaleTimer.active = true := by
  obtain ⟨tx, ty, hx⟩ := stopPosAnimation_record
    ({ st with view := v, mousePressPos := v.cursorPos } : ImageViewerV2)
  have hxu := updateMinScale_fitFrameLike
    ({ st with view := v, mousePressPos := v.cursorPos } : ImageViewerV2).stopPosAnimation
  have hu : (({ st with view := v, mousePressPos := v.cursorPos } :
      ImageViewerV2).stopPosAnimation).updateMinScale.requests = st.requests := by
    unfold requests
    rw [hxu.2.2.2.2.2.2.2.2.2.2.1, hx]
  have hmin : (({ st with view := v, mousePressPos := v.cursorPos } :
        ImageViewerV2).stopPosAnimation).updateMinScale.isDisplaying = true →
      (({ st with view := v, mousePressPos := v.cursorPos } :
        ImageViewerV2).stopPosAnimation).updateMinScale.minScale ≤ 1 := by
    intro hd
    unfold isDisplaying at hd
    rw [hxu.1] at hd
    rcases Option.eq_none_or_eq_some (({ st with view := v, mousePressPos := v.cursorPos } :
        ImageViewerV2).stopPosAnimation).pixmap with hp | ⟨p, hp⟩
    · rw [hp] at hd; simp at hd
    · have hp2 : st.pixmap = some p := by rw [hx] at hp; exact hp
      obtain ⟨hw, hh⟩ := hpos p hp2
      exact (updateMinScale_bounds _ p hp hw hh).1
  have hfit : ∀ w : ImageViewerV2, w.requests = st.requests →
      (({ (if w.scaleTimer.active = true then { w with scaleTimer := w.scaleTimer.stop }
           else w) with
          scaleTimer := (if w.scaleTimer.active = true then
              ({ w with scaleTimer := w.scaleTimer.stop } : ImageViewerV2)
            else w).scaleTimer.restart } : ImageViewerV2).saveViewportPos).requests =
        st.requests ∧
      (({ (if w.scaleTimer.active = true then { w with scaleTimer := w.scaleTimer.stop }
           else w) with
          scaleTimer := (if w.scaleTimer.active = true then
              ({ w with scaleTimer := w.scaleTimer.stop } : ImageViewerV2)
            else w).scaleTimer.restart } : ImageViewerV2).saveViewportPos).scaleTimer.active =
        true := by
    intro w hw
    obtain ⟨q, hq⟩ := saveViewportPos_eq
      ({ (if w.scaleTimer.active = true then { w with scaleTimer := w.scaleTimer.stop }
           else w) with
          scaleTimer := (if w.scaleTimer.active = true then
              ({ w with scaleTimer := w.scaleTimer.stop } : ImageViewerV2)
            else w).scaleTimer.restart } : ImageViewerV2)
    rw [hq]
    refine ⟨?_, rfl⟩
    rw [← hw]
    unfold requests
    split <;> rfl
  unfold resizeEvent
  simp only [if_true]
  split
  · exact hfit _ ((centerSnap_requests _).trans hu)
  · exact hfit _ ((applyFitMode_requests _ hmin).trans hu)

/-- The expiry of the scale timer makes at most one request and leaves the timer
inactive; without an active timer nothing happens. -/
theorem scaleTimerTimeout_requests (st : ImageViewerV2) :
    st.scaleTimerTimeout.requests ≤ st.requests + 1 ∧
    st.scaleTimerTimeout.scaleTimer.active = false ∧
    (st.scaleTimer.active = false → st.scaleTimerTimeout = st) := by
  unfold scaleTimerTimeout
  split
  · rename_i hact
    refine ⟨(requestScaling_requests_le _).2, ?_, fun h => ?_⟩
    · rw [(requestScaling_zoomFrame _).scaleTimer]
      rfl
    · rw [h] at hact
      simp at hact
  · rename_i hact
    exact ⟨Nat.le_succ _, by simpa using hact, fun _ => rfl⟩

/-- No request is made unless the content is static, the scale is not 1 and below the
threshold for fast scaling, and upscaling is smooth or the scale is below 1. -/
theorem requestScaling_silent (st : ImageViewerV2)
    (h : ¬ (st.isDisplaying = true ∧ st.movie = none ∧ st.pixmapItem.scale ≠ 1 ∧
      (st.smoothUpscaling = true ∨ st.pixmapItem.scale < 1) ∧
      st.pixmapItem.scale < st.consts.FAST_SCALE_THRESHOLD)) :
    st.requestScaling.requests = st.requests := by
  unfold requestScaling
  split
  · rfl
  · rename_i hc
    split
    · rename_i hthr
      exfalso
      apply h
      simp only [Bool.or_eq_true, Bool.and_eq_true, Bool.not_eq_true', decide_eq_true_eq,
        not_or, not_and, Option.isNone_iff_eq_none] at hc
      obtain ⟨⟨⟨hp, h1⟩, hu⟩, hm⟩ := hc
      refine ⟨?_, ?_, h1, ?_, hthr⟩
      · unfold isDisplaying
        rcases Option.eq_none_or_eq_some st.pixmap with hq | ⟨p, hq⟩
        · exact absurd hq hp
        · rw [hq]; rfl
      · rcases Option.eq_none_or_eq_some st.movie with hq | ⟨p, hq⟩
        · exact hq
        · rw [hq] at hm; simp at hm
      · cases hs : st.smoothUpscaling
        · right
          exact not_le.mp (hu hs)
        · left; rfl
    · rfl

/-- An anchored zoom makes no request unless it changes the scale of static content to a
value other than 1 below the threshold for fast scaling, with smooth upscaling on or the new
scale below 1. -/
theorem zoomAnchored_silent (st : ImageViewerV2) (s : ℚ)
    (h : ¬ (st.isDisplaying = true ∧ st.movie = none ∧ st.currentScale ≠ s ∧
      qBound st.minScale s 500 ≠ 1 ∧
      (st.smoothUpscaling = true ∨ qBound st.minScale s 500 < 1) ∧
      qBound st.minScale s 500 < st.consts.FAST_SCALE_THRESHOLD)) :
    (st.zoomAnchored s).requests = st.requests := by
  unfold zoomAnchored
  by_cases hne : st.currentScale ≠ s
  · rw [if_pos hne]
    have hz := doZoom_zoomFrame st s
    have hq : ((st.doZoom s).centerOn
        ((st.doZoom s).anchorCenterTarget st.view.sceneCenter)).requests = st.requests :=
      doZoom_requests st s
    rw [← hq]
    apply requestScaling_silent
    rintro ⟨hd, hm, h1, hup, hthr⟩
    have hd0 : st.isDisplaying = true := by
      have : ((st.doZoom s).pixmap).isSome = true := hd
      rw [(doZoom_sameZoomInputs st s).1] at this
      exact this
    have hs : (st.doZoom s).pixmapItem.scale = qBound st.minScale s 500 := doZoom_scale st s hd0
    have hm0 : (st.doZoom s).movie = none := hm
    have h10 : (st.doZoom s).pixmapItem.scale ≠ 1 := h1
    have hup0 : (st.doZoom s).smoothUpscaling = true ∨ (st.doZoom s).pixmapItem.scale < 1 := hup
    have hthr0 : (st.doZoom s).pixmapItem.scale < (st.doZoom s).consts.FAST_SCALE_THRESHOLD :=
      hthr
    rw [hz.movie] at hm0
    rw [hs] at h10
    rw [hz.smoothUpscaling, hs] at hup0
    rw [hz.consts, hs] at hthr0
    exact h ⟨hd0, hm0, hne, h10, hup0, hthr0⟩
  · rw [if_neg hne]

/-- C19 (amended): rescale requests are debounced for resize events, not for zooms.
An anchored zoom never touches the scale timer and calls `requestScaling` at once: it
emits exactly one `scalingRequested` when it changes the scale of displayed static content
to a value other than 1 below the threshold for fast scaling, with smooth upscaling on or
the new scale below 1, and none in every other case; the zoom entry points leave the scale
timer as it is.  A resize event handled with the parent visible, for content of positive
size, emits no `scalingRequested` itself and leaves the scale timer running; the expiry of
the timer emits at most one and leaves the timer inactive. -/
theorem scalingRequested_timing (st : ImageViewerV2) :
    (∀ s, (st.zoomAnchored s).scaleTimer = st.scaleTimer ∧
      (st.zoomAnchored s).requests ≤ st.requests + 1) ∧
    (∀ s, st.isDisplaying = true → st.movie = none → st.currentScale ≠ s →
      qBound st.minScale s 500 ≠ 1 →
      (st.smoothUpscaling = true ∨ qBound st.minScale s 500 < 1) →
      qBound st.minScale s 500 < st.consts.FAST_SCALE_THRESHOLD →
      (st.zoomAnchored s).requests = st.requests + 1) ∧
    (∀ s, ¬ (st.isDisplaying = true ∧ st.movie = none ∧ st.currentScale ≠ s ∧
        qBound st.minScale s 500 ≠ 1 ∧
        (st.smoothUpscaling = true ∨ qBound st.minScale s 500 < 1) ∧
        qBound st.minScale s 500 < st.consts.FAST_SCALE_THRESHOLD) →
      (st.zoomAnchored s).requests = st.requests) ∧
    (st.zoomIn.scaleTimer = st.scaleTimer ∧ st.zoomOut.scaleTimer = st.scaleTimer ∧
      st.zoomInCursor.scaleTimer = st.scaleTimer ∧ st.zoomOutCursor.scaleTimer = st.scaleTimer ∧
      ∀ pos, (st.mouseMoveZoom pos).scaleTimer = st.scaleTimer) ∧
    (st.contentPositive → ∀ v, (st.resizeEvent v true).requests = st.requests ∧
      (st.resizeEvent v true).scaleTimer.active = true) ∧
    (st.scaleTimerTimeout.requests ≤ st.requests + 1 ∧
      st.scaleTimerTimeout.scaleTimer.active = false ∧
      (st.scaleTimer.active = false → st.scaleTimerTimeout = st)) := by
  refine ⟨fun s => ⟨(zoomAnchored_zoomFrame st s).scaleTimer, zoomAnchored_requests_le st s⟩,
    fun s hd hm hne h1 hup hthr => ?_,
    fun s h => zoomAnchored_silent st s h,
    ⟨(zoomIn_zoomFrame st).scaleTimer, (zoomOut_zoomFrame st).scaleTimer,
      (zoomInCursor_zoomFrame st).scaleTimer, (zoomOutCursor_zoomFrame st).scaleTimer,
      fun pos => (mouseMoveZoom_zoomFrame st pos).scaleTimer⟩,
    fun hpos v => resizeEvent_requests st v hpos, scaleTimerTimeout_requests st⟩
  have hz := doZoom_zoomFrame st s
  have hs : (st.doZoom s).pixmapItem.scale = qBound st.minScale s 500 := doZoom_scale st s hd
  have hemit := requestScaling_emits
    ((st.doZoom s).centerOn ((st.doZoom s).anchorCenterTarget st.view.sceneCenter))
    (by
      show ((st.doZoom s).pixmap).isSome = true
      rw [(doZoom_sameZoomInputs st s).1]
      exact hd)
    (by
      show (st.doZoom s).movie = none
      rw [hz.movie]; exact hm)
    (by
      show (st.doZoom s).pixmapItem.scale ≠ 1
      rw [hs]; exact h1)
    (by
      show (st.doZoom s).smoothUpscaling = true ∨ (st.doZoom s).pixmapItem.scale < 1
      rw [hz.smoothUpscaling, hs]; exact hup)
    (by
      show (st.doZoom s).pixmapItem.scale < (st.doZoom s).consts.FAST_SCALE_THRESHOLD
      rw [hz.consts, hs]; exact hthr)
  unfold zoomAnchored
  rw [if_pos hne, hemit]
  exact congrArg (· + 1) (doZoom_requests st s)

/-- C19 (amended) at concrete inputs: an anchored zoom of the fitted sample image from
scale 1/5 to 11/50 emits one request at once; with smooth upscaling off an anchored zoom
of the sample image from scale 1 to 3/2 emits none; resizing the viewer emits none and
leaves the timer running. -/
theorem scalingRequested_timing_witness :
    (fittedViewer.zoomAnchored (11 / 50)).requests = fittedViewer.requests + 1 ∧
    (upscaleOffViewer.zoomAnchored (3 / 2)).requests = upscaleOffViewer.requests ∧
    (fittedViewer.resizeEvent largeView true).requests = fittedViewer.requests ∧
    (fittedViewer.resizeEvent largeView true).scaleTimer.active = true := by
  have hz := (scalingRequested_timing fittedViewer).2.1
    (11 / 50) (by decide!) (by decide!) (by decide!) (by decide!) (by decide!) (by decide!)
  have hn := (scalingRequested_timing upscaleOffViewer).2.2.1 (3 / 2) (by decide!)
  have hr := (scalingRequested_timing fittedViewer).2.2.2.2.1
    (by
      intro p hp
      have : fittedViewer.pixmap = some samplePixmap := by decide!
      rw [this] at hp
      cases hp
      exact ⟨by decide, by decide⟩) largeView
  exact ⟨hz, hn, hr.1, hr.2⟩

/-- C19 as stated fails: two consecutive `zoomIn` calls on the fitted sample image, each
changing the scale (1/5 to 11/50 to 121/500) with the scale timer never active, emit two
`scalingRequested` signals, the first right after the first call. -/
theorem scalingRequested_counterexample :
    fittedViewer.scaleTimer.active = false ∧
    fittedViewer.zoomIn.scaleTimer.active = false ∧
    fittedViewer.zoomIn.zoomIn.scaleTimer.active = false ∧
    fittedViewer.pixmapItem.scale = 1 / 5 ∧
    fittedViewer.zoomIn.pixmapItem.scale = 11 / 50 ∧
    fittedViewer.zoomIn.zoomIn.pixmapItem.scale = 121 / 500 ∧
    fittedViewer.zoomIn.requests = fittedViewer.requests + 1 ∧
    fittedViewer.zoomIn.zoomIn.requests = fittedViewer.requests + 2 := by
  refine ⟨by decide!, by decide!, by decide!, by decide!, by decide!, by decide!, by decide!,
    by decide!⟩

/-! The saved viewport position (C20) -/

/-- Saving the viewport position twice is the same as saving it once: the saved position
is then the one `saveViewportPos` computes. -/
theorem saveViewportPos_idem (st : ImageViewerV2) :
    st.saveViewportPos.saveViewportPos = st.saveViewportPos := by
  unfold saveViewportPos
  by_cases h : st.mViewLock ≠ ViewLockMode.LOCK_ALL
  · simp only [if_pos h]
  · simp only [if_neg h]

/-- C20 (amended): the saved viewport position is kept current by pans and scrolls, not by
zooms.  After `scrollPrecise`, `mousePan` (when the image does not fit, so that it pans),
`scrollSmooth`, the completion of a smooth scroll and a wheel event without button and
modifier (unless the event is passed on unhandled), saving again changes nothing: the
saved position is the one `saveViewportPos` computes.  The zoom operations `zoomIn`,
`zoomOut`, `zoomInCursor`, `zoomOutCursor`, drag zoom and the wheel zoom with the right
button held never write `savedViewportPos`: it keeps the value it had before the zoom. -/
theorem savedViewportPos_current (st : ImageViewerV2) :
    (∀ dx dy, (st.scrollPrecise dx dy).saveViewportPos = st.scrollPrecise dx dy) ∧
    (∀ pos, st.scaledImageFits = false →
      (st.mousePan pos).saveViewportPos = st.mousePan pos) ∧
    (∀ dx dy, (st.scrollSmooth dx dy).saveViewportPos = st.scrollSmooth dx dy) ∧
    st.onScrollTimelineFinished.saveViewportPos = st.onScrollTimelineFinished ∧
    (∀ event elapsed, event.rightButton = false → event.noModifier = true →
      st.wheelEvent event elapsed = st ∨
      (st.wheelEvent event elapsed).saveViewportPos = st.wheelEvent event elapsed) ∧
    st.zoomIn.savedViewportPos = st.savedViewportPos ∧
    st.zoomOut.savedViewportPos = st.savedViewportPos ∧
    st.zoomInCursor.savedViewportPos = st.savedViewportPos ∧
    st.zoomOutCursor.savedViewportPos = st.savedViewportPos ∧
    (∀ pos, (st.mouseMoveZoom pos).savedViewportPos = st.savedViewportPos) ∧
    (∀ event elapsed, event.rightButton = true →
      (st.wheelEvent event elapsed).savedViewportPos = st.savedViewportPos) := by
  refine ⟨fun dx dy => saveViewportPos_idem _, fun pos hfit => ?_,
    fun dx dy => saveViewportPos_idem _, saveViewportPos_idem _, fun event elapsed hb hm => ?_,
    (zoomIn_zoomFrame st).savedViewportPos, (zoomOut_zoomFrame st).savedViewportPos,
    (zoomInCursor_zoomFrame st).savedViewportPos, (zoomOutCursor_zoomFrame st).savedViewportPos,
    fun pos => (mouseMoveZoom_zoomFrame st pos).savedViewportPos, fun event elapsed hb => ?_⟩
  · unfold mousePan
    simp only [hfit, Bool.false_eq_true, if_false]
    exact saveViewportPos_idem _
  · unfold wheelEvent
    simp only [hb, hm, Bool.false_eq_true, if_false, if_true]
    split
    · exact Or.inr (saveViewportPos_idem _)
    · split
      · split
        · split
          · exact Or.inr (saveViewportPos_idem _)
          · exact Or.inl rfl
        · exact Or.inr (saveViewportPos_idem _)
      · exact Or.inr (saveViewportPos_idem _)
  · unfold wheelEvent
    simp only [hb, if_true]
    have h1 : ZoomFrame st
        ({ st with mouseInteraction := MouseInteractionState.MOUSE_WHEEL_ZOOM } : ImageViewerV2) :=
      ⟨rfl, rfl, rfl, rfl, rfl, rfl⟩
    split
    · exact (h1.zoomTrans (zoomInCursor_zoomFrame _)).savedViewportPos
    · split
      · exact (h1.zoomTrans (zoomOutCursor_zoomFrame _)).savedViewportPos
      · rfl

/-- C20 (amended) at concrete inputs: the sample viewer under view lock ALL; a wheel event
of three notches without button is handled and leaves the saved position current, and a
pan by the mouse does too. -/
theorem savedViewportPos_current_witness :
    (sampleViewer.toggleLockView.wheelEvent ⟨false, true, ⟨0, 0⟩, ⟨0, -360⟩⟩ 500 =
        sampleViewer.toggleLockView ∨
      (sampleViewer.toggleLockView.wheelEvent ⟨false, true, ⟨0, 0⟩, ⟨0, -360⟩⟩ 500).saveViewportPos =
        sampleViewer.toggleLockView.wheelEvent ⟨false, true, ⟨0, 0⟩, ⟨0, -360⟩⟩ 500) ∧
    (sampleViewer.toggleLockView.mousePan ⟨-30, -40⟩).saveViewportPos =
      sampleViewer.toggleLockView.mousePan ⟨-30, -40⟩ :=
  ⟨(savedViewportPos_current sampleViewer.toggleLockView).2.2.2.2.1 _ _ rfl rfl,
   (savedViewportPos_current sampleViewer.toggleLockView).2.1 _ (by decide!)⟩

/-- C20 as stated fails for the zoom operations.  The sample viewer under view lock ALL
shows the 4000 x 3000 image at scale 1 with the saved position (1/2, 1/2) current; the
pointer is at (100, 50).  `zoomInCursor` scrolls the view to keep the point under the
pointer in place, and leaves the saved position at (1/2, 1/2), whereas the position
`saveViewportPos` computes in the new state is (217/440, 65/132). -/
theorem savedViewportPos_counterexample :
    cursorLockedViewer.mViewLock = ViewLockMode.LOCK_ALL ∧
    cursorLockedViewer.isDisplaying = true ∧
    cursorLockedViewer.saveViewportPos = cursorLockedViewer ∧
    cursorLockedViewer.zoomInCursor.mViewLock = ViewLockMode.LOCK_ALL ∧
    cursorLockedViewer.zoomInCursor.pixmapItem.scale = 11 / 10 ∧
    cursorLockedViewer.zoomInCursor.savedViewportPos = ⟨1 / 2, 1 / 2⟩ ∧
    cursorLockedViewer.zoomInCursor.saveViewportPos.savedViewportPos = ⟨217 / 440, 65 / 132⟩ := by
  refine ⟨by decide!, by decide!, by decide!, by decide!, by decide!, by decide!, by decide!⟩

/-! The view lock across content changes (C21) -/

theorem LockFrame.lockRefl (a : ImageViewerV2) : LockFrame a a := ⟨rfl, rfl, rfl⟩

theorem LockFrame.lockTrans {a b c : ImageViewerV2} (h1 : LockFrame a b) (h2 : LockFrame b c) :
    LockFrame a c :=
  ⟨h2.imageFitMode.trans h1.imageFitMode, h2.mViewLock.trans h1.mViewLock,
   h2.lockedScale.trans h1.lockedScale⟩

theorem ite_lockFrame {a b1 b2 : ImageViewerV2} (c : Prop) [Decidable c]
    (h1 : LockFrame a b1) (h2 : LockFrame a b2) : LockFrame a (if c then b1 else b2) := by
  split
  · exact h1
  · exact h2

theorem emit_lockFrame (st : ImageViewerV2) (s : ViewerSignal) : LockFrame st (st.emit s) :=
  ⟨rfl, rfl, rfl⟩

theorem centerOn_lockFrame (st : ImageViewerV2) (pos : QPointF) :
    LockFrame st (st.centerOn pos) :=
  ⟨rfl, rfl, rfl⟩

theorem setZoomAnchor_lockFrame (st : ImageViewerV2) (p : QPoint) :
    LockFrame st (st.setZoomAnchor p) :=
  ⟨rfl, rfl, rfl⟩

theorem swapToOriginalPixmap_lockFrame (st : ImageViewerV2) :
    LockFrame st st.swapToOriginalPixmap := by
  unfold swapToOriginalPixmap
  split
  · exact LockFrame.lockRefl st
  · exact ⟨rfl, rfl, rfl⟩

theorem requestScaling_lockFrame (st : ImageViewerV2) : LockFrame st st.requestScaling := by
  unfold requestScaling
  split
  · exact LockFrame.lockRefl st
  · split
    · exact emit_lockFrame _ _
    · exact LockFrame.lockRefl st

theorem centerIfNecessary_lockFrame (st : ImageViewerV2) :
    LockFrame st st.centerIfNecessary := by
  unfold centerIfNecessary
  split
  · exact LockFrame.lockRefl st
  · exact centerOn_lockFrame _ _

theorem snapToEdges_lockFrame (st : ImageViewerV2) : LockFrame st st.snapToEdges :=
  centerOn_lockFrame _ _

theorem centerSnap_lockFrame (st : ImageViewerV2) :
    LockFrame st st.centerIfNecessary.snapToEdges :=
  (centerIfNecessary_lockFrame st).lockTrans (snapToEdges_lockFrame _)

theorem doZoom_lockFrame (st : ImageViewerV2) (s : ℚ) : LockFrame st (st.doZoom s) := by
  unfold doZoom
  split
  · exact LockFrame.lockRefl st
  · simp only []
    have h1 : LockFrame st
        ({ ({ st with pixmapItem := { st.pixmapItem with scale := qBound st.minScale s 500 } } :
              ImageViewerV2) with
           pixmapItem :=
             { ({ st with pixmapItem :=
                   { st.pixmapItem with scale := qBound st.minScale s 500 } } :
                 ImageViewerV2).pixmapItem with
               transformationMode :=
                 ({ st with pixmapItem :=
                     { st.pixmapItem with scale := qBound st.minScale s 500 } } :
                   ImageViewerV2).selectTransformationMode } } : ImageViewerV2) :=
      ⟨rfl, rfl, rfl⟩
    exact (h1.lockTrans (swapToOriginalPixmap_lockFrame _)).lockTrans (emit_lockFrame _ _)

theorem zoomAnchored_lockFrame (st : ImageViewerV2) (s : ℚ) :
    LockFrame st (st.zoomAnchored s) := by
  unfold zoomAnchored
  split
  · exact ((doZoom_lockFrame st s).lockTrans (centerOn_lockFrame _ _)).lockTrans
      (requestScaling_lockFrame _)
  · exact LockFrame.lockRefl st

theorem fitFree_lockFrame (st : ImageViewerV2) (s : ℚ) : LockFrame st (st.fitFree s) := by
  unfold fitFree
  split
  · exact LockFrame.lockRefl st
  · split
    · simp only []
      refine ((doZoom_lockFrame st s).lockTrans (centerIfNecessary_lockFrame _)).lockTrans ?_
      refine LockFrame.lockTrans ?_ (snapToEdges_lockFrame _)
      exact ite_lockFrame _ (centerOn_lockFrame _ _) (LockFrame.lockRefl _)
    · simp only []
      have h1 : LockFrame st
          (if st.focusIn1to1 = ImageFocusPoint.FOCUS_CENTER then
            st.setZoomAnchor st.view.rect.center else st.setZoomAnchor st.view.cursorPos) :=
        ite_lockFrame _ (setZoomAnchor_lockFrame _ _) (setZoomAnchor_lockFrame _ _)
      exact (h1.lockTrans (zoomAnchored_lockFrame _ _)).lockTrans (centerSnap_lockFrame _)

theorem applySavedViewportPos_lockFrame (st : ImageViewerV2) :
    LockFrame st st.applySavedViewportPos :=
  (centerOn_lockFrame st _).lockTrans (centerSnap_lockFrame _)

theorem stopAnimation_lockFrame (st : ImageViewerV2) : LockFrame st st.stopAnimation := by
  unfold stopAnimation
  split
  · exact LockFrame.lockRefl st
  · exact ⟨rfl, rfl, rfl⟩

theorem stopPosAnimation_lockFrame (st : ImageViewerV2) : LockFrame st st.stopPosAnimation := by
  obtain ⟨tx, ty, h⟩ := stopPosAnimation_record st
  rw [h]
  exact ⟨rfl, rfl, rfl⟩

theorem reset_lockFrame (st : ImageViewerV2) : LockFrame st st.reset := by
  unfold reset
  simp only []
  have h1 : LockFrame st.stopPosAnimation
      ({ st.stopPosAnimation with
        pixmapItemScaled := { st.stopPosAnimation.pixmapItemScaled with pixmap := none }
        pixmapScaled := none
        pixmapItem := { st.stopPosAnimation.pixmapItem with pixmap := none, scale := 1 }
        pixmap := none } : ImageViewerV2) := ⟨rfl, rfl, rfl⟩
  have h2 := ((stopPosAnimation_lockFrame st).lockTrans h1).lockTrans (stopAnimation_lockFrame _)
  exact ⟨h2.imageFitMode, h2.mViewLock, h2.lockedScale⟩

theorem updateMinScale_lockFrame (st : ImageViewerV2) : LockFrame st st.updateMinScale :=
  ⟨(updateMinScale_fitFrameLike st).2.2.2.2.2.1, (updateMinScale_fitFrameLike st).2.2.2.2.2.2.1,
   (updateMinScale_fitFrameLike st).2.2.2.2.2.2.2.1⟩

/-- Under a view lock `updateMinScale` leaves `minScale` at or below the locked scale. -/
theorem updateMinScale_le_lockedScale (st : ImageViewerV2) (p : QPixmap)
    (hp : st.pixmap = some p) (hl : st.mViewLock ≠ ViewLockMode.LOCK_NONE) :
    st.updateMinScale.minScale ≤ st.lockedScale := by
  rw [updateMinScale_eq st p hp]
  show (if st.mViewLock ≠ ViewLockMode.LOCK_NONE ∧ st.lockedScale <
      (if st.imageFits = true then 1 else st.updateFitWindowScale.fitWindowScale) then
      st.lockedScale
    else (if st.imageFits = true then 1 else st.updateFitWindowScale.fitWindowScale)) ≤
      st.lockedScale
  generalize (if st.imageFits = true then (1 : ℚ) else st.updateFitWindowScale.fitWindowScale) = X
  by_cases hc : st.lockedScale < X
  · rw [if_pos ⟨hl, hc⟩]
  · rw [if_neg (fun h => hc h.2)]
    exact not_lt.mp hc

theorem displayImageContent_facts (st : ImageViewerV2) (px : QPixmap) :
    (st.displayImageContent px).pixmap = some (px.setDevicePixelRatio st.reset.dpr) ∧
    (st.displayImageContent px).pixmapItem.scale = 1 ∧
    LockFrame st (st.displayImageContent px) ∧
    (st.displayImageContent px).focusIn1to1 = st.reset.focusIn1to1 := by
  refine ⟨rfl, ?_, ?_, rfl⟩
  · exact (reset_pixmap st).2
  · have h := reset_lockFrame st
    exact ⟨h.imageFitMode, h.mViewLock, h.lockedScale⟩

theorem displayImage_eq (st : ImageViewerV2) (px : QPixmap) :
    st.displayImage (some px) =
      (((st.displayImageContent px).updateMinScale).applyFitOrLock).requestScaling := rfl

/-- The locked branch of `applyFitOrLock`: the scale becomes the locked scale when
`minScale` does not exceed it, and the fit mode becomes FREE. -/
theorem applyFitOrLock_locked (u : ImageViewerV2) (hd : u.isDisplaying = true)
    (hl : u.mViewLock ≠ ViewLockMode.LOCK_NONE) (hm : u.minScale ≤ u.lockedScale)
    (h500 : u.lockedScale ≤ 500) :
    u.applyFitOrLock.pixmapItem.scale = u.lockedScale ∧
    u.applyFitOrLock.imageFitMode = ImageFitMode.FIT_FREE ∧
    u.applyFitOrLock.mViewLock = u.mViewLock ∧
    u.applyFitOrLock.lockedScale = u.lockedScale := by
  unfold applyFitOrLock
  simp only []
  generalize hw : (if (!u.keepFitMode || decide (u.imageFitMode = ImageFitMode.FIT_FREE)) = true
      then ({ u with imageFitMode := u.imageFitModeDefault } : ImageViewerV2) else u) = w
  have hwf : FitFrame u w := by
    rw [← hw]; exact ite_fitFrame _ _ _ (withFitMode_fitFrame _ _)
  have hwl : w.mViewLock = u.mViewLock ∧ w.lockedScale = u.lockedScale := by
    rw [← hw]; split <;> exact ⟨rfl, rfl⟩
  have hwn : ¬ w.mViewLock = ViewLockMode.LOCK_NONE := by rw [hwl.1]; exact hl
  rw [if_neg hwn]
  generalize hv : ({ w with imageFitMode := ImageFitMode.FIT_FREE } : ImageViewerV2) = v
  have hvf : FitFrame w v := by rw [← hv]; exact withFitMode_fitFrame _ _
  have hvl : v.mViewLock = w.mViewLock ∧ v.lockedScale = w.lockedScale ∧
      v.imageFitMode = ImageFitMode.FIT_FREE := by rw [← hv]; exact ⟨rfl, rfl, rfl⟩
  have huv := hwf.fitTrans hvf
  have hvd : v.isDisplaying = true := by
    unfold isDisplaying at hd ⊢; rw [huv.pixmap]; exact hd
  have hL : w.lockedScale = v.lockedScale := hvl.2.1.symm
  rw [hL]
  have hvm : v.minScale ≤ v.lockedScale := by
    rw [huv.minScale, hvl.2.1, hwl.2]; exact hm
  have hv500 : v.lockedScale ≤ 500 := by rw [hvl.2.1, hwl.2]; exact h500
  have hs : (v.fitFree v.lockedScale).pixmapItem.scale = v.lockedScale := by
    rw [fitFree_scale v _ hvd]
    split
    · rename_i h; exact h.2
    · rw [qBound_eq]
      rw [min_eq_right hv500, max_eq_right hvm]
  have hlf := fitFree_lockFrame v v.lockedScale
  have hfin : LockFrame (v.fitFree v.lockedScale)
      (if (v.fitFree v.lockedScale).mViewLock = ViewLockMode.LOCK_ALL then
        (v.fitFree v.lockedScale).applySavedViewportPos else v.fitFree v.lockedScale) :=
    ite_lockFrame _ (applySavedViewportPos_lockFrame _) (LockFrame.lockRefl _)
  have hfs : FitFrame (v.fitFree v.lockedScale)
      (if (v.fitFree v.lockedScale).mViewLock = ViewLockMode.LOCK_ALL then
        (v.fitFree v.lockedScale).applySavedViewportPos else v.fitFree v.lockedScale) :=
    ite_fitFrame _ _ _ (applySavedViewportPos_fitFrame _)
  have hall := hlf.lockTrans hfin
  refine ⟨?_, ?_, ?_, ?_⟩
  · rw [hfs.scale, hs, hvl.2.1, hwl.2]
  · rw [hall.imageFitMode]; exact hvl.2.2
  · rw [hall.mViewLock, hvl.1, hwl.1]
  · rw [hall.lockedScale, hvl.2.1, hwl.2]

/-- C21. With a view lock active (`LOCK_ZOOM` or `LOCK_ALL`) and the locked scale `L` at most
500, `displayImage` of any pixmap, in any viewport and for any focus-point setting, leaves the
display scale at `L` and the fit mode FREE; the lock and the locked scale are kept, so the
same holds for every later image. -/
theorem displayImage_locked_scale (st : ImageViewerV2) (px : QPixmap) (L : ℚ)
    (hlock : st.mViewLock ≠ ViewLockMode.LOCK_NONE) (hL : st.lockedScale = L) (h500 : L ≤ 500) :
    (st.displayImage (some px)).pixmapItem.scale = L ∧
    (st.displayImage (some px)).imageFitMode = ImageFitMode.FIT_FREE ∧
    (st.displayImage (some px)).mViewLock = st.mViewLock ∧
    (st.displayImage (some px)).lockedScale = L := by
  obtain ⟨hcp, _, hcl, _⟩ := displayImageContent_facts st px
  have hul := updateMinScale_lockFrame (st.displayImageContent px)
  have hup : (st.displayImageContent px).updateMinScale.pixmap =
      some (px.setDevicePixelRatio st.reset.dpr) :=
    (updateMinScale_fitFrameLike _).1.trans hcp
  have hcl2 : (st.displayImageContent px).mViewLock ≠ ViewLockMode.LOCK_NONE := by
    rw [hcl.mViewLock]; exact hlock
  have hm := updateMinScale_le_lockedScale _ _ hcp hcl2
  have hlk := hcl.lockTrans hul
  have hd : (st.displayImageContent px).updateMinScale.isDisplaying = true := by
    unfold isDisplaying; rw [hup]; rfl
  have hA := applyFitOrLock_locked (st.displayImageContent px).updateMinScale hd
    (by rw [hlk.mViewLock]; exact hlock) (by rw [hul.lockedScale]; exact hm)
    (by rw [hlk.lockedScale, hL]; exact h500)
  have hrf := requestScaling_fitFrame (st.displayImageContent px).updateMinScale.applyFitOrLock
  have hrl := requestScaling_lockFrame (st.displayImageContent px).updateMinScale.applyFitOrLock
  rw [displayImage_eq]
  refine ⟨?_, ?_, ?_, ?_⟩
  · rw [hrf.scale, hA.1, hlk.lockedScale, hL]
  · rw [hrl.imageFitMode, hA.2.1]
  · rw [hrl.mViewLock, hA.2.2.1, hlk.mViewLock]
  · rw [hrl.lockedScale, hA.2.2.2, hlk.lockedScale, hL]

theorem saveViewportPos_lockFrame (st : ImageViewerV2) : LockFrame st st.saveViewportPos := by
  obtain ⟨q, hq⟩ := saveViewportPos_eq st
  rw [hq]
  exact ⟨rfl, rfl, rfl⟩

theorem lockZoom_lock (st : ImageViewerV2) :
    st.lockZoom.mViewLock = st.mViewLock ∧ st.lockZoom.lockedScale = st.pixmapItem.scale ∧
    st.lockZoom.imageFitMode = ImageFitMode.FIT_FREE := by
  unfold lockZoom
  exact ⟨(saveViewportPos_lockFrame _).mViewLock, (saveViewportPos_lockFrame _).lockedScale,
    (saveViewportPos_lockFrame _).imageFitMode⟩

/-- Activating the zoom lock stores the current scale and sets the lock. -/
theorem toggleLockZoom_locks (st : ImageViewerV2) (hd : st.isDisplaying = true)
    (h : st.mViewLock ≠ ViewLockMode.LOCK_ZOOM) :
    st.toggleLockZoom.mViewLock = ViewLockMode.LOCK_ZOOM ∧
    st.toggleLockZoom.lockedScale = st.pixmapItem.scale := by
  unfold toggleLockZoom
  rw [hd]
  simp only [Bool.not_true, if_pos h]
  exact ⟨(lockZoom_lock _).1, (lockZoom_lock _).2.1⟩

/-- Activating the view lock stores the current scale and sets the lock. -/
theorem toggleLockView_locks (st : ImageViewerV2) (hd : st.isDisplaying = true)
    (h : st.mViewLock ≠ ViewLockMode.LOCK_ALL) :
    st.toggleLockView.mViewLock = ViewLockMode.LOCK_ALL ∧
    st.toggleLockView.lockedScale = st.pixmapItem.scale := by
  unfold toggleLockView
  rw [hd]
  simp only [Bool.not_true, if_pos h]
  have h1 := saveViewportPos_lockFrame
    (({ st with mViewLock := ViewLockMode.LOCK_ALL } : ImageViewerV2).lockZoom)
  have h2 := lockZoom_lock ({ st with mViewLock := ViewLockMode.LOCK_ALL } : ImageViewerV2)
  exact ⟨h1.mViewLock.trans h2.1, h1.lockedScale.trans h2.2.1⟩

theorem displayImage_locked_scale_witness :
    fittedViewer.toggleLockZoom.mViewLock ≠ ViewLockMode.LOCK_NONE ∧
    fittedViewer.toggleLockZoom.lockedScale = 1 / 5 ∧
    (fittedViewer.toggleLockZoom.displayImage (some smallPixmap)).pixmapItem.scale = 1 / 5 ∧
    (fittedViewer.toggleLockZoom.displayImage (some smallPixmap)).imageFitMode =
      ImageFitMode.FIT_FREE :=
  ⟨by decide!, by decide!,
   (displayImage_locked_scale fittedViewer.toggleLockZoom smallPixmap (1 / 5) (by decide!)
      (by decide!) (by norm_num)).1,
   (displayImage_locked_scale fittedViewer.toggleLockZoom smallPixmap (1 / 5) (by decide!)
      (by decide!) (by norm_num)).2.1⟩

/-! Display calls without content (C22) -/

theorem stopAnimation_requests (st : ImageViewerV2) :
    st.stopAnimation.requests = st.requests ∧ st.stopAnimation.pixmapScaled = st.pixmapScaled := by
  unfold stopAnimation
  split
  · exact ⟨rfl, rfl⟩
  · exact ⟨emit_requests st _ rfl, rfl⟩

/-- What `reset` leaves behind: no content, no animation, no scaled pixmap, and no new
scaling request in the log. -/
theorem reset_cleared (st : ImageViewerV2) :
    st.reset.isDisplaying = false ∧ st.reset.hasAnimation = false ∧
    st.reset.pixmapScaled = none ∧ st.reset.requests = st.requests := by
  refine ⟨?_, rfl, ?_, ?_⟩
  · unfold isDisplaying
    rw [(reset_pixmap st).1]
    rfl
  · unfold reset
    simp only [centerOn]
    rw [(stopAnimation_requests _).2]
  · unfold reset
    simp only []
    obtain ⟨tx, ty, h⟩ := stopPosAnimation_record st
    rw [h]
    exact (stopAnimation_requests _).1

/-- C22, as the code has it.  `displayImage` with a null pointer clears the viewer: nothing
is displayed, there is no animation, no scaled pixmap is held and no scaling request is
added to the log.  `displayAnimation` with a null pointer or with a movie that is not valid
does nothing at all: the state is the one before the call. -/
theorem display_without_content (st : ImageViewerV2) (mv : QMovie) (hv : mv.isValid = false) :
    ((st.displayImage none).isDisplaying = false ∧
      (st.displayImage none).hasAnimation = false ∧
      (st.displayImage none).pixmapScaled = none ∧
      (st.displayImage none).requests = st.requests) ∧
    st.displayAnimation none = st ∧ st.displayAnimation (some mv) = st := by
  refine ⟨reset_cleared st, rfl, ?_⟩
  unfold displayAnimation
  simp only [hv]
  rfl

theorem display_without_content_witness :
    invalidMovie.isValid = false ∧
    (sampleViewer.displayImage none).isDisplaying = false ∧
    sampleViewer.displayAnimation (some invalidMovie) = sampleViewer :=
  ⟨rfl, (display_without_content sampleViewer invalidMovie rfl).1.1,
   (display_without_content sampleViewer invalidMovie rfl).2.2⟩

/-- C22 fails as stated: the sample viewer shows an image, and it still shows it after
`displayAnimation` with a null pointer and with a movie that is not valid; the viewer
playing `gifMovie` still has its animation after such a call. -/
theorem displayAnimation_no_content_counterexample :
    (sampleViewer.displayAnimation none).isDisplaying = true ∧
    invalidMovie.isValid = false ∧
    (sampleViewer.displayAnimation (some invalidMovie)).isDisplaying = true ∧
    ((gifViewerAt 1).displayAnimation none).hasAnimation = true ∧
    ((gifViewerAt 1).displayAnimation (some invalidMovie)).hasAnimation = true := by
  decide!

/-! Divisions of the fit-scale computation (C23, C24) -/

theorem floatDiv_of_ne (a b : ℚ) (h : b ≠ 0) : floatDiv a b = some (a / b) := by
  unfold floatDiv
  rw [if_neg h]

/-- With a content of non-zero width and height neither division of `updateFitWindowScale`
is by zero, and the checked function computes what `updateFitWindowScale` computes. -/
theorem updateFitWindowScaleChecked_of_size (st : ImageViewerV2) (p : QPixmap)
    (hp : st.pixmap = some p) (hw : p.width ≠ 0) (hh : p.height ≠ 0) :
    st.updateFitWindowScaleChecked = some st.updateFitWindowScale := by
  have hwq : (p.width : ℚ) ≠ 0 := by exact_mod_cast hw
  have hhq : (p.height : ℚ) ≠ 0 := by exact_mod_cast hh
  unfold updateFitWindowScaleChecked updateFitWindowScale
  rw [hp]
  simp only [floatDiv_of_ne _ _ hwq, floatDiv_of_ne _ _ hhq]
  exact (apply_ite some _ _ _).symm

theorem updateMinScaleChecked_of_size (st : ImageViewerV2) (p : QPixmap)
    (hp : st.pixmap = some p) (hw : p.width ≠ 0) (hh : p.height ≠ 0) :
    st.updateMinScaleChecked = some st.updateMinScale := by
  unfold updateMinScaleChecked updateMinScale
  rw [hp]
  simp only [updateFitWindowScaleChecked_of_size st p hp hw hh]
  exact (apply_ite some _ _ _).symm

theorem displayAnimationContent_pixmap (st : ImageViewerV2) (mv : QMovie) :
    (st.displayAnimationContent mv).pixmap =
      some (mv.jumpToFrame0.1.currentPixmap.setDevicePixelRatio st.reset.dpr) := rfl

theorem displayAnimation_eq (st : ImageViewerV2) (mv : QMovie) (hv : mv.isValid = true) :
    st.displayAnimation (some mv) =
      (((st.displayAnimationContent mv).updateMinScale).applyFitOrLock).startAnimation := by
  unfold displayAnimation
  simp only [hv, if_true]
  rfl

/-- C23, as the code has it.  `displayImage` of a pixmap and `displayAnimation` of a valid
movie run `updateMinScale` on the state with the new content in place.  When the pixmap
(for a movie: its first frame) has non-zero width and height, that computation divides by
no zero, for every viewport size: the checked computation yields the state
`updateMinScale` yields, with rational `minScale` and `fitWindowScale`. -/
theorem fit_scale_defined (st : ImageViewerV2) (px : QPixmap) (mv : QMovie)
    (hw : px.width ≠ 0) (hh : px.height ≠ 0) (hv : mv.isValid = true)
    (hmw : mv.jumpToFrame0.1.currentPixmap.width ≠ 0)
    (hmh : mv.jumpToFrame0.1.currentPixmap.height ≠ 0) :
    (st.displayImage (some px) =
        (((st.displayImageContent px).updateMinScale).applyFitOrLock).requestScaling ∧
      (st.displayImageContent px).updateMinScaleChecked =
        some (st.displayImageContent px).updateMinScale) ∧
    (st.displayAnimation (some mv) =
        (((st.displayAnimationContent mv).updateMinScale).applyFitOrLock).startAnimation ∧
      (st.displayAnimationContent mv).updateMinScaleChecked =
        some (st.displayAnimationContent mv).updateMinScale) := by
  refine ⟨⟨rfl, ?_⟩, displayAnimation_eq st mv hv, ?_⟩
  · exact updateMinScaleChecked_of_size _ (px.setDevicePixelRatio st.reset.dpr) rfl hw hh
  · exact updateMinScaleChecked_of_size _
      (mv.jumpToFrame0.1.currentPixmap.setDevicePixelRatio st.reset.dpr)
      (displayAnimationContent_pixmap st mv) hmw hmh

theorem fit_scale_defined_witness :
    (emptyViewer.displayImageContent samplePixmap).updateMinScaleChecked =
      some (emptyViewer.displayImageContent samplePixmap).updateMinScale ∧
    (emptyViewer.displayAnimationContent gifMovie).updateMinScaleChecked =
      some (emptyViewer.displayAnimationContent gifMovie).updateMinScale :=
  ⟨(fit_scale_defined emptyViewer samplePixmap gifMovie (by decide) (by decide) rfl
      (by decide) (by decide)).1.2,
   (fit_scale_defined emptyViewer samplePixmap gifMovie (by decide) (by decide) rfl
      (by decide) (by decide)).2.2⟩

/-- C23 fails as stated: `displayImage` accepts the pointer to an empty (0 x 0) pixmap and
displays it, and `displayAnimation` accepts a valid movie whose first frame cannot be
decoded; in both cases the fit-scale computation divides by the zero width of the content,
so the checked computation has no result. -/
theorem fit_scale_counterexample :
    (emptyViewer.displayImage (some emptyPixmap)).isDisplaying = true ∧
    (emptyViewer.displayImageContent emptyPixmap).updateMinScaleChecked = none ∧
    unreadableMovie.isValid = true ∧
    (emptyViewer.displayAnimation (some unreadableMovie)).isDisplaying = true ∧
    (emptyViewer.displayAnimationContent unreadableMovie).updateMinScaleChecked = none := by
  decide!

theorem fitRatio_double (v : GraphicsView) (p : QPixmap) (w h : ℤ) :
    fitRatio { v with viewportWidth := 2 * w, viewportHeight := 2 * h } p =
      2 * fitRatio { v with viewportWidth := w, viewportHeight := h } p := by
  unfold fitRatio
  simp only []
  rw [mul_min_of_nonneg _ _ (by norm_num : (0 : ℚ) ≤ 2)]
  push_cast
  congr 1 <;> ring

/-- C24. For a fixed content of positive width and height and a fixed device pixel ratio, when
the expand-limit clamp applies neither in the viewport `w` x `h` nor in the viewport
`2w` x `2h`, the `fitWindowScale` that `updateFitWindowScale` computes in the doubled
viewport is exactly twice the one it computes in the viewport `w` x `h`. -/
theorem updateFitWindowScale_doubles (st : ImageViewerV2) (p : QPixmap) (w h : ℤ)
    (hp : st.pixmap = some p) (_hpw : 0 < p.width) (_hph : 0 < p.height)
    (h1 : ¬ (st.expandImage = true ∧ st.expandLimit < fitRatio (st.withViewport w h).view p))
    (h2 : ¬ (st.expandImage = true ∧
      st.expandLimit < fitRatio (st.withViewport (2 * w) (2 * h)).view p)) :
    (st.withViewport (2 * w) (2 * h)).updateFitWindowScale.fitWindowScale =
      2 * (st.withViewport w h).updateFitWindowScale.fitWindowScale := by
  rw [updateFitWindowScale_fitWindowScale (st.withViewport (2 * w) (2 * h)) p hp,
    updateFitWindowScale_fitWindowScale (st.withViewport w h) p hp]
  have e1 : (st.withViewport w h).expandImage = st.expandImage := rfl
  have e2 : (st.withViewport w h).expandLimit = st.expandLimit := rfl
  have e3 : (st.withViewport (2 * w) (2 * h)).expandImage = st.expandImage := rfl
  have e4 : (st.withViewport (2 * w) (2 * h)).expandLimit = st.expandLimit := rfl
  rw [e1, e2, e3, e4, if_neg h1, if_neg h2]
  exact fitRatio_double st.view p w h

theorem updateFitWindowScale_doubles_witness :
    (sampleViewer.withViewport 1600 1200).updateFitWindowScale.fitWindowScale =
      2 * (sampleViewer.withViewport 800 600).updateFitWindowScale.fitWindowScale :=
  updateFitWindowScale_doubles sampleViewer samplePixmap 800 600 rfl (by decide) (by decide)
    (by decide!) (by decide!)

/-! Selection of the sampling mode (C25) -/

theorem selectTransformationMode_fast_iff (st : ImageViewerV2) :
    st.selectTransformationMode = TransformationMode.FastTransformation ↔ st.fastSampling := by
  unfold selectTransformationMode fastSampling hasAnimation
  cases hf : st.forceFastScale <;> cases hm : st.movie.isSome <;>
    cases ha : st.smoothAnimatedImages <;> cases hu : st.smoothUpscaling <;>
    by_cases hs : st.pixmapItem.scale > 1 <;>
    by_cases hn : st.mScalingFilter = ScalingFilter.QI_FILTER_NEAREST <;>
    simp [hs, hn]

theorem selectTransformationMode_smooth_iff (st : ImageViewerV2) :
    st.selectTransformationMode = TransformationMode.SmoothTransformation ↔ ¬ st.fastSampling := by
  rw [← selectTransformationMode_fast_iff]
  cases h : st.selectTransformationMode <;> simp

theorem selectTransformationMode_congr (a b : ImageViewerV2) (h : sameSamplingInputs a b) :
    b.selectTransformationMode = a.selectTransformationMode := by
  obtain ⟨h1, h2, h3, h4, h5, h6⟩ := h
  unfold hasAnimation at h2
  unfold selectTransformationMode
  rw [h1, h2, h3, h4, h5, h6]

theorem swapToOriginalPixmap_sampling (st : ImageViewerV2) :
    sameSamplingInputs st st.swapToOriginalPixmap ∧
    st.swapToOriginalPixmap.pixmapItem.transformationMode = st.pixmapItem.transformationMode := by
  unfold swapToOriginalPixmap
  split
  · exact ⟨⟨rfl, rfl, rfl, rfl, rfl, rfl⟩, rfl⟩
  · exact ⟨⟨rfl, rfl, rfl, rfl, rfl, rfl⟩, rfl⟩

/-- The tail of `doZoom`: once the mode is selected for the new scale, neither
`swapToOriginalPixmap` nor the emitted signal changes it or what it was selected from. -/
theorem doZoomTail_transformationMode (x : ImageViewerV2) (sig : ViewerSignal) :
    ((({ x with pixmapItem :=
        { x.pixmapItem with transformationMode := x.selectTransformationMode } } :
          ImageViewerV2).swapToOriginalPixmap).emit sig).pixmapItem.transformationMode =
      ((({ x with pixmapItem :=
        { x.pixmapItem with transformationMode := x.selectTransformationMode } } :
          ImageViewerV2).swapToOriginalPixmap).emit sig).selectTransformationMode := by
  generalize hy : ({ x with pixmapItem :=
    { x.pixmapItem with transformationMode := x.selectTransformationMode } } :
      ImageViewerV2) = y
  have hxy : sameSamplingInputs x y ∧
      y.pixmapItem.transformationMode = x.selectTransformationMode := by
    rw [← hy]
    exact ⟨⟨rfl, rfl, rfl, rfl, rfl, rfl⟩, rfl⟩
  have hsw := swapToOriginalPixmap_sampling y
  have he : sameSamplingInputs y.swapToOriginalPixmap (y.swapToOriginalPixmap.emit sig) :=
    ⟨rfl, rfl, rfl, rfl, rfl, rfl⟩
  rw [selectTransformationMode_congr _ _ he, selectTransformationMode_congr _ _ hsw.1,
    selectTransformationMode_congr _ _ hxy.1]
  show y.swapToOriginalPixmap.pixmapItem.transformationMode = x.selectTransformationMode
  rw [hsw.2, hxy.2]

/-- After `doZoom` with content displayed the sampling mode of the item is the one
`selectTransformationMode` gives in the new state. -/
theorem doZoom_transformationMode (st : ImageViewerV2) (s : ℚ) (h : st.isDisplaying = true) :
    (st.doZoom s).pixmapItem.transformationMode = (st.doZoom s).selectTransformationMode := by
  unfold isDisplaying at h
  unfold doZoom
  split
  · rename_i hp
    rw [hp] at h
    simp at h
  · exact doZoomTail_transformationMode _ _

theorem doZoom_no_content (st : ImageViewerV2) (s : ℚ) (h : st.isDisplaying = false) :
    st.doZoom s = st := by
  unfold isDisplaying at h
  unfold doZoom
  rcases Option.eq_none_or_eq_some st.pixmap with hp | ⟨p, hp⟩
  · rw [hp]
  · rw [hp] at h
    simp at h

/-- C25, as the code has it.  `selectTransformationMode` depends on `forceFastScale`, on
whether the content is animated, on the scale, on `smoothAnimatedImages`, on
`smoothUpscaling` and on the scaling filter only; it returns fast sampling exactly when
`forceFastScale` is set, or the content is animated and (`smoothAnimatedImages` is off or
(scale > 1 and `smoothUpscaling` is off)), or the content is static and ((scale > 1 and
`smoothUpscaling` is off) or the filter is NEAREST), and smooth sampling otherwise.  After
`doZoom` with content displayed the sampling mode of the item is this value for the new
scale, which is the request clamped to `[minScale, 500]`; without content `doZoom` changes
nothing. -/
theorem selectTransformationMode_characterised (st st' : ImageViewerV2) (s : ℚ) :
    (sameSamplingInputs st st' → st'.selectTransformationMode = st.selectTransformationMode) ∧
    (st.selectTransformationMode = TransformationMode.FastTransformation ↔ st.fastSampling) ∧
    (st.selectTransformationMode = TransformationMode.SmoothTransformation ↔
      ¬ st.fastSampling) ∧
    (st.isDisplaying = true →
      (st.doZoom s).pixmapItem.scale = qBound st.minScale s 500 ∧
      (st.doZoom s).pixmapItem.transformationMode = (st.doZoom s).selectTransformationMode) ∧
    (st.isDisplaying = false → st.doZoom s = st) :=
  ⟨selectTransformationMode_congr st st', selectTransformationMode_fast_iff st,
   selectTransformationMode_smooth_iff st,
   fun h => ⟨doZoom_scale st s h, doZoom_transformationMode st s h⟩, doZoom_no_content st s⟩

theorem selectTransformationMode_characterised_witness :
    sameSamplingInputs sampleViewer pointerOutsideViewer ∧
    pointerOutsideViewer.selectTransformationMode = sampleViewer.selectTransformationMode ∧
    sampleViewer.isDisplaying = true ∧
    (sampleViewer.doZoom 2).pixmapItem.scale = 2 ∧
    (sampleViewer.doZoom 2).pixmapItem.transformationMode =
      (sampleViewer.doZoom 2).selectTransformationMode ∧
    emptyViewer.isDisplaying = false ∧ emptyViewer.doZoom 2 = emptyViewer :=
  ⟨⟨rfl, rfl, rfl, rfl, rfl, rfl⟩,
   (selectTransformationMode_characterised sampleViewer pointerOutsideViewer 2).1
     ⟨rfl, rfl, rfl, rfl, rfl, rfl⟩,
   rfl,
   (((selectTransformationMode_characterised sampleViewer pointerOutsideViewer 2).2.2.2.1 rfl).1).trans
     (by decide!),
   ((selectTransformationMode_characterised sampleViewer pointerOutsideViewer 2).2.2.2.1 rfl).2,
   rfl,
   (selectTransformationMode_characterised emptyViewer emptyViewer 2).2.2.2.2 rfl⟩

/-- C25 fails as stated for a `doZoom` without content: the viewer closed after an upscale
displays nothing, its item samples fast, and `doZoom` returns at once, so the item still
samples fast although `selectTransformationMode` gives smooth sampling (for the scale 1 of
the item as for the requested scale 1/2). -/
theorem doZoom_no_content_counterexample :
    closedAfterUpscale.isDisplaying = false ∧
    (closedAfterUpscale.doZoom (1 / 2)).pixmapItem.transformationMode =
      TransformationMode.FastTransformation ∧
    (closedAfterUpscale.doZoom (1 / 2)).pixmapItem.scale = 1 ∧
    (closedAfterUpscale.doZoom (1 / 2)).selectTransformationMode =
      TransformationMode.SmoothTransformation ∧
    ({ closedAfterUpscale.doZoom (1 / 2) with
        pixmapItem := { (closedAfterUpscale.doZoom (1 / 2)).pixmapItem with scale := 1 / 2 } } :
      ImageViewerV2).selectTransformationMode = TransformationMode.SmoothTransformation := by
  decide!

/-! Pointer zoom and drag (C26 to C28) -/

/-- Outside the viewer `zoomOutCursor` is `zoomInCursor`: the two bodies differ in the branch
for a pointer over the viewer only. -/
theorem zoomOutCursor_eq_zoomInCursor (st : ImageViewerV2) (h : st.view.underMouse = false) :
    st.zoomOutCursor = st.zoomInCursor := by
  unfold zoomOutCursor zoomInCursor
  simp only [h, Bool.false_eq_true, if_false]

/-- The end of the interactive zoom functions: from a state in fit mode FREE the mode
becomes WINDOW when the scale equals `fitWindowScale`, and stays FREE otherwise. -/
theorem windowIfFit_imageFitMode (y r : ImageViewerV2)
    (hy : y.imageFitMode = ImageFitMode.FIT_FREE)
    (hr : r = if y.pixmapItem.scale = y.fitWindowScale then
      { y with imageFitMode := ImageFitMode.FIT_WINDOW } else y) :
    r.imageFitMode =
      if r.pixmapItem.scale = r.fitWindowScale then ImageFitMode.FIT_WINDOW
      else ImageFitMode.FIT_FREE := by
  by_cases h : y.pixmapItem.scale = y.fitWindowScale
  · have h1 : r = { y with imageFitMode := ImageFitMode.FIT_WINDOW } := hr.trans (if_pos h)
    rw [h1]
    exact (if_pos h).symm
  · have h1 : r = y := hr.trans (if_neg h)
    rw [h1, if_neg h]
    exact hy

/-- The fit mode `zoomOut` leaves: WINDOW exactly when the scale equals `fitWindowScale`. -/
theorem zoomOut_imageFitMode (st : ImageViewerV2) :
    st.zoomOut.imageFitMode =
      if st.zoomOut.pixmapItem.scale = st.zoomOut.fitWindowScale then ImageFitMode.FIT_WINDOW
      else ImageFitMode.FIT_FREE :=
  windowIfFit_imageFitMode _ st.zoomOut rfl rfl

/-- The fit mode `mouseMoveZoom` leaves: WINDOW exactly when the scale equals
`fitWindowScale`. -/
theorem mouseMoveZoom_imageFitMode (st : ImageViewerV2) (pos : QPoint) :
    (st.mouseMoveZoom pos).imageFitMode =
      if (st.mouseMoveZoom pos).pixmapItem.scale = (st.mouseMoveZoom pos).fitWindowScale then
        ImageFitMode.FIT_WINDOW
      else ImageFitMode.FIT_FREE := by
  have hl := (zoomAnchored_lockFrame
    ({ st with mouseMoveStartPos := pos, imageFitMode := ImageFitMode.FIT_FREE } : ImageViewerV2)
    (st.currentScale * (1 + 3 / 1000 * ((st.mouseMoveStartPos.y - pos.y : ℤ) : ℚ) * st.dpr))).lockTrans
    (centerSnap_lockFrame _)
  exact windowIfFit_imageFitMode _ (st.mouseMoveZoom pos) hl.imageFitMode rfl

/-- A move with the left button held, from the state `MOUSE_NONE` with the scaled image
fitting the viewport and the drag threshold exceeded: `draggedOut` is emitted and the state
is `MOUSE_NONE` again, so the next such move does the same. -/
theorem mouseMoveEvent_drag_out (st : ImageViewerV2) (event : QMouseEvent)
    (hp : st.pixmap.isSome = true)
    (hi : st.mouseInteraction = MouseInteractionState.MOUSE_NONE)
    (hfit : st.scaledImageFits = true) (hl : event.leftHeld = true)
    (hth : |st.mousePressPos.x - event.pos.x| > st.consts.dragThreshold ∨
      |st.mousePressPos.y - event.pos.y| > st.consts.dragThreshold) :
    st.mouseMoveEvent event =
      ({ st with mouseInteraction := MouseInteractionState.MOUSE_NONE } : ImageViewerV2).emit
        ViewerSignal.draggedOut := by
  have hn : st.pixmap.isNone = false := by
    rcases Option.eq_none_or_eq_some st.pixmap with h | ⟨p, h⟩
    · rw [h] at hp; simp at hp
    · rw [h]; rfl
  unfold mouseMoveEvent
  simp only [hn, hi, hfit, hl, if_true, Bool.false_or]
  simp [hth, emit]

/-- With the interaction state `MOUSE_DRAG` a mouse move is ignored: this is the guard at the
top of `mouseMoveEvent`. -/
theorem mouseMoveEvent_ignored_in_drag (st : ImageViewerV2) (event : QMouseEvent)
    (h : st.mouseInteraction = MouseInteractionState.MOUSE_DRAG) :
    st.mouseMoveEvent event = st := by
  unfold mouseMoveEvent
  simp [h]

/-- C26, at the failing input: the 100 x 100 image displayed in the 800 x 600 viewport (scale
1, `minScale` 1, `fitWindowScale` 6) is zoomed in once and then zoomed out again, by
`zoomOut` and by a right-button drag of 100 pixels downwards.  Both times the scale is back
at `minScale` and the fit mode is FREE, not WINDOW: the code compares the scale with
`fitWindowScale`. -/
theorem zoomOut_at_minScale_mode :
    smallFittedViewer.zoomIn.isDisplaying = true ∧
    smallFittedViewer.zoomIn.zoomOut.minScale = 1 ∧
    smallFittedViewer.zoomIn.zoomOut.fitWindowScale = 6 ∧
    smallFittedViewer.zoomIn.zoomOut.pixmapItem.scale = smallFittedViewer.zoomIn.zoomOut.minScale ∧
    smallFittedViewer.zoomIn.zoomOut.imageFitMode = ImageFitMode.FIT_FREE ∧
    ((smallFittedViewer.zoomIn.mousePressEvent rightPress).mouseMoveEvent
        (rightMove ⟨400, 400⟩)).pixmapItem.scale =
      ((smallFittedViewer.zoomIn.mousePressEvent rightPress).mouseMoveEvent
        (rightMove ⟨400, 400⟩)).minScale ∧
    ((smallFittedViewer.zoomIn.mousePressEvent rightPress).mouseMoveEvent
        (rightMove ⟨400, 400⟩)).imageFitMode = ImageFitMode.FIT_FREE := by
  decide!

/-- C27, at the failing input: the 100 x 100 image fits the viewport; after a left press at
(400, 300) the move to (420, 300) exceeds the drag threshold of 10 and emits `draggedOut`,
leaving the interaction state `MOUSE_NONE`; the next move of the same press, to (430, 300),
is not ignored and emits `draggedOut` a second time. -/
theorem draggedOut_twice :
    smallFittedViewer.scaledImageFits = true ∧
    ((smallFittedViewer.mousePressEvent leftPress).mouseMoveEvent
      (leftMove ⟨420, 300⟩)).emitted.count ViewerSignal.draggedOut = 1 ∧
    ((smallFittedViewer.mousePressEvent leftPress).mouseMoveEvent
      (leftMove ⟨420, 300⟩)).mouseInteraction = MouseInteractionState.MOUSE_NONE ∧
    (((smallFittedViewer.mousePressEvent leftPress).mouseMoveEvent
      (leftMove ⟨420, 300⟩)).mouseMoveEvent (leftMove ⟨430, 300⟩)).emitted.count
        ViewerSignal.draggedOut = 2 := by
  decide!

/-- C28, at the failing input: the 4000 x 3000 image is displayed at scale 1 with a relative
zoom step of 1/10 and the pointer is not over the viewer; `zoomOutCursor` leaves the scale
at 11/10, because the branch for a pointer outside the viewer calls `zoomIn`. -/
theorem zoomOutCursor_outside_zooms_in :
    pointerOutsideViewer.isDisplaying = true ∧ pointerOutsideViewer.view.underMouse = false ∧
    pointerOutsideViewer.absoluteStep = false ∧ pointerOutsideViewer.zoomStep = 1 / 10 ∧
    pointerOutsideViewer.pixmapItem.scale = 1 ∧
    pointerOutsideViewer.zoomOutCursor.pixmapItem.scale = 11 / 10 ∧
    pointerOutsideViewer.zoomOut.pixmapItem.scale = 9 / 10 := by
  decide!

/-! Frame seeking and manual frame stepping (C29, C30) -/

theorem jumpToNextFrame_fails (m : QMovie)
    (h : ¬ (0 ≤ m.currentFrameNumber + 1 ∧ m.currentFrameNumber + 1 < m.frameCount ∧
      m.currentFrameNumber + 1 ∉ m.broken)) :
    m.jumpToNextFrame = ({ m with calls := m.calls ++ [MovieCall.jumpToNextFrame] }, false) := by
  unfold QMovie.jumpToNextFrame
  rw [if_neg h]

/-- A step of the decoder, by cases: on success the frame number grows by one, on failure
it stays and the next step fails as well; the frame count and the undecodable frames never
change. -/
theorem jumpToNextFrame_cases (m : QMovie) :
    m.jumpToNextFrame.1.frameCount = m.frameCount ∧
    m.jumpToNextFrame.1.broken = m.broken ∧
    ((m.jumpToNextFrame.2 = true ∧ 0 ≤ m.currentFrameNumber + 1 ∧
        m.currentFrameNumber + 1 < m.frameCount ∧
        m.jumpToNextFrame.1.currentFrameNumber = m.currentFrameNumber + 1) ∨
      (m.jumpToNextFrame.2 = false ∧
        m.jumpToNextFrame.1.currentFrameNumber = m.currentFrameNumber ∧
        m.jumpToNextFrame.1.jumpToNextFrame.2 = false)) := by
  by_cases h : 0 ≤ m.currentFrameNumber + 1 ∧ m.currentFrameNumber + 1 < m.frameCount ∧
      m.currentFrameNumber + 1 ∉ m.broken
  · rw [jumpToNextFrame_ok m h.1 h.2.1 h.2.2]
    exact ⟨rfl, rfl, Or.inl ⟨rfl, h.1, h.2.1, rfl⟩⟩
  · rw [jumpToNextFrame_fails m h]
    have h2 := congrArg Prod.snd (jumpToNextFrame_fails
      { m with calls := m.calls ++ [MovieCall.jumpToNextFrame] } h)
    exact ⟨rfl, rfl, Or.inr ⟨rfl, rfl, h2⟩⟩

/-- The seek loop ends when it has a fuel of at least one round and of at least
`frameCount - currentFrameNumber` rounds: it stops at the target or where a step of the
decoder fails. -/
theorem seekLoop_terminates : ∀ (fuel : ℕ) (t : ℤ) (m : QMovie),
    1 ≤ fuel → (m.currentFrameNumber < -1 ∨ m.frameCount - m.currentFrameNumber ≤ (fuel : ℤ)) →
    ∃ m1, seekLoop fuel t m = some m1 ∧
      (m1.currentFrameNumber = t ∨ m1.jumpToNextFrame.2 = false) := by
  intro fuel
  induction fuel with
  | zero => intro t m h1 _; omega
  | succ k ih =>
    intro t m _ hf
    unfold seekLoop
    by_cases hne : t ≠ m.currentFrameNumber
    · rw [if_pos hne]
      obtain ⟨_, _, hs | hs⟩ := jumpToNextFrame_cases m
      · obtain ⟨h2, h0, hn, hc⟩ := hs
        simp only [h2, Bool.not_true, Bool.false_eq_true, if_false]
        have hfc : m.jumpToNextFrame.1.frameCount = m.frameCount := (jumpToNextFrame_cases m).1
        refine ih t m.jumpToNextFrame.1 ?_ ?_
        · push_cast at hf
          omega
        · right
          rw [hfc, hc]
          push_cast at hf
          omega
      · obtain ⟨h2, _, hfail⟩ := hs
        simp only [h2, Bool.not_false, if_true]
        exact ⟨_, rfl, Or.inr hfail⟩
    · rw [if_neg hne]
      push_neg at hne
      exact ⟨m, rfl, Or.inl hne.symm⟩

theorem jumpToFrame0_bounds (m : QMovie) (h : -1 ≤ m.currentFrameNumber) :
    m.jumpToFrame0.1.frameCount = m.frameCount ∧ -1 ≤ m.jumpToFrame0.1.currentFrameNumber := by
  unfold QMovie.jumpToFrame0
  split
  · exact ⟨rfl, h⟩
  · split
    · refine ⟨rfl, ?_⟩
      show (-1 : ℤ) ≤ 0
      omega
    · exact ⟨rfl, h⟩

/-- C29, as the code has it.  `showAnimationFrame t` returns false and leaves the state as it
was when there is no animation or `t` is outside `[0, frameCount)`.  In every other case,
for every decoder, it returns true (given fuel for `frameCount + 1` rounds of its loop); the
frame index is then `t`, or it is the index at which a step of the decoder failed. -/
theorem showAnimationFrame_result (st : ImageViewerV2) (t : ℤ) (fuel : ℕ) :
    (st.hasAnimation = false → st.showAnimationFrame t fuel = some (st, false)) ∧
    (∀ m, st.movie = some m → (t < 0 ∨ m.frameCount ≤ t) →
      st.showAnimationFrame t fuel = some (st, false)) ∧
    (∀ m, st.movie = some m → 0 ≤ t → t < m.frameCount → m.frameCount + 1 ≤ (fuel : ℤ) →
      ∃ st1 m1, st.showAnimationFrame t fuel = some (st1, true) ∧ st1.movie = some m1 ∧
        (m1.currentFrameNumber = t ∨ m1.jumpToNextFrame.2 = false)) := by
  refine ⟨?_, ?_, ?_⟩
  · intro h
    unfold hasAnimation at h
    have hm : st.movie = none := by
      rcases Option.eq_none_or_eq_some st.movie with hm | ⟨m, hm⟩
      · exact hm
      · rw [hm] at h
        simp at h
    simp [showAnimationFrame, hm]
  · intro m hm hr
    have hr2 : t < 0 ∨ t ≥ m.frameCount := hr
    simp [showAnimationFrame, hm, hr2]
  · intro m hm h0 hn hfuel
    have hrange : ¬ (t < 0 ∨ t ≥ m.frameCount) := by omega
    by_cases hcur : m.currentFrameNumber = t
    · refine ⟨st, m, ?_, hm, Or.inl hcur⟩
      simp [showAnimationFrame, hm, hrange, hcur]
    · have hstart : 1 ≤ fuel ∧
          ((if t < m.currentFrameNumber then m.jumpToFrame0.1 else m).currentFrameNumber < -1 ∨
            (if t < m.currentFrameNumber then m.jumpToFrame0.1 else m).frameCount -
              (if t < m.currentFrameNumber then m.jumpToFrame0.1 else m).currentFrameNumber ≤
                (fuel : ℤ)) := by
        refine ⟨by omega, ?_⟩
        by_cases hlt : t < m.currentFrameNumber
        · have hb := jumpToFrame0_bounds m (by omega)
          rw [if_pos hlt, hb.1]
          have := hb.2
          right
          omega
        · rw [if_neg hlt]
          omega
      obtain ⟨m1, hs, hpost⟩ := seekLoop_terminates fuel t _ hstart.1 hstart.2
      have hres := showAnimationFrame_of_seek st m m1 t fuel hm hrange hcur hs
      exact ⟨_, m1, hres, rfl, hpost⟩

theorem showAnimationFrame_result_witness :
    ∃ st1 m1, (brokenGifViewerAt 1).showAnimationFrame 4 6 = some (st1, true) ∧
      st1.movie = some m1 ∧ (m1.currentFrameNumber = 4 ∨ m1.jumpToNextFrame.2 = false) :=
  (showAnimationFrame_result (brokenGifViewerAt 1) 4 6).2.2
    { gifMovie with currentFrameNumber := 1, broken := [3] } rfl (by decide) (by decide)
    (by decide)

/-- C29 fails as stated: with 5 frames, the viewer at frame 1 and a decoder that cannot
deliver frame 3, `showAnimationFrame 4` returns true although the frame index is 2
afterwards. -/
theorem showAnimationFrame_true_counterexample :
    ((brokenGifViewerAt 1).showAnimationFrame 4 10).map
        (fun r => (r.2, r.1.movie.map QMovie.currentFrameNumber)) = some (true, some 2) := by
  decide!

/-- Seeking with a decoder that delivers every frame: the movie ends at frame `t`, with the
frame count and the decoder it had. -/
theorem showAnimationFrame_movie (st : ImageViewerV2) (m : QMovie) (t : ℤ) (fuel : ℕ)
    (hm : st.movie = some m)
    (hdec : ∀ k, 0 ≤ k → k < m.frameCount → k ∉ m.broken)
    (hf0 : 0 ≤ m.currentFrameNumber)
    (ht0 : 0 ≤ t) (htn : t < m.frameCount) (hfuel : m.frameCount ≤ (fuel : ℤ)) :
    ∃ st1 m1, st.showAnimationFrame t fuel = some (st1, true) ∧ st1.movie = some m1 ∧
      m1.currentFrameNumber = t ∧ m1.frameCount = m.frameCount ∧ m1.broken = m.broken := by
  have hrange : ¬ (t < 0 ∨ t ≥ m.frameCount) := by omega
  by_cases hcur : m.currentFrameNumber = t
  · refine ⟨st, m, ?_, hm, hcur, rfl, rfl⟩
    simp [showAnimationFrame, hm, hrange, hcur]
  · by_cases hlt : t < m.currentFrameNumber
    · have h0 : m.currentFrameNumber ≠ 0 := by omega
      have hj : m.jumpToFrame0.1 =
          { m with currentFrameNumber := 0, calls := m.calls ++ [MovieCall.jumpToFrame 0] } := by
        unfold QMovie.jumpToFrame0
        rw [if_neg h0, if_pos ⟨by omega, hdec 0 le_rfl (by omega)⟩]
      have hs := seekLoop_steps t.toNat fuel t m.jumpToFrame0.1 (by omega) (by rw [hj])
        (by rw [hj]; simp; omega) (by rw [hj]; exact htn) (by rw [hj]; exact hdec)
      have hres := showAnimationFrame_of_seek st m _ t fuel hm hrange hcur
        (by rw [if_pos hlt]; exact hs)
      refine ⟨_, _, hres, rfl, rfl, ?_, ?_⟩
      · rw [hj]
      · rw [hj]
    · have hs := seekLoop_steps (t - m.currentFrameNumber).toNat fuel t m (by omega) hf0
        (by omega) htn hdec
      have hres := showAnimationFrame_of_seek st m _ t fuel hm hrange hcur
        (by rw [if_neg hlt]; exact hs)
      exact ⟨_, _, hres, rfl, rfl, rfl, rfl⟩

theorem nextFrame_movie (st : ImageViewerV2) (m : QMovie) (fuel : ℕ)
    (hm : st.movie = some m)
    (hdec : ∀ k, 0 ≤ k → k < m.frameCount → k ∉ m.broken)
    (hf0 : 0 ≤ m.currentFrameNumber) (hfn : m.currentFrameNumber < m.frameCount)
    (hfuel : m.frameCount ≤ (fuel : ℤ)) :
    ∃ st1 m1, st.nextFrame fuel = some st1 ∧ st1.movie = some m1 ∧
      m1.currentFrameNumber = (m.currentFrameNumber + 1) % m.frameCount ∧
      m1.frameCount = m.frameCount ∧ m1.broken = m.broken := by
  unfold nextFrame
  rw [hm]
  simp only []
  by_cases hlast : m.currentFrameNumber = m.frameCount - 1
  · rw [if_pos hlast]
    obtain ⟨st1, m1, h1, h2, h3, h4, h5⟩ :=
      showAnimationFrame_movie st m 0 fuel hm hdec hf0 le_rfl (by omega) hfuel
    refine ⟨st1, m1, by rw [h1]; rfl, h2, ?_, h4, h5⟩
    rw [h3, hlast]
    simp
  · rw [if_neg hlast]
    obtain ⟨st1, m1, h1, h2, h3, h4, h5⟩ :=
      showAnimationFrame_movie st m (m.currentFrameNumber + 1) fuel hm hdec hf0 (by omega)
        (by omega) hfuel
    refine ⟨st1, m1, by rw [h1]; rfl, h2, ?_, h4, h5⟩
    rw [h3, Int.emod_eq_of_lt (by omega) (by omega)]

theorem prevFrame_movie (st : ImageViewerV2) (m : QMovie) (fuel : ℕ)
    (hm : st.movie = some m)
    (hdec : ∀ k, 0 ≤ k → k < m.frameCount → k ∉ m.broken)
    (hf0 : 0 ≤ m.currentFrameNumber) (hfn : m.currentFrameNumber < m.frameCount)
    (hfuel : m.frameCount ≤ (fuel : ℤ)) :
    ∃ st1 m1, st.prevFrame fuel = some st1 ∧ st1.movie = some m1 ∧
      m1.currentFrameNumber = (m.currentFrameNumber - 1) % m.frameCount ∧
      m1.frameCount = m.frameCount ∧ m1.broken = m.broken := by
  unfold prevFrame
  rw [hm]
  simp only []
  by_cases hfirst : m.currentFrameNumber = 0
  · rw [if_pos hfirst]
    obtain ⟨st1, m1, h1, h2, h3, h4, h5⟩ :=
      showAnimationFrame_movie st m (m.frameCount - 1) fuel hm hdec hf0 (by omega) (by omega)
        hfuel
    refine ⟨st1, m1, by rw [h1]; rfl, h2, ?_, h4, h5⟩
    rw [h3, hfirst]
    have hn : (0 : ℤ) < m.frameCount := by omega
    have : (0 - 1 : ℤ) % m.frameCount = m.frameCount - 1 := by
      rw [show (0 - 1 : ℤ) = (m.frameCount - 1) + (-1) * m.frameCount by ring,
        Int.add_mul_emod_self, Int.emod_eq_of_lt (by omega) (by omega)]
    rw [this]
  · rw [if_neg hfirst]
    obtain ⟨st1, m1, h1, h2, h3, h4, h5⟩ :=
      showAnimationFrame_movie st m (m.currentFrameNumber - 1) fuel hm hdec hf0 (by omega)
        (by omega) hfuel
    refine ⟨st1, m1, by rw [h1]; rfl, h2, ?_, h4, h5⟩
    rw [h3, Int.emod_eq_of_lt (by omega) (by omega)]

/-- C30. For an animation of `n` frames whose decoder delivers every frame, at frame `f` in
`[0, n)`: `nextFrame` moves to frame `(f + 1) mod n` and `prevFrame` to frame
`(f - 1) mod n`, and `prevFrame` after `nextFrame`, like `nextFrame` after `prevFrame`,
ends at frame `f` again (each call with fuel for `n` rounds of the seek loop). -/
theorem frame_stepping_cyclic (st : ImageViewerV2) (m : QMovie) (fuel : ℕ)
    (hm : st.movie = some m)
    (hdec : ∀ k, 0 ≤ k → k < m.frameCount → k ∉ m.broken)
    (hf0 : 0 ≤ m.currentFrameNumber) (hfn : m.currentFrameNumber < m.frameCount)
    (hfuel : m.frameCount ≤ (fuel : ℤ)) :
    (∃ st1 m1, st.nextFrame fuel = some st1 ∧ st1.movie = some m1 ∧
      m1.currentFrameNumber = (m.currentFrameNumber + 1) % m.frameCount ∧
      ∃ st2 m2, st1.prevFrame fuel = some st2 ∧ st2.movie = some m2 ∧
        m2.currentFrameNumber = m.currentFrameNumber) ∧
    (∃ st1 m1, st.prevFrame fuel = some st1 ∧ st1.movie = some m1 ∧
      m1.currentFrameNumber = (m.currentFrameNumber - 1) % m.frameCount ∧
      ∃ st2 m2, st1.nextFrame fuel = some st2 ∧ st2.movie = some m2 ∧
        m2.currentFrameNumber = m.currentFrameNumber) := by
  have hn : (0 : ℤ) < m.frameCount := by omega
  constructor
  · obtain ⟨st1, m1, h1, h2, h3, h4, h5⟩ := nextFrame_movie st m fuel hm hdec hf0 hfn hfuel
    have hr0 : 0 ≤ m1.currentFrameNumber := by rw [h3]; exact Int.emod_nonneg _ (by omega)
    have hrn : m1.currentFrameNumber < m1.frameCount := by
      rw [h3, h4]; exact Int.emod_lt_of_pos _ hn
    obtain ⟨st2, m2, g1, g2, g3, _, _⟩ := prevFrame_movie st1 m1 fuel h2
      (by rw [h4, h5]; exact hdec) hr0 hrn (by rw [h4]; exact hfuel)
    refine ⟨st1, m1, h1, h2, h3, st2, m2, g1, g2, ?_⟩
    rw [g3, h3, h4, Int.sub_emod, Int.emod_emod, ← Int.sub_emod, add_sub_cancel_right,
      Int.emod_eq_of_lt hf0 hfn]
  · obtain ⟨st1, m1, h1, h2, h3, h4, h5⟩ := prevFrame_movie st m fuel hm hdec hf0 hfn hfuel
    have hr0 : 0 ≤ m1.currentFrameNumber := by rw [h3]; exact Int.emod_nonneg _ (by omega)
    have hrn : m1.currentFrameNumber < m1.frameCount := by
      rw [h3, h4]; exact Int.emod_lt_of_pos _ hn
    obtain ⟨st2, m2, g1, g2, g3, _, _⟩ := nextFrame_movie st1 m1 fuel h2
      (by rw [h4, h5]; exact hdec) hr0 hrn (by rw [h4]; exact hfuel)
    refine ⟨st1, m1, h1, h2, h3, st2, m2, g1, g2, ?_⟩
    rw [g3, h3, h4, Int.add_emod, Int.emod_emod, ← Int.add_emod, sub_add_cancel,
      Int.emod_eq_of_lt hf0 hfn]

theorem frame_stepping_cyclic_witness :
    (∃ st1 m1, (gifViewerAt 4).nextFrame 5 = some st1 ∧ st1.movie = some m1 ∧
      m1.currentFrameNumber = 0 ∧
      ∃ st2 m2, st1.prevFrame 5 = some st2 ∧ st2.movie = some m2 ∧
        m2.currentFrameNumber = 4) ∧
    (∃ st1 m1, (gifViewerAt 4).prevFrame 5 = some st1 ∧ st1.movie = some m1 ∧
      m1.currentFrameNumber = 3 ∧
      ∃ st2 m2, st1.nextFrame 5 = some st2 ∧ st2.movie = some m2 ∧
        m2.currentFrameNumber = 4) :=
  frame_stepping_cyclic (gifViewerAt 4) { gifMovie with currentFrameNumber := 4 } 5 rfl
    (by intro k _ _; simp [gifMovie]) (by decide) (by decide) (by decide)

end ImageViewerV2

end Qimgv
